import Mathlib

/-!
# Building lease and access management: the access-verification engine

A shallow embedding of `src/services/accessVerification.service.js`,
`src/utils/timeHelper.js` and the repositories they call, followed by theorems
about `verifyAccess`.

Conventions of the embedding:

* a JavaScript value that may be `null`/`undefined` is an `Option`;
* an `async` function that may throw returns `Except Fault α`, paired with the
  store it leaves behind, so that `try`/`catch` is an explicit `match`;
* the relational store is the record `Database`, one list of rows per table;
* the answers of the read collaborators and the failure of the log insert are
  parameters (`Repositories`), so that a statement over every `Repositories`
  covers every behaviour of the collaborators; the concrete repositories of
  `src/repositories` are given as well, over a `Connection` that says which
  queries the store answers with an error;
* the system clock is read once per request (`Clock`).
-/

namespace BuildingAccess

/-! ## Errors -/

/-- The `error` member of a store response. -/
structure PgError where
  code : String
  message : String
deriving DecidableEq, Repr

/-- What the JavaScript code can throw. -/
inductive Fault where
  /-- The statement `throw error` with the error object of a store response. -/
  | store (e : PgError)
  /-- The statement `throw new NotFoundError(message)`. -/
  | notFound (message : String)
  /-- A property read on `null` or `undefined`. -/
  | typeError (message : String)
  /-- The statement `throw new ValidationError(message)`. -/
  | validation (message : String)
  /-- The statement `throw new ConflictError(message)`. -/
  | conflict (message : String)
  /-- A RangeError of the runtime, such as the one for an unknown timezone. -/
  | rangeError (message : String)
  /-- The statement `throw new ForbiddenError(message)`. -/
  | forbidden (message : String)
deriving DecidableEq, Repr

/-! ## Tables -/

structure RoleRow where
  id : String
  name : String
  is_system_role : Bool := false
  organization_id : Option String := none
deriving DecidableEq, Repr

structure EmployeeRow where
  id : String
  name : String
  email : String := ""
  status : String
  organization_id : Option String := none
  role_id : Option String := none
deriving DecidableEq, Repr

structure AccessCardRow where
  id : String
  card_uid : String
  employee_id : Option String := none
  status : String
  issued_at : Option String := none
deriving DecidableEq, Repr

structure BuildingRow where
  id : String
  name : String := ""
  timezone : Option String := none
deriving DecidableEq, Repr

structure FloorRow where
  id : String
  floor_number : Int := 0
  building_id : Option String := none
deriving DecidableEq, Repr

structure OfficeSpaceRow where
  id : String
  name : String := ""
  floor_id : Option String := none
deriving DecidableEq, Repr

structure DoorRow where
  id : String
  name : String := ""
  location : String := ""
  office_space_id : Option String := none
  floor_id : Option String := none
deriving DecidableEq, Repr

structure DoorGroupRow where
  id : String
  name : String := ""
  type : String := ""
  description : String := ""
deriving DecidableEq, Repr

/-- A row of the junction table `door_door_group`. -/
structure DoorDoorGroupRow where
  door_id : String
  door_group_id : String
deriving DecidableEq, Repr

/-- A row of `role_door_group_permission`. -/
structure PermissionRow where
  id : String := ""
  role_id : String
  door_group_id : String
  access_type : String
  start_time : Option String := none
  end_time : Option String := none
deriving DecidableEq, Repr

/-- A row of `access_log`, which is also the `logData` object of `logAccess`. -/
structure AccessLogRow where
  card_uid : String
  door_id : String
  status : String
  denial_reason : Option String
  timestamp : String
deriving DecidableEq, Repr

/-- The relational store. -/
structure Database where
  access_card : List AccessCardRow := []
  employee : List EmployeeRow := []
  access_role : List RoleRow := []
  building : List BuildingRow := []
  floor : List FloorRow := []
  office_space : List OfficeSpaceRow := []
  door : List DoorRow := []
  door_group : List DoorGroupRow := []
  door_door_group : List DoorDoorGroupRow := []
  role_door_group_permission : List PermissionRow := []
  access_log : List AccessLogRow := []
deriving DecidableEq, Repr

/-! ## Shapes returned by the read joins -/

/-- The `employee:employee_id(..., role:role_id(...))` embed of `findByUid`. -/
structure Employee where
  id : String
  name : String
  email : String := ""
  status : String
  organization_id : Option String := none
  role : Option RoleRow := none
deriving DecidableEq, Repr

/-- The object returned by `CardRepository.findByUid`. -/
structure Card where
  id : String
  card_uid : String
  employee_id : Option String := none
  status : String
  employee : Option Employee := none
deriving DecidableEq, Repr

/-- The `floor:floor_id(id, floor_number, building:building_id(...))` embed. -/
structure Floor where
  id : String
  floor_number : Int := 0
  building : Option BuildingRow := none
deriving DecidableEq, Repr

/-- The `office_space:office_space_id(id, name)` embed. -/
structure OfficeSpace where
  id : String
  name : String := ""
deriving DecidableEq, Repr

/-- One element of the `door_groups:door_door_group(door_group:door_group_id(...))` embed. -/
structure DoorGroupLink where
  door_group : Option DoorGroupRow
deriving DecidableEq, Repr

/-- The object returned by `DoorRepository.findDoorById`. -/
structure Door where
  id : String
  name : String := ""
  location : String := ""
  office_space_id : Option String := none
  floor_id : Option String := none
  office_space : Option OfficeSpace := none
  floor : Option Floor := none
  door_groups : Option (List DoorGroupLink) := none
deriving DecidableEq, Repr

/-! ## Collaborators -/

/-- The system clock during one call of `verifyAccess`. `now` is the value of
`dayjs().toISOString()` when `TimeHelper.now()` is called at the head of
`verifyAccess`; `logNow` is its value when `TimeHelper.now()` is called again
inside `logAccess`, a later reading. `currentTime tz` is the value of
`dayjs().tz(tz).format('HH:mm:ss')` while the grants are evaluated; it is
`none` when `tz` is not a timezone that the runtime knows, in which case
`dayjs().tz(tz)` throws a RangeError. -/
structure Clock where
  now : String
  logNow : String
  currentTime : String → Option String

/-- The collaborators of the verification service: the three read lookups, each
returning a value or throwing, and the error, if any, with which the store
answers the insert of a log row. -/
structure Repositories where
  findByUid : Database → String → Except Fault (Option Card)
  findDoorById : Database → String → Except Fault (Option Door)
  checkRolePermission :
    Database → String → List String → Except Fault (Option (List PermissionRow))
  insertError : Database → AccessLogRow → Option PgError

/-! ## `src/utils/timeHelper.js` -/

namespace TimeHelper

/-- UTF-16 code units of a character. -/
def utf16Units (c : Char) : List Nat :=
  if c.toNat < 0x10000 then [c.toNat]
  else [0xD800 + (c.toNat - 0x10000) / 0x400, 0xDC00 + (c.toNat - 0x10000) % 0x400]

/-- The sequence of UTF-16 code units of a JavaScript string. -/
def codeUnits (s : String) : List Nat :=
  s.toList.flatMap utf16Units

/-- Lexicographic `<` on code-unit sequences. -/
def unitsLt : List Nat → List Nat → Bool
  | [], [] => false
  | [], _ :: _ => true
  | _ :: _, [] => false
  | a :: as, b :: bs => if a < b then true else if b < a then false else unitsLt as bs

/-- JavaScript `a < b` on strings. -/
def strLt (a b : String) : Bool := unitsLt (codeUnits a) (codeUnits b)

/-- JavaScript `a > b` on strings. -/
def strGt (a b : String) : Bool := strLt b a

/-- JavaScript `a <= b` on strings. -/
def strLe (a b : String) : Bool := !strLt b a

/-- JavaScript `a >= b` on strings. -/
def strGe (a b : String) : Bool := !strLt a b

/-- JavaScript `!s` for a string that may be `null` or `undefined`. -/
def falsy : Option String → Bool
  | none => true
  | some s => s == ""

/-- Method `TimeHelper.isWithinTimeRange(buildingTimezone, startTime, endTime)`.
The call `dayjs().tz(buildingTimezone)` comes after the check of the bounds and
throws for a timezone that the runtime does not know. -/
def isWithinTimeRange (clock : Clock) (buildingTimezone : String)
    (startTime endTime : Option String) : Except Fault Bool :=
  if falsy startTime || falsy endTime then .ok true
  else
    let start := startTime.getD ""
    let stop := endTime.getD ""
    match clock.currentTime buildingTimezone with
    | none => .error (.rangeError ("Invalid time zone specified: " ++ buildingTimezone))
    | some currentTime =>
      if strGt start stop then
        .ok (strGe currentTime start || strLe currentTime stop)
      else
        .ok (strGe currentTime start && strLe currentTime stop)

/-- Method `TimeHelper.now()`, as called at the head of `verifyAccess`. -/
def now (clock : Clock) : String := clock.now

/-- Method `TimeHelper.now()`, as called inside `logAccess`. -/
def nowAtLog (clock : Clock) : String := clock.logNow

/-- The regular expressions that `timeRegex` is built from, over UTF-16 code
units: a literal character, a character class `[lo-hi]`, a sequence and an
alternative `a|b`. -/
inductive Regex where
  | unit (u : Nat)
  | range (lo hi : Nat)
  | seq (a b : Regex)
  | alt (a b : Regex)
deriving Repr

namespace Regex

/-- A literal character of a pattern. -/
def lit (c : Char) : Regex := .unit c.toNat

/-- A character class `[lo-hi]` of a pattern. -/
def cls (lo hi : Char) : Regex := .range lo.toNat hi.toNat

/-- All the ways in which a pattern matches at the start of the input: the
list of what remains of the input after each match. -/
def matchPrefix : Regex → List Nat → List (List Nat)
  | .unit _, [] => []
  | .unit u, v :: rest => if v = u then [rest] else []
  | .range _ _, [] => []
  | .range lo hi, v :: rest => if lo ≤ v ∧ v ≤ hi then [rest] else []
  | .seq a b, input => (a.matchPrefix input).flatMap fun rest => b.matchPrefix rest
  | .alt a b, input => a.matchPrefix input ++ b.matchPrefix input

/-- The call `regex.test(s)` for a pattern written between `^` and `$`, without
flags: some match starts at the first code unit of `s` and ends at the last. -/
def test (r : Regex) (s : String) : Bool :=
  (r.matchPrefix (codeUnits s)).any fun rest => rest.isEmpty

end Regex

/-- The pattern `/^([0-1][0-9]|2[0-3]):([0-5][0-9]):([0-5][0-9])$/`. -/
def timeRegex : Regex :=
  .seq (.alt (.seq (.cls '0' '1') (.cls '0' '9')) (.seq (.lit '2') (.cls '0' '3')))
    (.seq (.lit ':')
      (.seq (.seq (.cls '0' '5') (.cls '0' '9'))
        (.seq (.lit ':') (.seq (.cls '0' '5') (.cls '0' '9')))))

/-- Method `TimeHelper.isValidTimeFormat(timeString)`. -/
def isValidTimeFormat (timeString : String) : Bool :=
  timeRegex.test timeString

end TimeHelper

/-! ## `src/repositories/accessLog.repository.js` -/

namespace AccessLogRepository

/-- Method `AccessLogRepository.create(logData)`: the insert appends the row and
returns it, or the store answers with an error, which is thrown. -/
def create (R : Repositories) (db : Database) (logData : AccessLogRow) :
    Except Fault AccessLogRow × Database :=
  match R.insertError db logData with
  | some error => (.error (.store error), db)
  | none => (.ok logData, { db with access_log := db.access_log ++ [logData] })

end AccessLogRepository

/-! ## The concrete read repositories of `src/repositories` -/

/-- Which queries the store answers with an error instead of rows, per table. -/
structure Connection where
  selectError : String → Option PgError
  insertError : String → Option PgError
  updateError : String → Option PgError := fun _ => none
  deleteError : String → Option PgError := fun _ => none

/-- The modifier `.single()` of the store client: exactly one row, or the
error `PGRST116`. -/
def single {α : Type} : List α → Except PgError α
  | [row] => .ok row
  | _ =>
    .error { code := "PGRST116",
             message := "JSON object requested, multiple (or no) rows returned" }

/-- A `select` on a table: the error of the connection, or the rows computed
from the store. -/
def select {α : Type} (conn : Connection) (table : String) (rows : List α) :
    Except PgError (List α) :=
  match conn.selectError table with
  | some error => .error error
  | none => .ok rows

namespace CardRepository

/-- The embed `employee:employee_id(id, name, email, status, organization_id,
role:role_id(id, name, is_system_role, organization_id))`. -/
def embedEmployee (db : Database) (employeeId : Option String) : Option Employee :=
  match employeeId with
  | none => none
  | some eid =>
    match db.employee.find? fun e => e.id == eid with
    | none => none
    | some e =>
      some { id := e.id, name := e.name, email := e.email, status := e.status,
             organization_id := e.organization_id,
             role := match e.role_id with
               | none => none
               | some rid => db.access_role.find? fun r => r.id == rid }

/-- Method `CardRepository.findByUid(cardUid)`. -/
def findByUid (conn : Connection) (db : Database) (cardUid : String) :
    Except Fault (Option Card) :=
  let rows := (db.access_card.filter fun c => c.card_uid == cardUid).map fun c =>
    ({ id := c.id, card_uid := c.card_uid, employee_id := c.employee_id, status := c.status,
       employee := embedEmployee db c.employee_id } : Card)
  match (select conn "access_card" rows).bind single with
  | .error error =>
    if error.code == "PGRST116" then .ok none else .error (.store error)
  | .ok data => .ok (some data)

end CardRepository

namespace DoorRepository

/-- The embed `floor:floor_id(id, floor_number, building:building_id(id, name,
timezone))`. -/
def embedFloor (db : Database) (floorId : Option String) : Option Floor :=
  match floorId with
  | none => none
  | some fid =>
    match db.floor.find? fun f => f.id == fid with
    | none => none
    | some f =>
      some { id := f.id, floor_number := f.floor_number,
             building := match f.building_id with
               | none => none
               | some bid => db.building.find? fun b => b.id == bid }

/-- The embed `office_space:office_space_id(id, name)`. -/
def embedOfficeSpace (db : Database) (officeSpaceId : Option String) : Option OfficeSpace :=
  match officeSpaceId with
  | none => none
  | some oid =>
    match db.office_space.find? fun o => o.id == oid with
    | none => none
    | some o => some { id := o.id, name := o.name }

/-- The embed `door_groups:door_door_group(door_group:door_group_id(id, name,
type, description))`. -/
def embedDoorGroups (db : Database) (doorId : String) : List DoorGroupLink :=
  (db.door_door_group.filter fun j => j.door_id == doorId).map fun j =>
    { door_group := db.door_group.find? fun g => g.id == j.door_group_id }

/-- Method `DoorRepository.findDoorById(id)`. -/
def findDoorById (conn : Connection) (db : Database) (id : String) :
    Except Fault (Option Door) :=
  let rows := (db.door.filter fun d => d.id == id).map fun d =>
    ({ id := d.id, name := d.name, location := d.location,
       office_space_id := d.office_space_id, floor_id := d.floor_id,
       office_space := embedOfficeSpace db d.office_space_id,
       floor := embedFloor db d.floor_id,
       door_groups := some (embedDoorGroups db d.id) } : Door)
  match (select conn "door" rows).bind single with
  | .error error =>
    if error.code == "PGRST116" then .error (.notFound "Door not found")
    else .error (.store error)
  | .ok data => .ok (some data)

end DoorRepository

namespace PermissionRepository

/-- Method `PermissionRepository.checkRolePermission(roleId, doorGroupIds)`. -/
def checkRolePermission (conn : Connection) (db : Database) (roleId : String)
    (doorGroupIds : List String) : Except Fault (Option (List PermissionRow)) :=
  let rows := db.role_door_group_permission.filter fun p =>
    p.role_id == roleId && doorGroupIds.contains p.door_group_id
  match select conn "role_door_group_permission" rows with
  | .error error => .error (.store error)
  | .ok data => .ok (some data)

end PermissionRepository

/-- The repositories of `src/repositories` over a connection. -/
def repositories (conn : Connection) : Repositories where
  findByUid := CardRepository.findByUid conn
  findDoorById := DoorRepository.findDoorById conn
  checkRolePermission := PermissionRepository.checkRolePermission conn
  insertError := fun _ _ => conn.insertError "access_log"

/-- A connection on which every query succeeds. -/
def healthy : Connection where
  selectError := fun _ => none
  insertError := fun _ => none

/-! ## `src/services/accessVerification.service.js` -/

/-- The `employee` member of the result object. -/
structure EmployeeInfo where
  name : String
  role : String
deriving DecidableEq, Repr

/-- The result object of `verifyAccess`. -/
structure VerifyResult where
  status : String
  message : String
  timestamp : String
  employee : Option EmployeeInfo := none
deriving DecidableEq, Repr

namespace AccessVerificationService

/-- Method `logAccess(cardUid, doorId, status, denialReason)`. -/
def logAccess (R : Repositories) (clock : Clock) (db : Database)
    (cardUid doorId status : String) (denialReason : Option String) :
    Except Fault Unit × Database :=
  match AccessLogRepository.create R db
      { card_uid := cardUid, door_id := doorId, status := status,
        denial_reason := denialReason, timestamp := TimeHelper.nowAtLog clock } with
  | (.ok _, db1) => (.ok (), db1)
  | (.error _, db1) => (.ok (), db1)

/-- The statement pair `await this.logAccess(cardUid, doorId, status, denialReason);
return { status, message: denialReason, timestamp }` of the denial branches,
where `status` still holds its initial value `'DENIED'`. -/
def deny (R : Repositories) (clock : Clock) (db : Database)
    (cardUid doorId timestamp denialReason : String) :
    Except Fault VerifyResult × Database :=
  match logAccess R clock db cardUid doorId "DENIED" (some denialReason) with
  | (.error e, db1) => (.error e, db1)
  | (.ok _, db1) =>
    (.ok { status := "DENIED", message := denialReason, timestamp := timestamp }, db1)

/-- The statement pair `await this.logAccess(cardUid, doorId, status, null);
return { status: 'GRANTED', message, timestamp, employee: {...} }` of the two
granting branches, after `status = 'GRANTED'`. -/
def grant (R : Repositories) (clock : Clock) (db : Database)
    (cardUid doorId timestamp message : String) (employee : Employee) (role : RoleRow) :
    Except Fault VerifyResult × Database :=
  match logAccess R clock db cardUid doorId "GRANTED" none with
  | (.error e, db1) => (.error e, db1)
  | (.ok _, db1) =>
    (.ok { status := "GRANTED", message := message, timestamp := timestamp,
           employee := some { name := employee.name, role := role.name } }, db1)

/-- The expression `door.door_groups?.map(dg => dg.door_group) || []`. -/
def extractDoorGroups (door : Door) : List (Option DoorGroupRow) :=
  match door.door_groups with
  | none => []
  | some links => links.map fun dg => dg.door_group

/-- The expression `doorGroups.map(dg => dg.id)`: reading `id` of a `null` element throws. -/
def doorGroupIds : List (Option DoorGroupRow) → Except Fault (List String)
  | [] => .ok []
  | none :: _ => .error (.typeError "Cannot read properties of null (reading 'id')")
  | some dg :: rest =>
    match doorGroupIds rest with
    | .error e => .error e
    | .ok ids => .ok (dg.id :: ids)

/-- The expression `door.floor?.building?.timezone || 'UTC'`. -/
def buildingTimezone (door : Door) : String :=
  match door.floor with
  | none => "UTC"
  | some floor =>
    match floor.building with
    | none => "UTC"
    | some building =>
      match building.timezone with
      | none => "UTC"
      | some tz => if tz == "" then "UTC" else tz

/-- Step 6: the `for (const permission of permissions)` loop and the code after
it. An exception of `isWithinTimeRange` leaves the loop and the `try` block. -/
def checkTimeRestrictions (R : Repositories) (clock : Clock) (db : Database)
    (cardUid doorId timestamp : String) (employee : Employee) (role : RoleRow)
    (timezone : String) : List PermissionRow → Except Fault VerifyResult × Database
  | [] => deny R clock db cardUid doorId timestamp "Outside permitted time range"
  | permission :: rest =>
    if permission.access_type == "ALWAYS" then
      grant R clock db cardUid doorId timestamp "Access granted" employee role
    else if permission.access_type == "TIME_BOUND" then
      match TimeHelper.isWithinTimeRange clock timezone permission.start_time
          permission.end_time with
      | .error e => (.error e, db)
      | .ok withinTimeRange =>
        if withinTimeRange then
          grant R clock db cardUid doorId timestamp "Access granted (time-bound)" employee role
        else
          checkTimeRestrictions R clock db cardUid doorId timestamp employee role timezone rest
    else
      checkTimeRestrictions R clock db cardUid doorId timestamp employee role timezone rest

/-- The body of the `try` block of `verifyAccess`. -/
def verifyAccessTry (R : Repositories) (clock : Clock) (db : Database)
    (cardUid doorId timestamp : String) : Except Fault VerifyResult × Database :=
  -- Step 1: find card and validate status
  match R.findByUid db cardUid with
  | .error e => (.error e, db)
  | .ok none => deny R clock db cardUid doorId timestamp "Card not found"
  | .ok (some card) =>
    if card.status != "ACTIVE" then
      deny R clock db cardUid doorId timestamp ("Card is " ++ card.status)
    else
      -- Step 2: get employee and validate status
      match card.employee with
      | none => deny R clock db cardUid doorId timestamp "Employee not found"
      | some employee =>
        if employee.status != "ACTIVE" then
          deny R clock db cardUid doorId timestamp "Employee is inactive"
        else
          -- Step 3: get employee's role
          match employee.role with
          | none => deny R clock db cardUid doorId timestamp "Employee has no role assigned"
          | some role =>
            -- Step 4: find door and its groups
            match R.findDoorById db doorId with
            | .error e => (.error e, db)
            | .ok none => deny R clock db cardUid doorId timestamp "Door not found"
            | .ok (some door) =>
              let doorGroups := extractDoorGroups door
              if doorGroups.length == 0 then
                deny R clock db cardUid doorId timestamp "Door has no groups assigned"
              else
                match doorGroupIds doorGroups with
                | .error e => (.error e, db)
                | .ok ids =>
                  -- Step 5: check if role has permission to any of the door's groups
                  match R.checkRolePermission db role.id ids with
                  | .error e => (.error e, db)
                  | .ok none =>
                    deny R clock db cardUid doorId timestamp "No permission for this door"
                  | .ok (some permissions) =>
                    if permissions.length == 0 then
                      deny R clock db cardUid doorId timestamp "No permission for this door"
                    else
                      -- Step 6: check time restrictions
                      checkTimeRestrictions R clock db cardUid doorId timestamp employee role
                        (buildingTimezone door) permissions

/-- Method `verifyAccess(cardUid, doorId)`. -/
def verifyAccess (R : Repositories) (clock : Clock) (db : Database)
    (cardUid doorId : String) : Except Fault VerifyResult × Database :=
  let timestamp := TimeHelper.now clock
  match verifyAccessTry R clock db cardUid doorId timestamp with
  | (.ok result, db1) => (.ok result, db1)
  | (.error _, db1) =>
    -- catch (error): still log the attempt even on error
    match logAccess R clock db1 cardUid doorId "DENIED"
        (some "System error during verification") with
    | (_, db2) =>
      (.ok { status := "DENIED", message := "System error", timestamp := timestamp }, db2)

end AccessVerificationService

/-! ## The store client: writes -/

/-- A member of a request object: `undefined`, `null` or a value. -/
inductive Field (α : Type) where
  | absent
  | null
  | value (a : α)
deriving DecidableEq, Repr

namespace Field

/-- JavaScript truthiness of a member that holds a string. -/
def truthy : Field String → Bool
  | value s => s != ""
  | _ => false

/-- JavaScript truthiness of a member that holds a boolean. -/
def isTrue : Field Bool → Bool
  | value b => b
  | _ => false

/-- The column that an insert stores for a member: NULL when the member is
`undefined` or `null`. -/
def toColumn {α : Type} : Field α → Option α
  | value a => some a
  | _ => none

/-- The column after an update: untouched when the member is `undefined`. -/
def updateColumn {α : Type} (member : Field α) (old : Option α) : Option α :=
  match member with
  | absent => old
  | null => none
  | value a => some a

end Field

/-- The error of the store for a statement that breaks a unique constraint. -/
def uniqueViolation : PgError :=
  { code := "23505", message := "duplicate key value violates unique constraint" }

/-- The statement `.insert(row).select().single()` on a table: the error of the
connection, or the error 23505 when the table with the new row breaks a
constraint, or the table with the row appended. -/
def insertSingle {α : Type} (error : Option PgError) (valid : List α → Bool)
    (rows : List α) (row : α) : Except PgError α × List α :=
  match error with
  | some e => (.error e, rows)
  | none =>
    if valid (rows ++ [row]) then (.ok row, rows ++ [row])
    else (.error uniqueViolation, rows)

/-- The statement `.update(updates).eq(...).select().single()` on a table: the
error of the connection, or the error 23505 when the changed table breaks a
constraint, or the error PGRST116 when the statement does not touch exactly one
row; the store rolls the statement back in each of these cases. Otherwise the
changed row and the changed table. -/
def updateSingle {α : Type} (error : Option PgError) (valid : List α → Bool)
    (rows : List α) (target : α → Bool) (change : α → α) : Except PgError α × List α :=
  match error with
  | some e => (.error e, rows)
  | none =>
    let changed := rows.map fun r => if target r then change r else r
    if valid changed then
      match single ((rows.filter target).map change) with
      | .ok row => (.ok row, changed)
      | .error e => (.error e, rows)
    else (.error uniqueViolation, rows)

/-! ## `src/repositories/permission.repository.js`: writes -/

/-- The `permissionData` object of a grant request. -/
structure PermissionData where
  role_id : String
  door_group_id : String
  access_type : String
  start_time : Field String := .absent
  end_time : Field String := .absent
deriving DecidableEq, Repr

namespace PermissionRepository

/-- The pair (role, door group) of a permission row. -/
def pair (p : PermissionRow) : String × String := (p.role_id, p.door_group_id)

/-- Modelled from the spec: the unique constraint of the table
`role_door_group_permission`, whose migration is not among the sources ("at
most one permission row per (role, door-group) pair"; the code names it in its
handler of the error 23505). The table never holds two rows with the same
pair. -/
def unique (rows : List PermissionRow) : Bool :=
  decide (rows.map pair).Nodup

/-- The row that an insert of `permissionData` stores, with the id that the
store generates. -/
def newRow (newId : String) (data : PermissionData) : PermissionRow :=
  { id := newId, role_id := data.role_id, door_group_id := data.door_group_id,
    access_type := data.access_type, start_time := data.start_time.toColumn,
    end_time := data.end_time.toColumn }

/-- A row after `.update(updates)`. -/
def applyUpdates (updates : PermissionData) (p : PermissionRow) : PermissionRow :=
  { p with
    role_id := updates.role_id, door_group_id := updates.door_group_id,
    access_type := updates.access_type,
    start_time := updates.start_time.updateColumn p.start_time,
    end_time := updates.end_time.updateColumn p.end_time }

/-- Method `PermissionRepository.update(roleId, doorGroupId, updates)`. -/
def update (conn : Connection) (db : Database) (roleId doorGroupId : String)
    (updates : PermissionData) : Except Fault PermissionRow × Database :=
  match updateSingle (conn.updateError "role_door_group_permission") unique
      db.role_door_group_permission
      (fun p => p.role_id == roleId && p.door_group_id == doorGroupId)
      (applyUpdates updates) with
  | (.error error, _) =>
    if error.code == "PGRST116" then (.error (.notFound "Permission not found"), db)
    else (.error (.store error), db)
  | (.ok data, rows) => (.ok data, { db with role_door_group_permission := rows })

/-- Method `PermissionRepository.create(permissionData)`; `newId` is the id
that the store generates for an inserted row. -/
def create (conn : Connection) (db : Database) (newId : String)
    (permissionData : PermissionData) : Except Fault PermissionRow × Database :=
  match insertSingle (conn.insertError "role_door_group_permission") unique
      db.role_door_group_permission (newRow newId permissionData) with
  | (.error error, _) =>
    if error.code == "23505" then
      -- Update existing permission instead
      update conn db permissionData.role_id permissionData.door_group_id permissionData
    else (.error (.store error), db)
  | (.ok data, rows) => (.ok data, { db with role_door_group_permission := rows })

end PermissionRepository

/-! ## `src/repositories/role.repository.js` -/

/-- The `roleData` object of `createRole`; the member `description` is left
out, no column of the model holds it. -/
structure RoleData where
  name : String
  is_system_role : Field Bool := .absent
  organization_id : Field String := .absent
deriving DecidableEq, Repr

/-- The `updates` object of `updateRole`, without `description`. -/
structure RoleUpdates where
  name : Option String := none
  is_system_role : Field Bool := .absent
  organization_id : Field String := .absent
deriving DecidableEq, Repr

namespace RoleRepository

/-- Method `RoleRepository.findById(id)`; the embed of the organization is not
read by the callers and left out. -/
def findById (conn : Connection) (db : Database) (id : String) : Except Fault RoleRow :=
  match (select conn "access_role" (db.access_role.filter fun r => r.id == id)).bind single with
  | .error error =>
    if error.code == "PGRST116" then .error (.notFound "Role not found")
    else .error (.store error)
  | .ok data => .ok data

/-- Method `RoleRepository.findByName(name, organizationId)`. -/
def findByName (conn : Connection) (db : Database) (name : String)
    (organizationId : Field String) : Except Fault (Option RoleRow) :=
  let rows := db.access_role.filter fun r =>
    r.name == name &&
      (if organizationId.truthy then r.organization_id == organizationId.toColumn
       else r.organization_id.isNone)
  match (select conn "access_role" rows).bind single with
  | .error error => if error.code == "PGRST116" then .ok none else .error (.store error)
  | .ok data => .ok (some data)

/-- The row that an insert of `roleData` stores. Modelled from the spec: the
column `is_system_role` defaults to false when the member is not given. -/
def newRow (newId : String) (data : RoleData) : RoleRow :=
  { id := newId, name := data.name, is_system_role := data.is_system_role.isTrue,
    organization_id := data.organization_id.toColumn }

/-- Method `RoleRepository.create(roleData)`. -/
def create (conn : Connection) (db : Database) (newId : String) (roleData : RoleData) :
    Except Fault RoleRow × Database :=
  match insertSingle (conn.insertError "access_role") (fun _ => true) db.access_role
      (newRow newId roleData) with
  | (.error error, _) => (.error (.store error), db)
  | (.ok data, rows) => (.ok data, { db with access_role := rows })

/-- A row after `.update(updates)`. -/
def applyUpdates (updates : RoleUpdates) (r : RoleRow) : RoleRow :=
  { r with
    name := updates.name.getD r.name,
    is_system_role :=
      match updates.is_system_role with
      | .value b => b
      | _ => r.is_system_role,
    organization_id := updates.organization_id.updateColumn r.organization_id }

/-- Method `RoleRepository.update(id, updates)`. -/
def update (conn : Connection) (db : Database) (id : String) (updates : RoleUpdates) :
    Except Fault RoleRow × Database :=
  match updateSingle (conn.updateError "access_role") (fun _ => true) db.access_role
      (fun r => r.id == id) (applyUpdates updates) with
  | (.error error, _) =>
    if error.code == "PGRST116" then (.error (.notFound "Role not found"), db)
    else (.error (.store error), db)
  | (.ok data, rows) => (.ok data, { db with access_role := rows })

end RoleRepository

/-- Method `DoorRepository.findDoorGroupById(id)`. -/
def DoorRepository.findDoorGroupById (conn : Connection) (db : Database) (id : String) :
    Except Fault DoorGroupRow :=
  match (select conn "door_group" (db.door_group.filter fun g => g.id == id)).bind single with
  | .error error =>
    if error.code == "PGRST116" then .error (.notFound "Door group not found")
    else .error (.store error)
  | .ok data => .ok data

/-! ## `src/services/door.service.js` and `src/services/role.service.js` -/

namespace DoorService

/-- The call `TimeHelper.isValidTimeFormat(member)` on a member of a request. -/
def isValidTime : Field String → Bool
  | .value s => TimeHelper.isValidTimeFormat s
  | _ => false

/-- Method `DoorService.assignRolePermission(permissionData)`. -/
def assignRolePermission (conn : Connection) (db : Database) (newId : String)
    (permissionData : PermissionData) : Except Fault PermissionRow × Database :=
  -- Validate role exists
  match RoleRepository.findById conn db permissionData.role_id with
  | .error e => (.error e, db)
  | .ok _ =>
    -- Validate door group exists
    match DoorRepository.findDoorGroupById conn db permissionData.door_group_id with
    | .error e => (.error e, db)
    | .ok _ =>
      -- Validate time format if TIME_BOUND
      if permissionData.access_type == "TIME_BOUND" then
        if !permissionData.start_time.truthy || !permissionData.end_time.truthy then
          (.error (.validation "TIME_BOUND access requires start_time and end_time"), db)
        else if !isValidTime permissionData.start_time ||
            !isValidTime permissionData.end_time then
          (.error (.validation "Time must be in HH:mm:ss format"), db)
        else PermissionRepository.create conn db newId permissionData
      else PermissionRepository.create conn db newId permissionData

end DoorService

namespace RoleService

/-- Method `RoleService.createRole(roleData, isAdmin)`. -/
def createRole (conn : Connection) (db : Database) (newId : String) (roleData : RoleData)
    (isAdmin : Bool) : Except Fault RoleRow × Database :=
  -- Only admins can create system roles
  if roleData.is_system_role.isTrue && !isAdmin then
    (.error (.forbidden "Only admins can create system roles"), db)
  -- System roles should not have organization_id
  else if roleData.is_system_role.isTrue && roleData.organization_id.truthy then
    (.error (.validation "System roles cannot belong to an organization"), db)
  -- Organization roles must have organization_id
  else if !roleData.is_system_role.isTrue && !roleData.organization_id.truthy then
    (.error (.validation "Organization-specific roles must have organization_id"), db)
  else
    -- Check if role name already exists for this scope
    match RoleRepository.findByName conn db roleData.name roleData.organization_id with
    | .error e => (.error e, db)
    | .ok (some _) => (.error (.conflict "Role with this name already exists"), db)
    | .ok none => RoleRepository.create conn db newId roleData

/-- Method `RoleService.updateRole(id, updates, isAdmin)`. -/
def updateRole (conn : Connection) (db : Database) (id : String) (updates : RoleUpdates)
    (isAdmin : Bool) : Except Fault RoleRow × Database :=
  match RoleRepository.findById conn db id with
  | .error e => (.error e, db)
  | .ok role =>
    -- Only admins can modify system roles
    if role.is_system_role && !isAdmin then
      (.error (.forbidden "Only admins can modify system roles"), db)
    -- Cannot change system role status
    else if updates.is_system_role != .absent &&
        updates.is_system_role != .value role.is_system_role then
      (.error (.validation "Cannot change system role status"), db)
    else RoleRepository.update conn db id updates

end RoleService

/-! ## `src/repositories/employee.repository.js` and
`src/repositories/card.repository.js`: the methods of the card life cycle -/

/-- An employee row after an update with the object `{ status }`. -/
def EmployeeRow.withStatus (e : EmployeeRow) (status : String) : EmployeeRow :=
  { e with status := status }

/-- A card row after an update with the object `{ status }`. -/
def AccessCardRow.withStatus (c : AccessCardRow) (status : String) : AccessCardRow :=
  { c with status := status }

namespace EmployeeRepository

/-- Method `EmployeeRepository.findById(id)`. The embeds of the organization,
the role and the card are left out: the callers read the status only. -/
def findById (conn : Connection) (db : Database) (id : String) : Except Fault EmployeeRow :=
  match (select conn "employee" (db.employee.filter fun e => e.id == id)).bind single with
  | .error error =>
    if error.code == "PGRST116" then .error (.notFound "Employee not found")
    else .error (.store error)
  | .ok data => .ok data

/-- Method `EmployeeRepository.update(id, updates)` for the `updates` object of
the callers embedded here, which has the one member `status`. The statement
changes rows of the table `employee` only; a trigger of the store, if it has
one, is not part of the sources. -/
def update (conn : Connection) (db : Database) (id status : String) :
    Except Fault EmployeeRow × Database :=
  match updateSingle (conn.updateError "employee") (fun _ => true) db.employee
      (fun e => e.id == id) (fun e => e.withStatus status) with
  | (.error error, _) =>
    if error.code == "PGRST116" then (.error (.notFound "Employee not found"), db)
    else (.error (.store error), db)
  | (.ok data, rows) => (.ok data, { db with employee := rows })

end EmployeeRepository

/-- The `cardData` object of a card request, with the status that the stored
row gets. -/
structure CardData where
  card_uid : String
  employee_id : String
  status : String
  issued_at : Option String := none
deriving DecidableEq, Repr

namespace CardRepository

/-- Modelled from the spec: the unique constraints of the table `access_card`,
whose migration is not among the sources (`card_uid` is unique, and there is
"at most one card per employee"; the code names both in its handler of the
error 23505). No two rows share a card UID, and no two rows share an
employee. -/
def unique (rows : List AccessCardRow) : Bool :=
  decide (rows.map fun c => c.card_uid).Nodup &&
    decide (rows.filterMap fun c => c.employee_id).Nodup

/-- The row that an insert of `cardData` stores, with the id that the store
generates. -/
def newRow (newId : String) (data : CardData) : AccessCardRow :=
  { id := newId, card_uid := data.card_uid, employee_id := some data.employee_id,
    status := data.status, issued_at := data.issued_at }

/-- Method `CardRepository.create(cardData)`. -/
def create (conn : Connection) (db : Database) (newId : String) (cardData : CardData) :
    Except Fault AccessCardRow × Database :=
  match insertSingle (conn.insertError "access_card") unique db.access_card
      (newRow newId cardData) with
  | (.error error, _) =>
    if error.code == "23505" then
      (.error (.conflict "Card UID or employee already has a card"), db)
    else (.error (.store error), db)
  | (.ok data, rows) => (.ok data, { db with access_card := rows })

/-- Method `CardRepository.findByEmployee(employeeId)`. -/
def findByEmployee (conn : Connection) (db : Database) (employeeId : String) :
    Except Fault (Option AccessCardRow) :=
  match (select conn "access_card"
      (db.access_card.filter fun c => c.employee_id == some employeeId)).bind single with
  | .error error =>
    if error.code == "PGRST116" then .ok none else .error (.store error)
  | .ok data => .ok (some data)

/-- Method `CardRepository.update(id, updates)` for the `updates` object of the
callers embedded here, which has the one member `status`. -/
def update (conn : Connection) (db : Database) (id status : String) :
    Except Fault AccessCardRow × Database :=
  match updateSingle (conn.updateError "access_card") unique db.access_card
      (fun c => c.id == id) (fun c => c.withStatus status) with
  | (.error error, _) =>
    if error.code == "PGRST116" then (.error (.notFound "Access card not found"), db)
    else (.error (.store error), db)
  | (.ok data, rows) => (.ok data, { db with access_card := rows })

/-- Method `CardRepository.delete(id)`. -/
def delete (conn : Connection) (db : Database) (id : String) : Except Fault Unit × Database :=
  match conn.deleteError "access_card" with
  | some error => (.error (.store error), db)
  | none => (.ok (), { db with access_card := db.access_card.filter fun c => !(c.id == id) })

end CardRepository

/-! ## `src/services/employee.service.js` and `src/services/card.service.js` -/

namespace EmployeeService

/-- Method `EmployeeService.activateEmployee(id)`. -/
def activateEmployee (conn : Connection) (db : Database) (id : String) :
    Except Fault EmployeeRow × Database :=
  match EmployeeRepository.findById conn db id with
  | .error e => (.error e, db)
  | .ok _ =>
    -- Reactivate employee
    match EmployeeRepository.update conn db id "ACTIVE" with
    | (.error e, db1) => (.error e, db1)
    | (.ok _, db1) =>
      -- Reactivate card if it exists
      match CardRepository.findByEmployee conn db1 id with
      | .error e => (.error e, db1)
      | .ok card =>
        let reactivated : Except Fault Unit × Database :=
          match card with
          | some card =>
            if card.status == "INACTIVE" then
              match CardRepository.update conn db1 card.id "ACTIVE" with
              | (.error e, db2) => (.error e, db2)
              | (.ok _, db2) => (.ok (), db2)
            else (.ok (), db1)
          | none => (.ok (), db1)
        match reactivated with
        | (.error e, db2) => (.error e, db2)
        | (.ok _, db2) =>
          match EmployeeRepository.findById conn db2 id with
          | .error e => (.error e, db2)
          | .ok employee => (.ok employee, db2)

/-- Method `EmployeeService.issueCard(employeeId, cardUid)`; `uuid` is the
value of `uuidv4()`, `now` the value of `new Date().toISOString()` and `newId`
the id that the store generates. -/
def issueCard (conn : Connection) (db : Database) (newId uuid now employeeId : String)
    (cardUid : Option String) : Except Fault AccessCardRow × Database :=
  match EmployeeRepository.findById conn db employeeId with
  | .error e => (.error e, db)
  | .ok employee =>
    if employee.status != "ACTIVE" then
      (.error (.validation "Cannot issue card to inactive employee"), db)
    else
      -- Check if employee already has a card
      match CardRepository.findByEmployee conn db employeeId with
      | .error e => (.error e, db)
      | .ok (some _) => (.error (.conflict "Employee already has an access card"), db)
      | .ok none =>
        -- Generate card UID if not provided
        let finalCardUid :=
          match cardUid with
          | some uid => if uid == "" then "CARD-" ++ uuid else uid
          | none => "CARD-" ++ uuid
        CardRepository.create conn db newId
          { card_uid := finalCardUid, employee_id := employeeId, status := "ACTIVE",
            issued_at := some now }

/-- Method `EmployeeService.replaceCard(employeeId, newCardUid)`. -/
def replaceCard (conn : Connection) (db : Database) (newId uuid now employeeId : String)
    (newCardUid : Option String) : Except Fault AccessCardRow × Database :=
  -- Mark old card as lost
  match CardRepository.findByEmployee conn db employeeId with
  | .error e => (.error e, db)
  | .ok (some oldCard) =>
    match CardRepository.update conn db oldCard.id "LOST" with
    | (.error e, db1) => (.error e, db1)
    | (.ok _, db1) =>
      match CardRepository.delete conn db1 oldCard.id with
      | (.error e, db2) => (.error e, db2)
      | (.ok _, db2) =>
        -- Issue new card
        issueCard conn db2 newId uuid now employeeId newCardUid
  | .ok none => issueCard conn db newId uuid now employeeId newCardUid

end EmployeeService

namespace CardService

/-- Method `CardService.createCard(cardData)`. -/
def createCard (conn : Connection) (db : Database) (newId : String) (cardData : CardData) :
    Except Fault AccessCardRow × Database :=
  -- Validate employee exists
  match EmployeeRepository.findById conn db cardData.employee_id with
  | .error e => (.error e, db)
  | .ok _ =>
    -- Check if employee already has a card
    match CardRepository.findByEmployee conn db cardData.employee_id with
    | .error e => (.error e, db)
    | .ok (some _) => (.error (.conflict "Employee already has an access card"), db)
    | .ok none =>
      -- Check if card UID is already in use
      match CardRepository.findByUid conn db cardData.card_uid with
      | .error e => (.error e, db)
      | .ok (some _) => (.error (.conflict "Card UID already exists"), db)
      | .ok none => CardRepository.create conn db newId cardData

end CardService

/-! ## Vocabulary of the statements -/

/-- The row that `logAccess` hands to the repository. -/
def logRow (clock : Clock) (cardUid doorId status : String) (denialReason : Option String) :
    AccessLogRow :=
  { card_uid := cardUid, door_id := doorId, status := status,
    denial_reason := denialReason, timestamp := TimeHelper.nowAtLog clock }

/-- Checks 1 to 8 of the verification pass: the card lookup answers `card`,
which is ACTIVE; its employee is `employee`, ACTIVE, with role `role`; the door
lookup answers `door`, whose group list is the non-empty `groups`; and the
permission lookup for the role and those groups answers the non-empty list
`permissions`. -/
structure ChecksPass (R : Repositories) (db : Database) (cardUid doorId : String)
    (card : Card) (employee : Employee) (role : RoleRow) (door : Door)
    (groups : List DoorGroupRow) (permissions : List PermissionRow) : Prop where
  cardFound : R.findByUid db cardUid = .ok (some card)
  cardActive : card.status = "ACTIVE"
  employeeFound : card.employee = some employee
  employeeActive : employee.status = "ACTIVE"
  roleAssigned : employee.role = some role
  doorFound : R.findDoorById db doorId = .ok (some door)
  doorGroups : door.door_groups = some (groups.map fun g => { door_group := some g })
  groupsNonempty : groups ≠ []
  lookup :
    R.checkRolePermission db role.id (groups.map fun g => g.id) = .ok (some permissions)
  permissionsNonempty : permissions ≠ []

/-- Checks 1 to 7 of the verification pass: as `ChecksPass`, without the
permission lookup. -/
structure DoorChecksPass (R : Repositories) (db : Database) (cardUid doorId : String)
    (card : Card) (employee : Employee) (role : RoleRow) (door : Door)
    (groups : List DoorGroupRow) : Prop where
  cardFound : R.findByUid db cardUid = .ok (some card)
  cardActive : card.status = "ACTIVE"
  employeeFound : card.employee = some employee
  employeeActive : employee.status = "ACTIVE"
  roleAssigned : employee.role = some role
  doorFound : R.findDoorById db doorId = .ok (some door)
  doorGroups : door.door_groups = some (groups.map fun g => { door_group := some g })
  groupsNonempty : groups ≠ []

/-- The organization scope of a role is in order when a system role has no
organization and a role that is not a system role has one. -/
def roleScopeOk (r : RoleRow) : Bool :=
  if r.is_system_role then r.organization_id.isNone else r.organization_id.isSome

/-- At most one card per employee: no two rows of `access_card` name the same
employee. -/
def OneCardPerEmployee (db : Database) : Prop :=
  (db.access_card.filterMap fun c => c.employee_id).Nodup

/-- A grant is satisfied when it is ALWAYS, or TIME_BOUND with the current
time of the timezone inside its window. -/
def satisfied (clock : Clock) (timezone : String) (p : PermissionRow) : Bool :=
  p.access_type == "ALWAYS" ||
    (p.access_type == "TIME_BOUND" &&
      match TimeHelper.isWithinTimeRange clock timezone p.start_time p.end_time with
      | .ok withinTimeRange => withinTimeRange
      | .error _ => false)

/-- The evaluation of a grant fails when the grant is TIME_BOUND, not ALWAYS,
and `isWithinTimeRange` throws for it: both bounds are present and the timezone
is not one that the runtime knows. -/
def fails (clock : Clock) (timezone : String) (p : PermissionRow) : Bool :=
  p.access_type != "ALWAYS" &&
    (p.access_type == "TIME_BOUND" &&
      match TimeHelper.isWithinTimeRange clock timezone p.start_time p.end_time with
      | .ok _ => false
      | .error _ => true)

/-- The loop passes over a grant when the grant is neither satisfied nor does
its evaluation fail: the loop goes on to the next grant. -/
def passedOver (clock : Clock) (timezone : String) (p : PermissionRow) : Bool :=
  !satisfied clock timezone p && !fails clock timezone p

/-- The store after one call of `AccessLogRepository.create` with the row of
the given status and reason: the store with that row appended to the access
log when the insert is accepted, the same store when it is rejected. -/
def afterLog (R : Repositories) (clock : Clock) (db : Database)
    (cardUid doorId status : String) (denialReason : Option String) : Database :=
  (AccessLogRepository.create R db (logRow clock cardUid doorId status denialReason)).2

/-- The outcome "DENIED with this reason": the result carries the reason as its
message and no employee, and the reason went to the log in one write. -/
def denied (R : Repositories) (clock : Clock) (db : Database)
    (cardUid doorId reason : String) : Except Fault VerifyResult × Database :=
  (.ok { status := "DENIED", message := reason, timestamp := TimeHelper.now clock,
         employee := none },
   afterLog R clock db cardUid doorId "DENIED" (some reason))

/-- The outcome "GRANTED with this message": the result carries the name of the
employee and of the role, and a row without reason went to the log in one
write. -/
def granted (R : Repositories) (clock : Clock) (db : Database)
    (cardUid doorId message : String) (employee : Employee) (role : RoleRow) :
    Except Fault VerifyResult × Database :=
  (.ok { status := "GRANTED", message := message, timestamp := TimeHelper.now clock,
         employee := some { name := employee.name, role := role.name } },
   afterLog R clock db cardUid doorId "GRANTED" none)

/-- The outcome of the catch block: DENIED "System error" to the caller, and
"System error during verification" to the log in one write. -/
def systemError (R : Repositories) (clock : Clock) (db : Database)
    (cardUid doorId : String) : Except Fault VerifyResult × Database :=
  (.ok { status := "DENIED", message := "System error", timestamp := TimeHelper.now clock,
         employee := none },
   afterLog R clock db cardUid doorId "DENIED" (some "System error during verification"))

/-- Whether a character is a decimal digit. -/
def isDigit (c : Char) : Bool :=
  decide ('0'.toNat ≤ c.toNat ∧ c.toNat ≤ '9'.toNat)

/-- The number that two decimal digits denote. -/
def twoDigits (a b : Char) : Nat :=
  10 * (a.toNat - '0'.toNat) + (b.toNat - '0'.toNat)

/-- The format of the specification, in its words: exactly eight characters
`HH:mm:ss`, with two-digit `HH` in 00..23 and two-digit `mm` and `ss` in
00..59. -/
def isHHmmss (s : String) : Bool :=
  match s.toList with
  | [h1, h2, c1, m1, m2, c2, s1, s2] =>
    c1 == ':' && c2 == ':' &&
      isDigit h1 && isDigit h2 && isDigit m1 && isDigit m2 && isDigit s1 && isDigit s2 &&
      decide (twoDigits h1 h2 ≤ 23) && decide (twoDigits m1 m2 ≤ 59) &&
      decide (twoDigits s1 s2 ≤ 59)
  | _ => false

/-- The number of seconds since midnight that a string `HH:mm:ss` denotes. -/
def secondsOfDay (s : String) : Nat :=
  match s.toList with
  | [h1, h2, _, m1, m2, _, s1, s2] =>
    3600 * twoDigits h1 h2 + 60 * twoDigits m1 m2 + twoDigits s1 s2
  | _ => 0

/-- Membership of the second `now` in the closed interval of seconds from
`start` to `stop`, which wraps around midnight when `start` is after `stop`. -/
def inSecondsInterval (start stop now : Nat) : Bool :=
  if start ≤ stop then decide (start ≤ now ∧ now ≤ stop)
  else decide (start ≤ now ∨ now ≤ stop)

/-- The building of a floor of the store. -/
def Database.buildingOfFloor (db : Database) (floorId : String) : Option BuildingRow :=
  match db.floor.find? fun f => f.id == floorId with
  | none => none
  | some f =>
    match f.building_id with
    | none => none
    | some bid => db.building.find? fun b => b.id == bid

/-- The building that contains a door: the building of its floor or, for a
door that references its location through an office space, the building of
the floor of that office space. -/
def Database.buildingOfDoor (db : Database) (door : DoorRow) : Option BuildingRow :=
  match door.floor_id with
  | some fid => db.buildingOfFloor fid
  | none =>
    match door.office_space_id with
    | none => none
    | some oid =>
      match db.office_space.find? fun o => o.id == oid with
      | none => none
      | some o =>
        match o.floor_id with
        | none => none
        | some fid => db.buildingOfFloor fid

/-- The timezone of the building that contains a door, "UTC" when the building
or its timezone is unset. -/
def Database.timezoneOfDoor (db : Database) (door : DoorRow) : String :=
  match db.buildingOfDoor door with
  | none => "UTC"
  | some building =>
    match building.timezone with
    | none => "UTC"
    | some tz => if tz == "" then "UTC" else tz

/-- What the caller can act on in a result: the status, the message and the
employee attachment, without the timestamp. -/
def VerifyResult.decision (result : VerifyResult) : String × String × Option EmployeeInfo :=
  (result.status, result.message, result.employee)

/-- The nine denial conditions of the verification, in the order of the checks. -/
inductive DenialCheck where
  | cardNotFound
  | cardNotActive
  | employeeMissing
  | employeeNotActive
  | noRole
  | doorNotFound
  | doorWithoutGroups
  | noMatchingPermission
  | outsideTimeWindow
deriving DecidableEq, Repr

namespace DenialCheck

/-- The position of a check in the order of the verification. -/
def order : DenialCheck → Nat
  | cardNotFound => 1
  | cardNotActive => 2
  | employeeMissing => 3
  | employeeNotActive => 4
  | noRole => 5
  | doorNotFound => 6
  | doorWithoutGroups => 7
  | noMatchingPermission => 8
  | outsideTimeWindow => 9

/-- The card that the card lookup answers, if it answers one. -/
def cardOf (R : Repositories) (db : Database) (cardUid : String) : Option Card :=
  match R.findByUid db cardUid with
  | .ok (some card) => some card
  | _ => none

/-- The employee of the card that the lookup answers. -/
def employeeOf (R : Repositories) (db : Database) (cardUid : String) : Option Employee :=
  match cardOf R db cardUid with
  | some card => card.employee
  | none => none

/-- The role of the employee of the card that the lookup answers. -/
def roleOf (R : Repositories) (db : Database) (cardUid : String) : Option RoleRow :=
  match employeeOf R db cardUid with
  | some employee => employee.role
  | none => none

/-- The door that the door lookup answers, if it answers one. -/
def doorOf (R : Repositories) (db : Database) (doorId : String) : Option Door :=
  match R.findDoorById db doorId with
  | .ok (some door) => some door
  | _ => none

/-- The grants that the permission lookup answers for the role of the card and
the groups of the door, with the door; `none` when the role, the door or the
group ids are missing, or when the lookup throws. A lookup answering `null`
counts as the empty list. -/
def grantsOf (R : Repositories) (db : Database) (cardUid doorId : String) :
    Option (Door × List PermissionRow) :=
  match roleOf R db cardUid, doorOf R db doorId with
  | some role, some door =>
    match AccessVerificationService.doorGroupIds (AccessVerificationService.extractDoorGroups door) with
    | .ok ids =>
      match R.checkRolePermission db role.id ids with
      | .ok (some permissions) => some (door, permissions)
      | .ok none => some (door, [])
      | .error _ => none
    | .error _ => none
  | _, _ => none

/-- Whether a denial condition holds of what the collaborators answer. Each
condition is stated on its own data only: the card's status does not enter
the conditions on the employee, nor the card the conditions on the door. The
door is not found when the door lookup answers `null` or throws a
`NotFoundError`. -/
def holds (R : Repositories) (clock : Clock) (db : Database) (cardUid doorId : String) :
    DenialCheck → Bool
  | cardNotFound =>
    match R.findByUid db cardUid with
    | .ok none => true
    | _ => false
  | cardNotActive =>
    match cardOf R db cardUid with
    | some card => card.status != "ACTIVE"
    | none => false
  | employeeMissing =>
    match cardOf R db cardUid with
    | some card => card.employee.isNone
    | none => false
  | employeeNotActive =>
    match employeeOf R db cardUid with
    | some employee => employee.status != "ACTIVE"
    | none => false
  | noRole =>
    match employeeOf R db cardUid with
    | some employee => employee.role.isNone
    | none => false
  | doorNotFound =>
    match R.findDoorById db doorId with
    | .ok none => true
    | .error (.notFound _) => true
    | _ => false
  | doorWithoutGroups =>
    match doorOf R db doorId with
    | some door => (AccessVerificationService.extractDoorGroups door).isEmpty
    | none => false
  | noMatchingPermission =>
    match grantsOf R db cardUid doorId with
    | some (_, permissions) => permissions.isEmpty
    | none => false
  | outsideTimeWindow =>
    match grantsOf R db cardUid doorId with
    | some (door, permissions) =>
      !permissions.isEmpty &&
        permissions.all fun p => !satisfied clock (AccessVerificationService.buildingTimezone door) p
    | none => false

/-- The denial reason of a check. -/
def message (R : Repositories) (db : Database) (cardUid : String) : DenialCheck → String
  | cardNotFound => "Card not found"
  | cardNotActive =>
    match cardOf R db cardUid with
    | some card => "Card is " ++ card.status
    | none => "Card is "
  | employeeMissing => "Employee not found"
  | employeeNotActive => "Employee is inactive"
  | noRole => "Employee has no role assigned"
  | doorNotFound => "Door not found"
  | doorWithoutGroups => "Door has no groups assigned"
  | noMatchingPermission => "No permission for this door"
  | outsideTimeWindow => "Outside permitted time range"

end DenialCheck

/-! ## A small store for the examples -/

namespace Demo

/-- A clock that shows the given local time in every timezone. -/
def clockAt (time : String) : Clock where
  now := "2024-03-04T12:00:00.000Z"
  logNow := "2024-03-04T12:00:00.012Z"
  currentTime := fun _ => some time

/-- A store with one building, two doors, three roles and eight cards. -/
def db : Database where
  access_card := [
    { id := "c1", card_uid := "CARD-0001", employee_id := some "e1", status := "ACTIVE" },
    { id := "c2", card_uid := "CARD-0002", employee_id := some "e2", status := "BLOCKED" },
    { id := "c3", card_uid := "CARD-0003", employee_id := none, status := "ACTIVE" },
    { id := "c4", card_uid := "CARD-0004", employee_id := some "e4", status := "ACTIVE" },
    { id := "c5", card_uid := "CARD-0005", employee_id := some "e5", status := "ACTIVE" },
    { id := "c6", card_uid := "CARD-0006", employee_id := some "e6", status := "ACTIVE" },
    { id := "c7", card_uid := "CARD-0007", employee_id := some "e7", status := "ACTIVE" },
    { id := "c8", card_uid := "CARD-0008", employee_id := some "e8", status := "INACTIVE" }]
  employee := [
    { id := "e1", name := "Alice", status := "ACTIVE", role_id := some "r1" },
    { id := "e2", name := "Bob", status := "ACTIVE", role_id := some "r1" },
    { id := "e4", name := "Dan", status := "INACTIVE", role_id := some "r1" },
    { id := "e5", name := "Eve", status := "ACTIVE", role_id := none },
    { id := "e6", name := "Fay", status := "ACTIVE", role_id := some "r2" },
    { id := "e7", name := "Gus", status := "ACTIVE", role_id := some "r3" },
    { id := "e8", name := "Hal", status := "ACTIVE", role_id := some "r1" }]
  access_role := [
    { id := "r1", name := "Employee", is_system_role := true },
    { id := "r2", name := "Cleaner", is_system_role := true },
    { id := "r3", name := "Manager", is_system_role := true }]
  building := [{ id := "b1", name := "Tower", timezone := some "America/New_York" }]
  floor := [{ id := "f1", floor_number := 1, building_id := some "b1" }]
  door := [
    { id := "d1", name := "Main Entrance", floor_id := some "f1" },
    { id := "d2", name := "Store Room", floor_id := some "f1" }]
  door_group := [
    { id := "g1", name := "Public Areas", type := "PUBLIC" },
    { id := "g2", name := "Private Offices", type := "PRIVATE" }]
  door_door_group := [
    { door_id := "d1", door_group_id := "g1" },
    { door_id := "d1", door_group_id := "g2" }]
  role_door_group_permission := [
    { id := "p1", role_id := "r1", door_group_id := "g1", access_type := "ALWAYS" },
    { id := "p2", role_id := "r2", door_group_id := "g1", access_type := "TIME_BOUND",
      start_time := some "09:00:00", end_time := some "17:00:00" },
    { id := "p3", role_id := "r3", door_group_id := "g1", access_type := "TIME_BOUND",
      start_time := some "09:00:00", end_time := some "17:00:00" },
    { id := "p4", role_id := "r3", door_group_id := "g2", access_type := "ALWAYS" }]

/-- The two door groups of the store. -/
def groups : List DoorGroupRow :=
  [{ id := "g1", name := "Public Areas", type := "PUBLIC" },
   { id := "g2", name := "Private Offices", type := "PRIVATE" }]

/-- The door `d1` as the door lookup returns it. -/
def mainEntrance : Door where
  id := "d1"
  name := "Main Entrance"
  floor_id := some "f1"
  floor := some { id := "f1", floor_number := 1,
                  building := some { id := "b1", name := "Tower",
                                     timezone := some "America/New_York" } }
  door_groups := some (groups.map fun g => { door_group := some g })

def roleEmployee : RoleRow := { id := "r1", name := "Employee", is_system_role := true }

def roleCleaner : RoleRow := { id := "r2", name := "Cleaner", is_system_role := true }

def roleManager : RoleRow := { id := "r3", name := "Manager", is_system_role := true }

def alice : Employee :=
  { id := "e1", name := "Alice", status := "ACTIVE", role := some roleEmployee }

def fay : Employee :=
  { id := "e6", name := "Fay", status := "ACTIVE", role := some roleCleaner }

def gus : Employee :=
  { id := "e7", name := "Gus", status := "ACTIVE", role := some roleManager }

def aliceCard : Card :=
  { id := "c1", card_uid := "CARD-0001", employee_id := some "e1", status := "ACTIVE",
    employee := some alice }

def fayCard : Card :=
  { id := "c6", card_uid := "CARD-0006", employee_id := some "e6", status := "ACTIVE",
    employee := some fay }

def gusCard : Card :=
  { id := "c7", card_uid := "CARD-0007", employee_id := some "e7", status := "ACTIVE",
    employee := some gus }

/-- The grants of the role Employee on the groups of `d1`. -/
def aliceGrants : List PermissionRow :=
  [{ id := "p1", role_id := "r1", door_group_id := "g1", access_type := "ALWAYS" }]

/-- The grants of the role Cleaner on the groups of `d1`. -/
def fayGrants : List PermissionRow :=
  [{ id := "p2", role_id := "r2", door_group_id := "g1", access_type := "TIME_BOUND",
     start_time := some "09:00:00", end_time := some "17:00:00" }]

/-- The grants of the role Manager on the groups of `d1`, in store order. -/
def gusGrants : List PermissionRow :=
  [{ id := "p3", role_id := "r3", door_group_id := "g1", access_type := "TIME_BOUND",
     start_time := some "09:00:00", end_time := some "17:00:00" },
   { id := "p4", role_id := "r3", door_group_id := "g2", access_type := "ALWAYS" }]

/-- A connection on which every read succeeds and the insert of a log row fails. -/
def logDown : Connection where
  selectError := fun _ => none
  insertError := fun _ => some { code := "57P01", message := "terminating connection" }

/-- A clock one day later than `clockAt`, showing the given local time. -/
def nextDayAt (time : String) : Clock where
  now := "2024-03-05T12:00:00.000Z"
  logNow := "2024-03-05T12:00:00.012Z"
  currentTime := fun _ => some time

/-- A clock in winter: 13:00:00 in New York, 18:00:00 in UTC and elsewhere. -/
def newYorkAfternoon : Clock where
  now := "2024-03-04T18:00:00.000Z"
  logNow := "2024-03-04T18:00:00.012Z"
  currentTime := fun tz =>
    if tz == "America/New_York" then some "13:00:00" else some "18:00:00"

/-- A grant request for the pair (`r1`, `g1`), which has the row `p1`. -/
def regrant : PermissionData :=
  { role_id := "r1", door_group_id := "g1", access_type := "TIME_BOUND",
    start_time := .value "09:00:00", end_time := .value "17:00:00" }

/-- A grant request for the pair (`r1`, `g2`), which has no row. -/
def newGrant : PermissionData :=
  { role_id := "r1", door_group_id := "g2", access_type := "ALWAYS" }

/-- A TIME_BOUND grant request whose start time lacks a digit. -/
def malformedGrant : PermissionData :=
  { role_id := "r1", door_group_id := "g2", access_type := "TIME_BOUND",
    start_time := .value "9:00:00", end_time := .value "17:00:00" }

/-- A TIME_BOUND grant request without an end time. -/
def openEndedGrant : PermissionData :=
  { role_id := "r1", door_group_id := "g2", access_type := "TIME_BOUND",
    start_time := .value "09:00:00" }

/-- A role of the organization `org-1`. -/
def tenantRole : RoleRow :=
  { id := "r4", name := "Tenant", is_system_role := false, organization_id := some "org-1" }

/-- The example store with the role `r4` of an organization next to the three
system roles. -/
def tenants : Database :=
  { db with access_role := db.access_role ++ [tenantRole] }

/-- The body of an update request that names an organization and nothing else. -/
def rescope : RoleUpdates := { organization_id := .value "org-1" }

/-- The body of an update request that sets the organization to null. -/
def unscope : RoleUpdates := { organization_id := .null }

/-- A request for a second card of Alice (`e1`), who has the card `c1`. -/
def secondCard : CardData :=
  { card_uid := "CARD-0009", employee_id := "e1", status := "ACTIVE" }

/-- The card that replaces the card `c1` of Alice. -/
def replacement : AccessCardRow :=
  { id := "c9", card_uid := "CARD-0009", employee_id := some "e1", status := "ACTIVE",
    issued_at := some "2024-03-04T13:00:00.000Z" }

/-- The example store after Bob (`e2`, card `c2` BLOCKED), Hal (`e8`, card `c8`
INACTIVE) and Ivy (`e9`, card `c9` LOST) have been deactivated. -/
def leavers : Database :=
  { db with
    access_card := db.access_card ++
      [{ id := "c9", card_uid := "CARD-0009", employee_id := some "e9", status := "LOST" }],
    employee :=
      (db.employee.map fun e =>
        if e.id == "e2" || e.id == "e8" then e.withStatus "INACTIVE" else e) ++
      [{ id := "e9", name := "Ivy", status := "INACTIVE", role_id := some "r1" }] }

/-- The example store with a building whose stored timezone is not the name of
a timezone. -/
def mars : Database :=
  { db with building := [{ id := "b1", name := "Tower", timezone := some "Mars/Olympus" }] }

/-- The door `d1` of the store `mars` as the door lookup returns it. -/
def marsEntrance : Door where
  id := "d1"
  name := "Main Entrance"
  floor_id := some "f1"
  floor := some { id := "f1", floor_number := 1,
                  building := some { id := "b1", name := "Tower",
                                     timezone := some "Mars/Olympus" } }
  door_groups := some (groups.map fun g => { door_group := some g })

/-- The clock of a runtime that knows the timezones UTC and America/New_York
and no other; it shows the given local time in both. -/
def zonedClockAt (time : String) : Clock where
  now := "2024-03-04T12:00:00.000Z"
  logNow := "2024-03-04T12:00:00.012Z"
  currentTime := fun tz =>
    if tz == "UTC" || tz == "America/New_York" then some time else none

/-- A connection on which the reads of one table fail and everything else
succeeds. -/
def down (table : String) : Connection where
  selectError := fun t =>
    if t == table then some { code := "08006", message := "connection failure" } else none
  insertError := fun _ => none

/-- The store `db` with a third door, `d3`, which references an office space
and belongs to the group `g2` only. -/
def campus : Database :=
  { db with
    office_space := [{ id := "o1", name := "Suite 101", floor_id := some "f1" }]
    door := db.door ++ [{ id := "d3", name := "Suite 101 Door", office_space_id := some "o1" }]
    door_door_group := db.door_door_group ++ [{ door_id := "d3", door_group_id := "g2" }] }

/-- The door `d3` of `campus` as the door lookup returns it. -/
def suite101 : Door where
  id := "d3"
  name := "Suite 101 Door"
  office_space_id := some "o1"
  office_space := some { id := "o1", name := "Suite 101" }
  door_groups := some [{ door_group := some { id := "g2", name := "Private Offices",
                                              type := "PRIVATE" } }]

/-- The store `campus` with a grant of the role Cleaner on the group `g2`, from
09:00:00 to 17:00:00. -/
def offices : Database :=
  { campus with
    role_door_group_permission := campus.role_door_group_permission ++
      [{ id := "p5", role_id := "r2", door_group_id := "g2", access_type := "TIME_BOUND",
         start_time := some "09:00:00", end_time := some "17:00:00" }] }

/-- The door `d2` as the door lookup returns it: it belongs to no group. -/
def storeRoom : Door where
  id := "d2"
  name := "Store Room"
  floor_id := some "f1"
  floor := some { id := "f1", floor_number := 1,
                  building := some { id := "b1", name := "Tower",
                                     timezone := some "America/New_York" } }
  door_groups := some []

end Demo

end BuildingAccess

namespace BuildingAccess

open AccessVerificationService

/-! ## Basic facts about the log sink -/

theorem logAccess_fst (R : Repositories) (clock : Clock) (db : Database)
    (cardUid doorId status : String) (denialReason : Option String) :
    (logAccess R clock db cardUid doorId status denialReason).1 = .ok () := by
  unfold logAccess
  split <;> rfl

theorem logAccess_snd (R : Repositories) (clock : Clock) (db : Database)
    (cardUid doorId status : String) (denialReason : Option String) :
    (logAccess R clock db cardUid doorId status denialReason).2 =
      (AccessLogRepository.create R db (logRow clock cardUid doorId status denialReason)).2 := by
  unfold logAccess logRow
  split <;> simp_all

theorem deny_eq (R : Repositories) (clock : Clock) (db : Database)
    (cardUid doorId timestamp denialReason : String) :
    deny R clock db cardUid doorId timestamp denialReason =
      (.ok { status := "DENIED", message := denialReason, timestamp := timestamp },
       (AccessLogRepository.create R db
          (logRow clock cardUid doorId "DENIED" (some denialReason))).2) := by
  have h1 := logAccess_fst R clock db cardUid doorId "DENIED" (some denialReason)
  have h2 := logAccess_snd R clock db cardUid doorId "DENIED" (some denialReason)
  unfold deny
  split
  · simp_all
  · simp_all

theorem grant_eq (R : Repositories) (clock : Clock) (db : Database)
    (cardUid doorId timestamp message : String) (employee : Employee) (role : RoleRow) :
    grant R clock db cardUid doorId timestamp message employee role =
      (.ok { status := "GRANTED", message := message, timestamp := timestamp,
             employee := some { name := employee.name, role := role.name } },
       (AccessLogRepository.create R db (logRow clock cardUid doorId "GRANTED" none)).2) := by
  have h1 := logAccess_fst R clock db cardUid doorId "GRANTED" none
  have h2 := logAccess_snd R clock db cardUid doorId "GRANTED" none
  unfold grant
  split
  · simp_all
  · simp_all

theorem card_is_ne_system_error (s : String) : "Card is " ++ s ≠ "System error" := by
  intro h
  have h2 := congrArg String.data h
  simp [String.data_append] at h2

theorem card_is_ne_empty (s : String) : "Card is " ++ s ≠ "" := by
  intro h
  have h2 := congrArg String.data h
  simp [String.data_append] at h2

/-- The loop of step 6 either throws with the store untouched, or denies with
the fall-through reason, or grants with one of the two granting messages; in
the last two cases it logs once. -/
theorem checkTimeRestrictions_cases (R : Repositories) (clock : Clock) (db : Database)
    (cardUid doorId timestamp : String) (employee : Employee) (role : RoleRow)
    (timezone : String) (permissions : List PermissionRow) :
    (∃ e, checkTimeRestrictions R clock db cardUid doorId timestamp employee role timezone
        permissions = (.error e, db)) ∨
    checkTimeRestrictions R clock db cardUid doorId timestamp employee role timezone
        permissions =
      deny R clock db cardUid doorId timestamp "Outside permitted time range" ∨
    checkTimeRestrictions R clock db cardUid doorId timestamp employee role timezone
        permissions =
      grant R clock db cardUid doorId timestamp "Access granted" employee role ∨
    checkTimeRestrictions R clock db cardUid doorId timestamp employee role timezone
        permissions =
      grant R clock db cardUid doorId timestamp "Access granted (time-bound)" employee role := by
  induction permissions with
  | nil => right; left; rfl
  | cons p rest ih =>
    unfold checkTimeRestrictions
    split
    · right; right; left; rfl
    · split
      · split
        · left; exact ⟨_, rfl⟩
        · split
          · right; right; right; rfl
          · exact ih
      · exact ih

theorem doorGroupIds_ok (l : List (Option DoorGroupRow)) (ids : List String)
    (h : doorGroupIds l = .ok ids) :
    ∃ groups : List DoorGroupRow, l = groups.map some ∧ ids = groups.map fun g => g.id := by
  induction l generalizing ids with
  | nil =>
    refine ⟨[], rfl, ?_⟩
    simp [doorGroupIds] at h
    simp [h]
  | cons a rest ih =>
    cases a with
    | none => simp [doorGroupIds] at h
    | some g =>
      unfold doorGroupIds at h
      split at h
      · simp at h
      · rename_i ids1 h1
        obtain ⟨groups, hg, hi⟩ := ih ids1 h1
        refine ⟨g :: groups, by simp [hg], ?_⟩
        simp at h
        simp [← h, hi]

theorem doorGroupIds_map_some (groups : List DoorGroupRow) :
    doorGroupIds (groups.map some) = .ok (groups.map fun g => g.id) := by
  induction groups with
  | nil => rfl
  | cons g rest ih => simp [doorGroupIds, ih]

theorem extractDoorGroups_of_groups (door : Door) (groups : List DoorGroupRow)
    (h : door.door_groups = some (groups.map fun g => { door_group := some g })) :
    extractDoorGroups door = groups.map some := by
  unfold extractDoorGroups
  rw [h]
  simp [List.map_map, Function.comp_def]

/-- When checks 1 to 8 pass, the `try` block runs the loop of step 6 on the
grants returned by the lookup. -/
theorem verifyAccessTry_of_checksPass {R : Repositories} {db : Database}
    {cardUid doorId : String} {card : Card} {employee : Employee} {role : RoleRow}
    {door : Door} {groups : List DoorGroupRow} {permissions : List PermissionRow}
    (h : ChecksPass R db cardUid doorId card employee role door groups permissions)
    (clock : Clock) (timestamp : String) :
    verifyAccessTry R clock db cardUid doorId timestamp =
      checkTimeRestrictions R clock db cardUid doorId timestamp employee role
        (buildingTimezone door) permissions := by
  have hx := extractDoorGroups_of_groups door groups h.doorGroups
  have hne : groups ≠ [] := h.groupsNonempty
  have hpe : permissions ≠ [] := h.permissionsNonempty
  unfold verifyAccessTry
  simp only [h.cardFound, h.cardActive, h.employeeFound, h.employeeActive, h.roleAssigned,
    h.doorFound, hx, doorGroupIds_map_some, h.lookup]
  simp [hne, hpe]

/-- Every run of the `try` block either throws with the store untouched, or
denies with a reason after one log call, or grants after one log call, the
latter only when checks 1 to 8 pass. -/
theorem verifyAccessTry_cases (R : Repositories) (clock : Clock) (db : Database)
    (cardUid doorId timestamp : String) :
    (∃ e, verifyAccessTry R clock db cardUid doorId timestamp = (.error e, db)) ∨
    (∃ reason, reason ≠ "System error" ∧ reason ≠ "" ∧
      verifyAccessTry R clock db cardUid doorId timestamp =
        deny R clock db cardUid doorId timestamp reason) ∨
    (∃ card employee role door groups permissions message,
      ChecksPass R db cardUid doorId card employee role door groups permissions ∧
      (message = "Access granted" ∨ message = "Access granted (time-bound)") ∧
      verifyAccessTry R clock db cardUid doorId timestamp =
        grant R clock db cardUid doorId timestamp message employee role) := by
  unfold verifyAccessTry
  split
  · rename_i e _; exact Or.inl ⟨e, rfl⟩
  · exact Or.inr (Or.inl ⟨_, by decide, by decide, rfl⟩)
  · rename_i card hcard
    split
    · exact Or.inr (Or.inl ⟨_, card_is_ne_system_error _, card_is_ne_empty _, rfl⟩)
    · rename_i hstatus
      split
      · exact Or.inr (Or.inl ⟨_, by decide, by decide, rfl⟩)
      · rename_i employee hemp
        split
        · exact Or.inr (Or.inl ⟨_, by decide, by decide, rfl⟩)
        · rename_i hestatus
          split
          · exact Or.inr (Or.inl ⟨_, by decide, by decide, rfl⟩)
          · rename_i role hrole
            split
            · rename_i e _; exact Or.inl ⟨e, rfl⟩
            · exact Or.inr (Or.inl ⟨_, by decide, by decide, rfl⟩)
            · rename_i door hdoor
              simp only []
              split
              · exact Or.inr (Or.inl ⟨_, by decide, by decide, rfl⟩)
              · rename_i hlen
                split
                · rename_i e _; exact Or.inl ⟨e, rfl⟩
                · rename_i ids hids
                  split
                  · rename_i e _; exact Or.inl ⟨e, rfl⟩
                  · exact Or.inr (Or.inl ⟨_, by decide, by decide, rfl⟩)
                  · rename_i permissions hperm
                    split
                    · exact Or.inr (Or.inl ⟨_, by decide, by decide, rfl⟩)
                    · rename_i hplen
                      obtain ⟨groups, hg, hi⟩ := doorGroupIds_ok _ _ hids
                      have hpass : ChecksPass R db cardUid doorId card employee role door
                          groups permissions := by
                        refine ⟨hcard, by simpa using hstatus, hemp, by simpa using hestatus,
                          hrole, hdoor, ?_, ?_, ?_, ?_⟩
                        · unfold extractDoorGroups at hg
                          split at hg
                          · rename_i hnone
                            simp [extractDoorGroups, hnone] at hlen
                          · rename_i links hlinks
                            rw [hlinks]
                            congr 1
                            apply List.ext_getElem
                            · simpa using congrArg List.length hg
                            · intro i h1 h2
                              have := congrArg (fun l => l[i]?) hg
                              simp [List.getElem?_map, List.getElem?_eq_getElem, h1] at this
                              have h3 : i < groups.length := by simpa using h2
                              simp [List.getElem?_eq_getElem, h3] at this
                              simp
                              cases hl : links[i]
                              rename_i dg
                              simp [hl] at this
                              simp [this]
                        · intro hnil
                          subst hnil
                          simp [hg] at hlen
                        · rw [← hi]; exact hperm
                        · intro hnil
                          subst hnil
                          simp at hplen
                      rcases checkTimeRestrictions_cases R clock db cardUid doorId timestamp
                          employee role (buildingTimezone door) permissions with
                          ⟨e, h⟩ | h | h | h
                      · exact Or.inl ⟨e, h⟩
                      · exact Or.inr (Or.inl ⟨_, by decide, by decide, h⟩)
                      · exact Or.inr (Or.inr ⟨card, employee, role, door, groups, permissions,
                          _, hpass, Or.inl rfl, h⟩)
                      · exact Or.inr (Or.inr ⟨card, employee, role, door, groups, permissions,
                          _, hpass, Or.inr rfl, h⟩)

theorem verifyAccess_of_try_ok {R : Repositories} {clock : Clock} {db db1 : Database}
    {cardUid doorId : String} {result : VerifyResult}
    (h : verifyAccessTry R clock db cardUid doorId (TimeHelper.now clock) = (.ok result, db1)) :
    verifyAccess R clock db cardUid doorId = (.ok result, db1) := by
  unfold verifyAccess
  simp only [h]

theorem verifyAccess_of_try_error {R : Repositories} {clock : Clock} {db db1 : Database}
    {cardUid doorId : String} {e : Fault}
    (h : verifyAccessTry R clock db cardUid doorId (TimeHelper.now clock) = (.error e, db1)) :
    verifyAccess R clock db cardUid doorId =
      (.ok { status := "DENIED", message := "System error",
             timestamp := TimeHelper.now clock },
       (AccessLogRepository.create R db1
          (logRow clock cardUid doorId "DENIED"
            (some "System error during verification"))).2) := by
  unfold verifyAccess
  simp only [h, logAccess_snd]

/-- The three shapes of a verification call: the catch block after a fault,
a denial with a reason, or a grant, each after exactly one log call on the
store the call started from. -/
theorem verifyAccess_cases (R : Repositories) (clock : Clock) (db : Database)
    (cardUid doorId : String) :
    (verifyAccess R clock db cardUid doorId =
      (.ok { status := "DENIED", message := "System error",
             timestamp := TimeHelper.now clock },
       (AccessLogRepository.create R db
          (logRow clock cardUid doorId "DENIED"
            (some "System error during verification"))).2)) ∨
    (∃ reason, reason ≠ "System error" ∧ reason ≠ "" ∧
      verifyAccess R clock db cardUid doorId =
        (.ok { status := "DENIED", message := reason, timestamp := TimeHelper.now clock },
         (AccessLogRepository.create R db
            (logRow clock cardUid doorId "DENIED" (some reason))).2)) ∨
    (∃ card employee role door groups permissions message,
      ChecksPass R db cardUid doorId card employee role door groups permissions ∧
      (message = "Access granted" ∨ message = "Access granted (time-bound)") ∧
      verifyAccess R clock db cardUid doorId =
        (.ok { status := "GRANTED", message := message, timestamp := TimeHelper.now clock,
               employee := some { name := employee.name, role := role.name } },
         (AccessLogRepository.create R db
            (logRow clock cardUid doorId "GRANTED" none)).2)) := by
  rcases verifyAccessTry_cases R clock db cardUid doorId (TimeHelper.now clock) with
    ⟨e, h⟩ | ⟨reason, h1, h2, h⟩ | ⟨card, employee, role, door, groups, permissions, message,
      hp, hm, h⟩
  · exact Or.inl (verifyAccess_of_try_error h)
  · rw [deny_eq] at h
    exact Or.inr (Or.inl ⟨reason, h1, h2, verifyAccess_of_try_ok h⟩)
  · rw [grant_eq] at h
    exact Or.inr (Or.inr ⟨card, employee, role, door, groups, permissions, message, hp, hm,
      verifyAccess_of_try_ok h⟩)

/-- C1: `verifyAccess` is total. For every card uid and door id, every clock,
every store and every behaviour of the collaborators (each lookup and the log
write returning a value or failing), the call returns a result, never an
exception; the status of the result is GRANTED or DENIED, its message is not
empty and its timestamp is the reading of the clock. -/
theorem verifyAccess_total (R : Repositories) (clock : Clock) (db : Database)
    (cardUid doorId : String) :
    ∃ result : VerifyResult,
      (verifyAccess R clock db cardUid doorId).1 = .ok result ∧
      (result.status = "GRANTED" ∨ result.status = "DENIED") ∧
      result.message ≠ "" ∧
      result.timestamp = TimeHelper.now clock := by
  rcases verifyAccess_cases R clock db cardUid doorId with
    h | ⟨reason, _, h2, h⟩ | ⟨_, _, _, _, _, _, message, _, hm, h⟩
  · exact ⟨_, by rw [h], Or.inr rfl, by simp, rfl⟩
  · exact ⟨_, by rw [h], Or.inr rfl, h2, rfl⟩
  · refine ⟨_, by rw [h], Or.inl rfl, ?_, rfl⟩
    rcases hm with hm | hm <;> subst hm <;> simp

/-! ## The log sink: what one write does to the store -/

theorem afterLog_of_accepted {R : Repositories} {clock : Clock} {db : Database}
    {cardUid doorId status : String} {denialReason : Option String}
    (h : R.insertError db (logRow clock cardUid doorId status denialReason) = none) :
    afterLog R clock db cardUid doorId status denialReason =
      { db with access_log :=
          db.access_log ++ [logRow clock cardUid doorId status denialReason] } := by
  simp [afterLog, AccessLogRepository.create, h]

theorem afterLog_of_rejected {R : Repositories} {clock : Clock} {db : Database}
    {cardUid doorId status : String} {denialReason : Option String}
    (h : R.insertError db (logRow clock cardUid doorId status denialReason) ≠ none) :
    afterLog R clock db cardUid doorId status denialReason = db := by
  unfold afterLog AccessLogRepository.create
  split
  · rfl
  · rename_i h1; exact absurd h1 h

/-! ## The outcome of each step -/

theorem deny_eq_denied (R : Repositories) (clock : Clock) (db : Database)
    (cardUid doorId reason : String) :
    deny R clock db cardUid doorId (TimeHelper.now clock) reason =
      denied R clock db cardUid doorId reason := by
  rw [deny_eq]; rfl

theorem grant_eq_granted (R : Repositories) (clock : Clock) (db : Database)
    (cardUid doorId message : String) (employee : Employee) (role : RoleRow) :
    grant R clock db cardUid doorId (TimeHelper.now clock) message employee role =
      granted R clock db cardUid doorId message employee role := by
  rw [grant_eq]; rfl

theorem verifyAccess_of_try_denied {R : Repositories} {clock : Clock} {db : Database}
    {cardUid doorId reason : String}
    (h : verifyAccessTry R clock db cardUid doorId (TimeHelper.now clock) =
      deny R clock db cardUid doorId (TimeHelper.now clock) reason) :
    verifyAccess R clock db cardUid doorId = denied R clock db cardUid doorId reason := by
  rw [deny_eq] at h
  exact verifyAccess_of_try_ok h

theorem verifyAccess_of_try_throws {R : Repositories} {clock : Clock} {db : Database}
    {cardUid doorId : String} {e : Fault}
    (h : verifyAccessTry R clock db cardUid doorId (TimeHelper.now clock) = (.error e, db)) :
    verifyAccess R clock db cardUid doorId = systemError R clock db cardUid doorId :=
  verifyAccess_of_try_error h

theorem step_cardLookupThrows {R : Repositories} {db : Database} {cardUid : String}
    {e : Fault} (h : R.findByUid db cardUid = .error e) (clock : Clock) (doorId : String) :
    verifyAccess R clock db cardUid doorId = systemError R clock db cardUid doorId := by
  apply verifyAccess_of_try_throws (e := e)
  unfold verifyAccessTry
  simp only [h]

theorem step_cardNotFound {R : Repositories} {db : Database} {cardUid : String}
    (h : R.findByUid db cardUid = .ok none) (clock : Clock) (doorId : String) :
    verifyAccess R clock db cardUid doorId =
      denied R clock db cardUid doorId "Card not found" := by
  apply verifyAccess_of_try_denied
  unfold verifyAccessTry
  simp only [h]

theorem step_cardNotActive {R : Repositories} {db : Database} {cardUid : String}
    {card : Card} (h : R.findByUid db cardUid = .ok (some card))
    (hs : card.status ≠ "ACTIVE") (clock : Clock) (doorId : String) :
    verifyAccess R clock db cardUid doorId =
      denied R clock db cardUid doorId ("Card is " ++ card.status) := by
  apply verifyAccess_of_try_denied
  unfold verifyAccessTry
  simp [h, hs]

theorem step_employeeMissing {R : Repositories} {db : Database} {cardUid : String}
    {card : Card} (h : R.findByUid db cardUid = .ok (some card))
    (hs : card.status = "ACTIVE") (he : card.employee = none)
    (clock : Clock) (doorId : String) :
    verifyAccess R clock db cardUid doorId =
      denied R clock db cardUid doorId "Employee not found" := by
  apply verifyAccess_of_try_denied
  unfold verifyAccessTry
  simp [h, hs, he]

theorem step_employeeNotActive {R : Repositories} {db : Database} {cardUid : String}
    {card : Card} {employee : Employee} (h : R.findByUid db cardUid = .ok (some card))
    (hs : card.status = "ACTIVE") (he : card.employee = some employee)
    (hes : employee.status ≠ "ACTIVE") (clock : Clock) (doorId : String) :
    verifyAccess R clock db cardUid doorId =
      denied R clock db cardUid doorId "Employee is inactive" := by
  apply verifyAccess_of_try_denied
  unfold verifyAccessTry
  simp [h, hs, he, hes]

theorem step_noRole {R : Repositories} {db : Database} {cardUid : String}
    {card : Card} {employee : Employee} (h : R.findByUid db cardUid = .ok (some card))
    (hs : card.status = "ACTIVE") (he : card.employee = some employee)
    (hes : employee.status = "ACTIVE") (hr : employee.role = none)
    (clock : Clock) (doorId : String) :
    verifyAccess R clock db cardUid doorId =
      denied R clock db cardUid doorId "Employee has no role assigned" := by
  apply verifyAccess_of_try_denied
  unfold verifyAccessTry
  simp [h, hs, he, hes, hr]

theorem step_doorLookupThrows {R : Repositories} {db : Database} {cardUid doorId : String}
    {card : Card} {employee : Employee} {role : RoleRow} {e : Fault}
    (h : R.findByUid db cardUid = .ok (some card))
    (hs : card.status = "ACTIVE") (he : card.employee = some employee)
    (hes : employee.status = "ACTIVE") (hr : employee.role = some role)
    (hd : R.findDoorById db doorId = .error e) (clock : Clock) :
    verifyAccess R clock db cardUid doorId = systemError R clock db cardUid doorId := by
  apply verifyAccess_of_try_throws (e := e)
  unfold verifyAccessTry
  simp [h, hs, he, hes, hr, hd]

theorem step_doorNotFound {R : Repositories} {db : Database} {cardUid doorId : String}
    {card : Card} {employee : Employee} {role : RoleRow}
    (h : R.findByUid db cardUid = .ok (some card))
    (hs : card.status = "ACTIVE") (he : card.employee = some employee)
    (hes : employee.status = "ACTIVE") (hr : employee.role = some role)
    (hd : R.findDoorById db doorId = .ok none) (clock : Clock) :
    verifyAccess R clock db cardUid doorId =
      denied R clock db cardUid doorId "Door not found" := by
  apply verifyAccess_of_try_denied
  unfold verifyAccessTry
  simp [h, hs, he, hes, hr, hd]

theorem step_doorWithoutGroups {R : Repositories} {db : Database} {cardUid doorId : String}
    {card : Card} {employee : Employee} {role : RoleRow} {door : Door}
    (h : R.findByUid db cardUid = .ok (some card))
    (hs : card.status = "ACTIVE") (he : card.employee = some employee)
    (hes : employee.status = "ACTIVE") (hr : employee.role = some role)
    (hd : R.findDoorById db doorId = .ok (some door))
    (hg : extractDoorGroups door = []) (clock : Clock) :
    verifyAccess R clock db cardUid doorId =
      denied R clock db cardUid doorId "Door has no groups assigned" := by
  apply verifyAccess_of_try_denied
  unfold verifyAccessTry
  simp [h, hs, he, hes, hr, hd, hg]

theorem step_noMatchingPermission {R : Repositories} {db : Database}
    {cardUid doorId : String} {card : Card} {employee : Employee} {role : RoleRow}
    {door : Door} {ids : List String}
    (h : R.findByUid db cardUid = .ok (some card))
    (hs : card.status = "ACTIVE") (he : card.employee = some employee)
    (hes : employee.status = "ACTIVE") (hr : employee.role = some role)
    (hd : R.findDoorById db doorId = .ok (some door))
    (hg : extractDoorGroups door ≠ [])
    (hi : doorGroupIds (extractDoorGroups door) = .ok ids)
    (hp : R.checkRolePermission db role.id ids = .ok none ∨
      R.checkRolePermission db role.id ids = .ok (some [])) (clock : Clock) :
    verifyAccess R clock db cardUid doorId =
      denied R clock db cardUid doorId "No permission for this door" := by
  apply verifyAccess_of_try_denied
  unfold verifyAccessTry
  rcases hp with hp | hp <;> simp [h, hs, he, hes, hr, hd, hg, hi, hp]

/-! ## The loop of step 6 -/

/-- The only exception of `isWithinTimeRange` is the RangeError for a timezone
that the runtime does not know. -/
theorem isWithinTimeRange_error {clock : Clock} {timezone : String}
    {startTime endTime : Option String} {e : Fault}
    (h : TimeHelper.isWithinTimeRange clock timezone startTime endTime = .error e) :
    e = .rangeError ("Invalid time zone specified: " ++ timezone) ∧
      clock.currentTime timezone = none := by
  unfold TimeHelper.isWithinTimeRange at h
  split at h
  · cases h
  · simp only at h
    split at h
    · injection h with h
      exact ⟨h.symm, by assumption⟩
    · split at h <;> cases h

/-- With a timezone that the runtime knows, `isWithinTimeRange` returns. -/
theorem isWithinTimeRange_of_time {clock : Clock} {timezone now : String}
    (h : clock.currentTime timezone = some now) (startTime endTime : Option String) :
    ∃ b, TimeHelper.isWithinTimeRange clock timezone startTime endTime = .ok b := by
  unfold TimeHelper.isWithinTimeRange
  split
  · exact ⟨_, rfl⟩
  · simp only [h]
    split <;> exact ⟨_, rfl⟩

theorem fails_of_time {clock : Clock} {timezone now : String}
    (h : clock.currentTime timezone = some now) (p : PermissionRow) :
    fails clock timezone p = false := by
  obtain ⟨b, hb⟩ := isWithinTimeRange_of_time h p.start_time p.end_time
  simp [fails, hb]

theorem fails_of_known {clock : Clock} {timezone : String}
    (h : clock.currentTime timezone ≠ none) (p : PermissionRow) :
    fails clock timezone p = false := by
  cases hc : clock.currentTime timezone with
  | none => exact absurd hc h
  | some now => exact fails_of_time hc p

theorem satisfied_of_always {clock : Clock} {timezone : String} {p : PermissionRow}
    (h : p.access_type = "ALWAYS") : satisfied clock timezone p = true := by
  simp [satisfied, h]

theorem fails_of_always {clock : Clock} {timezone : String} {p : PermissionRow}
    (h : p.access_type = "ALWAYS") : fails clock timezone p = false := by
  simp [fails, h]

/-- A grant is not both satisfied and failing. -/
theorem not_fails_of_satisfied {clock : Clock} {timezone : String} {p : PermissionRow}
    (h : satisfied clock timezone p = true) : fails clock timezone p = false := by
  by_cases h1 : p.access_type = "ALWAYS"
  · exact fails_of_always h1
  · cases hw : TimeHelper.isWithinTimeRange clock timezone p.start_time p.end_time with
    | ok b => simp [fails, hw]
    | error e => simp [satisfied, h1, hw] at h

/-- A failing grant is TIME_BOUND with both bounds, and the timezone is unknown
to the runtime. -/
theorem fails_iff {clock : Clock} {timezone : String} {p : PermissionRow} :
    fails clock timezone p = true ↔
      p.access_type = "TIME_BOUND" ∧ TimeHelper.falsy p.start_time = false ∧
        TimeHelper.falsy p.end_time = false ∧ clock.currentTime timezone = none := by
  constructor
  · intro h
    simp only [fails, Bool.and_eq_true, bne_iff_ne, ne_eq, beq_iff_eq] at h
    obtain ⟨_, h2, h3⟩ := h
    cases hw : TimeHelper.isWithinTimeRange clock timezone p.start_time p.end_time with
    | ok b => rw [hw] at h3; cases h3
    | error e =>
      refine ⟨h2, ?_, ?_, (isWithinTimeRange_error hw).2⟩
      · cases hs : TimeHelper.falsy p.start_time
        · rfl
        · simp [TimeHelper.isWithinTimeRange, hs] at hw
      · cases hs : TimeHelper.falsy p.end_time
        · rfl
        · simp [TimeHelper.isWithinTimeRange, hs] at hw
  · rintro ⟨h1, h2, h3, h4⟩
    have hne : p.access_type ≠ "ALWAYS" := by rw [h1]; decide
    simp [fails, hne, h1, TimeHelper.isWithinTimeRange, h2, h3, h4]

/-- The loop returns at the first grant that is satisfied or whose evaluation
fails: with the message of its access type when it is satisfied, with the
exception when it fails; it falls through to the denial when there is no such
grant. -/
theorem checkTimeRestrictions_eq (R : Repositories) (clock : Clock) (db : Database)
    (cardUid doorId timestamp : String) (employee : Employee) (role : RoleRow)
    (timezone : String) (permissions : List PermissionRow) :
    checkTimeRestrictions R clock db cardUid doorId timestamp employee role timezone
        permissions =
      match permissions.find? (fun p => satisfied clock timezone p || fails clock timezone p) with
      | none => deny R clock db cardUid doorId timestamp "Outside permitted time range"
      | some p =>
        if satisfied clock timezone p then
          grant R clock db cardUid doorId timestamp
            (if p.access_type = "ALWAYS" then "Access granted"
             else "Access granted (time-bound)") employee role
        else (.error (.rangeError ("Invalid time zone specified: " ++ timezone)), db) := by
  induction permissions with
  | nil => rfl
  | cons p rest ih =>
    unfold checkTimeRestrictions
    by_cases h1 : p.access_type = "ALWAYS"
    · simp [List.find?, satisfied, h1]
    · by_cases h2 : p.access_type = "TIME_BOUND"
      · have hne : ¬ ("TIME_BOUND" = "ALWAYS") := by decide
        cases hw : TimeHelper.isWithinTimeRange clock timezone p.start_time p.end_time with
        | error e =>
          have he := (isWithinTimeRange_error hw).1
          subst he
          simp [List.find?, satisfied, fails, h2, hw, hne]
        | ok b =>
          cases b
          · have hs : satisfied clock timezone p = false := by
              simp [satisfied, h2, hw, hne]
            have hf : fails clock timezone p = false := by
              simp [fails, h2, hw]
            simp only [List.find?, hs, hf, Bool.or_self]
            simp only [h2, hw, beq_iff_eq, hne, if_false, if_true, Bool.false_eq_true]
            exact ih
          · simp [List.find?, satisfied, h2, hw, hne]
      · have hs : satisfied clock timezone p = false := by
          simp [satisfied, h1, h2]
        have hf : fails clock timezone p = false := by
          simp [fails, h2]
        simp only [List.find?, hs, hf, Bool.or_self]
        rw [if_neg (by simpa using h1), if_neg (by simpa using h2)]
        exact ih

theorem find?_decisive_of_no_fail {clock : Clock} {timezone : String}
    {permissions : List PermissionRow}
    (h : ∀ p ∈ permissions, fails clock timezone p = false) :
    permissions.find? (fun p => satisfied clock timezone p || fails clock timezone p) =
      permissions.find? (satisfied clock timezone) := by
  induction permissions with
  | nil => rfl
  | cons p rest ih =>
    have hp := h p (List.mem_cons_self _ _)
    simp only [List.find?, hp, Bool.or_false]
    cases satisfied clock timezone p
    · exact ih fun q hq => h q (List.mem_cons_of_mem _ hq)
    · rfl

/-- When checks 1 to 8 pass, the call is decided by the first grant that is
satisfied or whose evaluation fails. -/
theorem verifyAccess_of_checksPass_first {R : Repositories} {db : Database}
    {cardUid doorId : String} {card : Card} {employee : Employee} {role : RoleRow}
    {door : Door} {groups : List DoorGroupRow} {permissions : List PermissionRow}
    (h : ChecksPass R db cardUid doorId card employee role door groups permissions)
    (clock : Clock) :
    verifyAccess R clock db cardUid doorId =
      match permissions.find? (fun p => satisfied clock (buildingTimezone door) p ||
          fails clock (buildingTimezone door) p) with
      | none => denied R clock db cardUid doorId "Outside permitted time range"
      | some p =>
        if satisfied clock (buildingTimezone door) p then
          granted R clock db cardUid doorId
            (if p.access_type = "ALWAYS" then "Access granted"
             else "Access granted (time-bound)") employee role
        else systemError R clock db cardUid doorId := by
  have h1 := verifyAccessTry_of_checksPass h clock (TimeHelper.now clock)
  rw [checkTimeRestrictions_eq] at h1
  split
  · rename_i hf
    rw [hf] at h1
    exact verifyAccess_of_try_denied h1
  · rename_i p hf
    rw [hf] at h1
    simp only at h1
    split
    · rename_i hs
      rw [if_pos hs] at h1
      simp only [grant_eq] at h1
      exact verifyAccess_of_try_ok h1
    · rename_i hs
      rw [if_neg hs] at h1
      exact verifyAccess_of_try_throws h1

/-- When checks 1 to 8 pass and the evaluation of no grant fails, the call is
decided by the first satisfied grant. -/
theorem verifyAccess_of_checksPass {R : Repositories} {db : Database}
    {cardUid doorId : String} {card : Card} {employee : Employee} {role : RoleRow}
    {door : Door} {groups : List DoorGroupRow} {permissions : List PermissionRow}
    (h : ChecksPass R db cardUid doorId card employee role door groups permissions)
    (clock : Clock)
    (hno : ∀ p ∈ permissions, fails clock (buildingTimezone door) p = false) :
    verifyAccess R clock db cardUid doorId =
      match permissions.find? (satisfied clock (buildingTimezone door)) with
      | none => denied R clock db cardUid doorId "Outside permitted time range"
      | some p =>
        granted R clock db cardUid doorId
          (if p.access_type = "ALWAYS" then "Access granted"
           else "Access granted (time-bound)") employee role := by
  rw [verifyAccess_of_checksPass_first h clock, find?_decisive_of_no_fail hno]
  split
  · rfl
  · rename_i p hf
    have hs : satisfied clock (buildingTimezone door) p = true := by
      have := List.find?_some hf
      simpa using this
    rw [if_pos hs]

theorem granted_ne_denied (R : Repositories) (clock : Clock) (db : Database)
    (cardUid doorId message reason : String) (employee : Employee) (role : RoleRow) :
    granted R clock db cardUid doorId message employee role ≠
      denied R clock db cardUid doorId reason := by
  intro h
  have h1 := congrArg Prod.fst h
  simp [granted, denied] at h1

/-! ## Facts about the example store -/

theorem Demo.checks_alice :
    ChecksPass (repositories healthy) Demo.db "CARD-0001" "d1" Demo.aliceCard Demo.alice
      Demo.roleEmployee Demo.mainEntrance Demo.groups Demo.aliceGrants :=
  ⟨rfl, rfl, rfl, rfl, rfl, rfl, rfl, by decide, rfl, by decide⟩

theorem Demo.checks_fay :
    ChecksPass (repositories healthy) Demo.db "CARD-0006" "d1" Demo.fayCard Demo.fay
      Demo.roleCleaner Demo.mainEntrance Demo.groups Demo.fayGrants :=
  ⟨rfl, rfl, rfl, rfl, rfl, rfl, rfl, by decide, rfl, by decide⟩

theorem Demo.checks_gus :
    ChecksPass (repositories healthy) Demo.db "CARD-0007" "d1" Demo.gusCard Demo.gus
      Demo.roleManager Demo.mainEntrance Demo.groups Demo.gusGrants :=
  ⟨rfl, rfl, rfl, rfl, rfl, rfl, rfl, by decide, rfl, by decide⟩

theorem Demo.checks_fay_mars :
    ChecksPass (repositories healthy) Demo.mars "CARD-0006" "d1" Demo.fayCard Demo.fay
      Demo.roleCleaner Demo.marsEntrance Demo.groups Demo.fayGrants :=
  ⟨rfl, rfl, rfl, rfl, rfl, rfl, rfl, by decide, rfl, by decide⟩

theorem Demo.checks_gus_mars :
    ChecksPass (repositories healthy) Demo.mars "CARD-0007" "d1" Demo.gusCard Demo.gus
      Demo.roleManager Demo.marsEntrance Demo.groups Demo.gusGrants :=
  ⟨rfl, rfl, rfl, rfl, rfl, rfl, rfl, by decide, rfl, by decide⟩

/-! ## The audit log (C2) -/

/-- C2, as stated, fails when the store rejects the insert: with every read
succeeding and the log insert failing, the call for an ACTIVE card with an
ALWAYS grant returns GRANTED and appends no row to the access log. -/
theorem verifyAccess_appends_nothing_when_log_down :
    (verifyAccess (repositories Demo.logDown) (Demo.clockAt "12:00:00") Demo.db
        "CARD-0001" "d1").1 =
      .ok { status := "GRANTED", message := "Access granted",
            timestamp := "2024-03-04T12:00:00.000Z",
            employee := some { name := "Alice", role := "Employee" } } ∧
    ¬ ∃ row : AccessLogRow,
      (verifyAccess (repositories Demo.logDown) (Demo.clockAt "12:00:00") Demo.db
        "CARD-0001" "d1").2.access_log = Demo.db.access_log ++ [row] := by
  refine ⟨rfl, ?_⟩
  rintro ⟨row, h⟩
  have h1 : (verifyAccess (repositories Demo.logDown) (Demo.clockAt "12:00:00") Demo.db
      "CARD-0001" "d1").2.access_log = [] := rfl
  rw [h1] at h
  simp at h

/-- C2 (amended): every verification call performs one log write. The row it
writes carries the card uid and door id of the call and the returned status;
its denial reason is the returned message when DENIED and null when GRANTED,
except after an internal fault (the only case where the returned message is
"System error"), where it is "System error during verification". When the
store accepts the insert the access log grows by exactly this row and nothing
else in the store changes; when the store rejects it the store is unchanged. -/
theorem verifyAccess_logs_once (R : Repositories) (clock : Clock) (db : Database)
    (cardUid doorId : String) :
    ∃ (result : VerifyResult) (row : AccessLogRow),
      (verifyAccess R clock db cardUid doorId).1 = .ok result ∧
      row.card_uid = cardUid ∧ row.door_id = doorId ∧ row.status = result.status ∧
      row.denial_reason =
        (if result.message = "System error" then some "System error during verification"
         else if result.status = "DENIED" then some result.message else none) ∧
      (R.insertError db row = none →
        (verifyAccess R clock db cardUid doorId).2 =
          { db with access_log := db.access_log ++ [row] }) ∧
      (R.insertError db row ≠ none → (verifyAccess R clock db cardUid doorId).2 = db) := by
  rcases verifyAccess_cases R clock db cardUid doorId with
    h | ⟨reason, h1, _, h⟩ | ⟨_, _, _, _, _, _, message, _, hm, h⟩
  · refine ⟨_, logRow clock cardUid doorId "DENIED" (some "System error during verification"),
      by rw [h], rfl, rfl, rfl, by simp [logRow], ?_, ?_⟩
    · intro ha; rw [h]; exact afterLog_of_accepted ha
    · intro hr; rw [h]; exact afterLog_of_rejected hr
  · refine ⟨_, logRow clock cardUid doorId "DENIED" (some reason),
      by rw [h], rfl, rfl, rfl, by simp [logRow, h1], ?_, ?_⟩
    · intro ha; rw [h]; exact afterLog_of_accepted ha
    · intro hr; rw [h]; exact afterLog_of_rejected hr
  · refine ⟨_, logRow clock cardUid doorId "GRANTED" none,
      by rw [h], rfl, rfl, rfl, ?_, ?_, ?_⟩
    · rcases hm with hm | hm <;> subst hm <;> simp [logRow]
    · intro ha; rw [h]; exact afterLog_of_accepted ha
    · intro hr; rw [h]; exact afterLog_of_rejected hr

/-! ## The granting branches (C4, C5) -/

/-- C4, as stated, fails when a satisfied TIME_BOUND grant comes before the
ALWAYS grant in the list returned by the lookup: for the card of Gus at door
`d1` at 12:00:00 checks 1 to 8 pass and one of the two grants is ALWAYS, but
the returned message is "Access granted (time-bound)", not "Access granted". -/
theorem verifyAccess_always_grant_behind_time_bound :
    ChecksPass (repositories healthy) Demo.db "CARD-0007" "d1" Demo.gusCard Demo.gus
      Demo.roleManager Demo.mainEntrance Demo.groups Demo.gusGrants ∧
    (∃ p ∈ Demo.gusGrants, p.access_type = "ALWAYS") ∧
    (verifyAccess (repositories healthy) (Demo.clockAt "12:00:00") Demo.db
        "CARD-0007" "d1").1 =
      .ok { status := "GRANTED", message := "Access granted (time-bound)",
            timestamp := "2024-03-04T12:00:00.000Z",
            employee := some { name := "Gus", role := "Manager" } } ∧
    verifyAccess (repositories healthy) (Demo.clockAt "12:00:00") Demo.db "CARD-0007" "d1" ≠
      granted (repositories healthy) (Demo.clockAt "12:00:00") Demo.db "CARD-0007" "d1"
        "Access granted" Demo.gus Demo.roleManager := by
  refine ⟨Demo.checks_gus, ⟨_, List.mem_cons_of_mem _ (List.mem_singleton.2 rfl), rfl⟩,
    rfl, ?_⟩
  intro h
  have h1 : (verifyAccess (repositories healthy) (Demo.clockAt "12:00:00") Demo.db
      "CARD-0007" "d1").1 =
      .ok { status := "GRANTED", message := "Access granted (time-bound)",
            timestamp := "2024-03-04T12:00:00.000Z",
            employee := some { name := "Gus", role := "Manager" } } := rfl
  rw [h] at h1
  simp [granted] at h1

/-- C4 (amended): when checks 1 to 8 pass and some grant returned by the
permission lookup is ALWAYS, the call is decided by the first grant of the
returned order that is satisfied or whose evaluation fails, and there is one.
When that grant is satisfied, `verifyAccess` returns GRANTED and attaches the
name of the employee and of the role, with the message "Access granted" when
the grant is ALWAYS and "Access granted (time-bound)" when it is a TIME_BOUND
grant whose window contains the current time. That grant is satisfied whenever
the runtime knows the timezone of the building, and whenever the evaluation of
no grant fails. Otherwise the grant is a TIME_BOUND grant with both bounds that
comes before the first ALWAYS grant, the timezone is unknown to the runtime,
and `verifyAccess` returns DENIED "System error". -/
theorem verifyAccess_granted_of_always_grant {R : Repositories} {db : Database}
    {cardUid doorId : String} {card : Card} {employee : Employee} {role : RoleRow}
    {door : Door} {groups : List DoorGroupRow} {permissions : List PermissionRow}
    (hpass : ChecksPass R db cardUid doorId card employee role door groups permissions)
    (halways : ∃ p ∈ permissions, p.access_type = "ALWAYS") (clock : Clock) :
    ∃ first,
      permissions.find? (fun p => satisfied clock (buildingTimezone door) p ||
        fails clock (buildingTimezone door) p) = some first ∧
      (satisfied clock (buildingTimezone door) first = true →
        verifyAccess R clock db cardUid doorId =
          granted R clock db cardUid doorId
            (if first.access_type = "ALWAYS" then "Access granted"
             else "Access granted (time-bound)") employee role) ∧
      (clock.currentTime (buildingTimezone door) ≠ none →
        satisfied clock (buildingTimezone door) first = true) ∧
      ((∀ q ∈ permissions, fails clock (buildingTimezone door) q = false) →
        satisfied clock (buildingTimezone door) first = true) ∧
      (satisfied clock (buildingTimezone door) first = false →
        first.access_type = "TIME_BOUND" ∧
        TimeHelper.falsy first.start_time = false ∧ TimeHelper.falsy first.end_time = false ∧
        clock.currentTime (buildingTimezone door) = none ∧
        verifyAccess R clock db cardUid doorId = systemError R clock db cardUid doorId) := by
  obtain ⟨p, hp, ha⟩ := halways
  have hdec : (satisfied clock (buildingTimezone door) p ||
      fails clock (buildingTimezone door) p) = true := by
    rw [satisfied_of_always ha]
    rfl
  have hv := verifyAccess_of_checksPass_first hpass clock
  cases hf : permissions.find? (fun p => satisfied clock (buildingTimezone door) p ||
      fails clock (buildingTimezone door) p) with
  | none =>
    rw [List.find?_eq_none] at hf
    exact absurd hdec (hf p hp)
  | some first =>
    rw [hf] at hv
    simp only at hv
    have hmem : first ∈ permissions := List.mem_of_find?_eq_some hf
    have hfirst : (satisfied clock (buildingTimezone door) first ||
        fails clock (buildingTimezone door) first) = true := by
      have := List.find?_some hf
      simpa using this
    have hsat : fails clock (buildingTimezone door) first = false →
        satisfied clock (buildingTimezone door) first = true := by
      intro h
      rw [h, Bool.or_false] at hfirst
      exact hfirst
    refine ⟨first, rfl, ?_, ?_, ?_, ?_⟩
    · intro hs
      rw [if_pos hs] at hv
      exact hv
    · intro hknown
      exact hsat (fails_of_known hknown first)
    · intro hno
      exact hsat (hno first hmem)
    · intro hs
      rw [if_neg (by simp [hs])] at hv
      have hfl : fails clock (buildingTimezone door) first = true := by
        rw [hs, Bool.false_or] at hfirst
        exact hfirst
      obtain ⟨h1, h2, h3, h4⟩ := fails_iff.1 hfl
      exact ⟨h1, h2, h3, h4, hv⟩

/-- The amended C4 at work. The card of Gus at door `d1` at 18:00:00, when the
TIME_BOUND grant that comes first is outside its window: the ALWAYS grant
decides and the call is granted. The same card in the store whose building has
the timezone "Mars/Olympus", on a runtime that does not know it: the
TIME_BOUND grant that comes first throws and the call returns "System
error". -/
theorem verifyAccess_granted_of_always_grant_witness :
    ChecksPass (repositories healthy) Demo.db "CARD-0007" "d1" Demo.gusCard Demo.gus
      Demo.roleManager Demo.mainEntrance Demo.groups Demo.gusGrants ∧
    (∃ p ∈ Demo.gusGrants, p.access_type = "ALWAYS") ∧
    verifyAccess (repositories healthy) (Demo.clockAt "18:00:00") Demo.db "CARD-0007" "d1" =
      granted (repositories healthy) (Demo.clockAt "18:00:00") Demo.db "CARD-0007" "d1"
        "Access granted" Demo.gus Demo.roleManager ∧
    verifyAccess (repositories healthy) (Demo.zonedClockAt "12:00:00") Demo.mars
        "CARD-0007" "d1" =
      systemError (repositories healthy) (Demo.zonedClockAt "12:00:00") Demo.mars
        "CARD-0007" "d1" ∧
    ∃ first,
      Demo.gusGrants.find? (fun p =>
        satisfied (Demo.zonedClockAt "12:00:00") (buildingTimezone Demo.marsEntrance) p ||
        fails (Demo.zonedClockAt "12:00:00") (buildingTimezone Demo.marsEntrance) p) =
          some first ∧
      (satisfied (Demo.zonedClockAt "12:00:00") (buildingTimezone Demo.marsEntrance) first
          = true →
        verifyAccess (repositories healthy) (Demo.zonedClockAt "12:00:00") Demo.mars
            "CARD-0007" "d1" =
          granted (repositories healthy) (Demo.zonedClockAt "12:00:00") Demo.mars
            "CARD-0007" "d1"
            (if first.access_type = "ALWAYS" then "Access granted"
             else "Access granted (time-bound)") Demo.gus Demo.roleManager) ∧
      ((Demo.zonedClockAt "12:00:00").currentTime (buildingTimezone Demo.marsEntrance) ≠ none →
        satisfied (Demo.zonedClockAt "12:00:00") (buildingTimezone Demo.marsEntrance) first
          = true) ∧
      ((∀ q ∈ Demo.gusGrants,
          fails (Demo.zonedClockAt "12:00:00") (buildingTimezone Demo.marsEntrance) q
            = false) →
        satisfied (Demo.zonedClockAt "12:00:00") (buildingTimezone Demo.marsEntrance) first
          = true) ∧
      (satisfied (Demo.zonedClockAt "12:00:00") (buildingTimezone Demo.marsEntrance) first
          = false →
        first.access_type = "TIME_BOUND" ∧
        TimeHelper.falsy first.start_time = false ∧ TimeHelper.falsy first.end_time = false ∧
        (Demo.zonedClockAt "12:00:00").currentTime (buildingTimezone Demo.marsEntrance)
          = none ∧
        verifyAccess (repositories healthy) (Demo.zonedClockAt "12:00:00") Demo.mars
            "CARD-0007" "d1" =
          systemError (repositories healthy) (Demo.zonedClockAt "12:00:00") Demo.mars
            "CARD-0007" "d1") :=
  ⟨Demo.checks_gus, ⟨_, List.mem_cons_of_mem _ (List.mem_singleton.2 rfl), rfl⟩, rfl, rfl,
    verifyAccess_granted_of_always_grant Demo.checks_gus_mars
      ⟨_, List.mem_cons_of_mem _ (List.mem_singleton.2 rfl), rfl⟩
      (Demo.zonedClockAt "12:00:00")⟩

/-- C5, as stated, fails when the runtime does not know the timezone stored
for the building. In the store whose building has the timezone "Mars/Olympus",
checks 1 to 8 pass for the card of Fay at door `d1` and her one grant is
TIME_BOUND from 09:00:00 to 17:00:00; `isWithinTimeRange` throws for it, and
`verifyAccess` returns DENIED "System error": neither GRANTED "Access granted
(time-bound)" nor DENIED "Outside permitted time range". -/
theorem verifyAccess_time_bound_unknown_timezone :
    ChecksPass (repositories healthy) Demo.mars "CARD-0006" "d1" Demo.fayCard Demo.fay
      Demo.roleCleaner Demo.marsEntrance Demo.groups Demo.fayGrants ∧
    (∀ p ∈ Demo.fayGrants, p.access_type ≠ "ALWAYS") ∧
    TimeHelper.isWithinTimeRange (Demo.zonedClockAt "18:00:00") "Mars/Olympus"
        (some "09:00:00") (some "17:00:00") =
      .error (.rangeError "Invalid time zone specified: Mars/Olympus") ∧
    (verifyAccess (repositories healthy) (Demo.zonedClockAt "18:00:00") Demo.mars
        "CARD-0006" "d1").1 =
      .ok { status := "DENIED", message := "System error",
            timestamp := "2024-03-04T12:00:00.000Z" } ∧
    (verifyAccess (repositories healthy) (Demo.zonedClockAt "18:00:00") Demo.mars
        "CARD-0006" "d1").2.access_log =
      [{ card_uid := "CARD-0006", door_id := "d1", status := "DENIED",
         denial_reason := some "System error during verification",
         timestamp := "2024-03-04T12:00:00.012Z" }] :=
  ⟨Demo.checks_fay_mars, by decide, rfl, rfl, rfl⟩

/-- C5 (amended): when checks 1 to 8 pass and the non-empty list of returned
grants has no ALWAYS grant, the call is decided by the first grant that is
satisfied or whose evaluation fails: without such a grant `verifyAccess`
returns DENIED "Outside permitted time range"; when that grant is satisfied it
returns GRANTED "Access granted (time-bound)" with the employee attachment;
when its evaluation fails it returns DENIED "System error". When the
evaluation of no grant fails, as is the case when the runtime knows the
timezone of the building, `verifyAccess` returns GRANTED "Access granted
(time-bound)" with the employee attachment if and only if some TIME_BOUND
grant of the list has a window that contains the current time of the
building's timezone under `isWithinTimeRange`; otherwise it returns DENIED
"Outside permitted time range". -/
theorem verifyAccess_time_bound {R : Repositories} {db : Database}
    {cardUid doorId : String} {card : Card} {employee : Employee} {role : RoleRow}
    {door : Door} {groups : List DoorGroupRow} {permissions : List PermissionRow}
    (hpass : ChecksPass R db cardUid doorId card employee role door groups permissions)
    (hnoAlways : ∀ p ∈ permissions, p.access_type ≠ "ALWAYS") (clock : Clock) :
    (verifyAccess R clock db cardUid doorId =
      match permissions.find? (fun p => satisfied clock (buildingTimezone door) p ||
          fails clock (buildingTimezone door) p) with
      | none => denied R clock db cardUid doorId "Outside permitted time range"
      | some p =>
        if satisfied clock (buildingTimezone door) p then
          granted R clock db cardUid doorId "Access granted (time-bound)" employee role
        else systemError R clock db cardUid doorId) ∧
    (clock.currentTime (buildingTimezone door) ≠ none →
      ∀ p ∈ permissions, fails clock (buildingTimezone door) p = false) ∧
    ((∀ p ∈ permissions, fails clock (buildingTimezone door) p = false) →
      (verifyAccess R clock db cardUid doorId =
          granted R clock db cardUid doorId "Access granted (time-bound)" employee role ↔
        ∃ p ∈ permissions, p.access_type = "TIME_BOUND" ∧
          TimeHelper.isWithinTimeRange clock (buildingTimezone door) p.start_time p.end_time
            = .ok true) ∧
      ((¬ ∃ p ∈ permissions, p.access_type = "TIME_BOUND" ∧
          TimeHelper.isWithinTimeRange clock (buildingTimezone door) p.start_time p.end_time
            = .ok true) →
        verifyAccess R clock db cardUid doorId =
          denied R clock db cardUid doorId "Outside permitted time range")) := by
  refine ⟨?_, fun hknown p _ => fails_of_known hknown p, ?_⟩
  · rw [verifyAccess_of_checksPass_first hpass clock]
    split
    · rfl
    · rename_i p hf
      simp only [hnoAlways p (List.mem_of_find?_eq_some hf), if_false]
  intro hno
  have hv := verifyAccess_of_checksPass hpass clock hno
  have hsat : ∀ p ∈ permissions, (satisfied clock (buildingTimezone door) p = true ↔
      (p.access_type = "TIME_BOUND" ∧
        TimeHelper.isWithinTimeRange clock (buildingTimezone door) p.start_time p.end_time
          = .ok true)) := by
    intro p hp
    cases hw : TimeHelper.isWithinTimeRange clock (buildingTimezone door) p.start_time
        p.end_time with
    | error e => simp [satisfied, hnoAlways p hp, hw]
    | ok b => simp [satisfied, hnoAlways p hp, hw]
  cases hf : permissions.find? (satisfied clock (buildingTimezone door)) with
  | none =>
    rw [hf] at hv
    have hnone : ¬ ∃ p ∈ permissions, p.access_type = "TIME_BOUND" ∧
        TimeHelper.isWithinTimeRange clock (buildingTimezone door) p.start_time p.end_time
          = .ok true := by
      rintro ⟨p, hp, h⟩
      rw [List.find?_eq_none] at hf
      exact hf p hp ((hsat p hp).2 h)
    refine ⟨⟨?_, fun h => absurd h hnone⟩, fun _ => hv⟩
    intro h
    rw [hv] at h
    exact absurd h.symm (granted_ne_denied _ _ _ _ _ _ _ _ _)
  | some first =>
    rw [hf] at hv
    have hmem : first ∈ permissions := List.mem_of_find?_eq_some hf
    have hfs : satisfied clock (buildingTimezone door) first = true := by
      have := List.find?_some hf
      simpa using this
    have hex : ∃ p ∈ permissions, p.access_type = "TIME_BOUND" ∧
        TimeHelper.isWithinTimeRange clock (buildingTimezone door) p.start_time p.end_time
          = .ok true := ⟨first, hmem, (hsat first hmem).1 hfs⟩
    simp only [hnoAlways first hmem, if_false] at hv
    exact ⟨⟨fun _ => hex, fun _ => hv⟩, fun h => absurd hex h⟩

/-- The amended C5 at work, the scenario of the claim: the role Cleaner holds
one TIME_BOUND grant 09:00:00 to 17:00:00 on a group of door `d1`, and at
18:00:00 local time the card of Fay is denied with "Outside permitted time
range". -/
theorem verifyAccess_time_bound_witness :
    ChecksPass (repositories healthy) Demo.db "CARD-0006" "d1" Demo.fayCard Demo.fay
      Demo.roleCleaner Demo.mainEntrance Demo.groups Demo.fayGrants ∧
    (∀ p ∈ Demo.fayGrants, p.access_type ≠ "ALWAYS") ∧
    (∀ p ∈ Demo.fayGrants,
      fails (Demo.clockAt "18:00:00") (buildingTimezone Demo.mainEntrance) p = false) ∧
    verifyAccess (repositories healthy) (Demo.clockAt "18:00:00") Demo.db "CARD-0006" "d1" =
      denied (repositories healthy) (Demo.clockAt "18:00:00") Demo.db "CARD-0006" "d1"
        "Outside permitted time range" :=
  ⟨Demo.checks_fay, by decide, by decide,
    ((verifyAccess_time_bound Demo.checks_fay (by decide) (Demo.clockAt "18:00:00")).2.2
      (by decide)).2 (by
        rintro ⟨p, hp, _, hw⟩
        rw [List.mem_singleton.1 hp] at hw
        cases hw)⟩

/-! ## Safety of a grant (C6) -/

/-- C6: whenever `verifyAccess` returns status GRANTED, checks 1 to 8 pass:
the card lookup found a card whose status is ACTIVE, the card has an employee
whose status is ACTIVE and who has a role, the door lookup found a door whose
list of groups is not empty, and the permission lookup for that role and the
ids of those groups returned a non-empty list of grants. So a door with zero
groups and a role with zero permissions are never granted. -/
theorem verifyAccess_granted_only_if (R : Repositories) (clock : Clock) (db : Database)
    (cardUid doorId : String) (result : VerifyResult)
    (hresult : (verifyAccess R clock db cardUid doorId).1 = .ok result)
    (hgranted : result.status = "GRANTED") :
    ∃ card employee role door groups permissions,
      ChecksPass R db cardUid doorId card employee role door groups permissions := by
  rcases verifyAccess_cases R clock db cardUid doorId with
    h | ⟨reason, _, _, h⟩ | ⟨card, employee, role, door, groups, permissions, _, hp, _, _⟩
  · rw [h] at hresult
    simp only [Except.ok.injEq] at hresult
    rw [← hresult] at hgranted
    simp at hgranted
  · rw [h] at hresult
    simp only [Except.ok.injEq] at hresult
    rw [← hresult] at hgranted
    simp at hgranted
  · exact ⟨card, employee, role, door, groups, permissions, hp⟩

/-- C6 at work: the granted call of the card of Alice at door `d1`. -/
theorem verifyAccess_granted_only_if_witness :
    (verifyAccess (repositories healthy) (Demo.clockAt "12:00:00") Demo.db
        "CARD-0001" "d1").1 =
      .ok { status := "GRANTED", message := "Access granted",
            timestamp := "2024-03-04T12:00:00.000Z",
            employee := some { name := "Alice", role := "Employee" } } ∧
    ∃ card employee role door groups permissions,
      ChecksPass (repositories healthy) Demo.db "CARD-0001" "d1" card employee role door
        groups permissions :=
  ⟨rfl, verifyAccess_granted_only_if (repositories healthy) (Demo.clockAt "12:00:00") Demo.db
    "CARD-0001" "d1" _ rfl rfl⟩

/-! ## The checks on the card and the employee (C7, C8, C9) -/

/-- C7: for every card found whose status is not ACTIVE, `verifyAccess` returns
DENIED with the message "Card is " followed by the status of the card, and
writes that reason to the log, whatever the employee, the role, the door id,
the answers or failures of the door and permission lookups, and the clock. -/
theorem verifyAccess_card_not_active (R : Repositories) (clock : Clock) (db : Database)
    (cardUid doorId : String) (card : Card)
    (hcard : R.findByUid db cardUid = .ok (some card))
    (hstatus : card.status ≠ "ACTIVE") :
    verifyAccess R clock db cardUid doorId =
      denied R clock db cardUid doorId ("Card is " ++ card.status) :=
  step_cardNotActive hcard hstatus clock doorId

/-- C7 at work: the BLOCKED card of Bob, presented at a door that does not
exist, is denied with "Card is BLOCKED". -/
theorem verifyAccess_card_not_active_witness :
    (repositories healthy).findByUid Demo.db "CARD-0002" =
      .ok (some { id := "c2", card_uid := "CARD-0002", employee_id := some "e2",
                  status := "BLOCKED",
                  employee := some { id := "e2", name := "Bob", status := "ACTIVE",
                                     role := some Demo.roleEmployee } }) ∧
    verifyAccess (repositories healthy) (Demo.clockAt "12:00:00") Demo.db "CARD-0002" "d9" =
      denied (repositories healthy) (Demo.clockAt "12:00:00") Demo.db "CARD-0002" "d9"
        "Card is BLOCKED" :=
  ⟨rfl, verifyAccess_card_not_active (repositories healthy) (Demo.clockAt "12:00:00") Demo.db
    "CARD-0002" "d9" _ rfl (by decide)⟩

/-- C8: for every card uid for which the card lookup reports that no card
exists, and for every door id, `verifyAccess` returns DENIED with the message
"Card not found" and no employee attached, and writes that reason to the
log. -/
theorem verifyAccess_card_not_found (R : Repositories) (clock : Clock) (db : Database)
    (cardUid doorId : String) (hcard : R.findByUid db cardUid = .ok none) :
    verifyAccess R clock db cardUid doorId =
      denied R clock db cardUid doorId "Card not found" ∧
    ∃ result, (verifyAccess R clock db cardUid doorId).1 = .ok result ∧
      result.status = "DENIED" ∧ result.message = "Card not found" ∧
      result.employee = none := by
  have h := step_cardNotFound hcard clock doorId
  exact ⟨h, _, by rw [h]; rfl, rfl, rfl, rfl⟩

/-- C8 at work: a card uid that is in no row of `access_card`. -/
theorem verifyAccess_card_not_found_witness :
    (repositories healthy).findByUid Demo.db "INVALID-CARD-XXX" = .ok none ∧
    verifyAccess (repositories healthy) (Demo.clockAt "12:00:00") Demo.db
        "INVALID-CARD-XXX" "d1" =
      denied (repositories healthy) (Demo.clockAt "12:00:00") Demo.db "INVALID-CARD-XXX" "d1"
        "Card not found" :=
  ⟨rfl, (verifyAccess_card_not_found (repositories healthy) (Demo.clockAt "12:00:00") Demo.db
    "INVALID-CARD-XXX" "d1" rfl).1⟩

/-- C9: for every ACTIVE card and every door id: if the card has no employee,
`verifyAccess` returns DENIED "Employee not found"; otherwise, if the status of
the employee is not ACTIVE, it returns DENIED "Employee is inactive";
otherwise, if the employee has no role, it returns DENIED "Employee has no
role assigned". Each reason is also the one written to the log. -/
theorem verifyAccess_employee_checks (R : Repositories) (clock : Clock) (db : Database)
    (cardUid doorId : String) (card : Card)
    (hcard : R.findByUid db cardUid = .ok (some card))
    (hactive : card.status = "ACTIVE") :
    (card.employee = none →
      verifyAccess R clock db cardUid doorId =
        denied R clock db cardUid doorId "Employee not found") ∧
    (∀ employee, card.employee = some employee → employee.status ≠ "ACTIVE" →
      verifyAccess R clock db cardUid doorId =
        denied R clock db cardUid doorId "Employee is inactive") ∧
    (∀ employee, card.employee = some employee → employee.status = "ACTIVE" →
      employee.role = none →
      verifyAccess R clock db cardUid doorId =
        denied R clock db cardUid doorId "Employee has no role assigned") :=
  ⟨fun he => step_employeeMissing hcard hactive he clock doorId,
   fun _ he hes => step_employeeNotActive hcard hactive he hes clock doorId,
   fun _ he hes hr => step_noRole hcard hactive he hes hr clock doorId⟩

/-- C9 at work: the ACTIVE cards of nobody, of Dan (INACTIVE) and of Eve (no
role) at door `d1`. -/
theorem verifyAccess_employee_checks_witness :
    verifyAccess (repositories healthy) (Demo.clockAt "12:00:00") Demo.db "CARD-0003" "d1" =
      denied (repositories healthy) (Demo.clockAt "12:00:00") Demo.db "CARD-0003" "d1"
        "Employee not found" ∧
    verifyAccess (repositories healthy) (Demo.clockAt "12:00:00") Demo.db "CARD-0004" "d1" =
      denied (repositories healthy) (Demo.clockAt "12:00:00") Demo.db "CARD-0004" "d1"
        "Employee is inactive" ∧
    verifyAccess (repositories healthy) (Demo.clockAt "12:00:00") Demo.db "CARD-0005" "d1" =
      denied (repositories healthy) (Demo.clockAt "12:00:00") Demo.db "CARD-0005" "d1"
        "Employee has no role assigned" :=
  ⟨(verifyAccess_employee_checks (repositories healthy) (Demo.clockAt "12:00:00") Demo.db
      "CARD-0003" "d1"
      { id := "c3", card_uid := "CARD-0003", status := "ACTIVE" } rfl rfl).1 rfl,
   (verifyAccess_employee_checks (repositories healthy) (Demo.clockAt "12:00:00") Demo.db
      "CARD-0004" "d1"
      { id := "c4", card_uid := "CARD-0004", employee_id := some "e4", status := "ACTIVE",
        employee := some { id := "e4", name := "Dan", status := "INACTIVE",
                           role := some Demo.roleEmployee } } rfl rfl).2.1 _ rfl (by decide),
   (verifyAccess_employee_checks (repositories healthy) (Demo.clockAt "12:00:00") Demo.db
      "CARD-0005" "d1"
      { id := "c5", card_uid := "CARD-0005", employee_id := some "e5", status := "ACTIVE",
        employee := some { id := "e5", name := "Eve", status := "ACTIVE" } } rfl rfl).2.2
      _ rfl rfl rfl⟩

/-! ## The door that does not exist (C10) -/

/-- The door repository throws for an id that no row of `door` carries: a
`NotFoundError` when the store answers with no row, the error of the store
otherwise. It never answers `null`. -/
theorem findDoorById_throws_of_absent (conn : Connection) (db : Database) (id : String)
    (habsent : ∀ d ∈ db.door, d.id ≠ id) :
    ∃ e, DoorRepository.findDoorById conn db id = .error e := by
  have hfilter : (db.door.filter fun d => d.id == id) = [] := by
    rw [List.filter_eq_nil_iff]
    intro d hd
    simpa using habsent d hd
  unfold DoorRepository.findDoorById select
  simp only [hfilter, List.map_nil]
  cases hs : conn.selectError "door" with
  | none =>
    refine ⟨.notFound "Door not found", ?_⟩
    simp [single, Except.bind]
  | some error =>
    by_cases hc : error.code = "PGRST116"
    · exact ⟨.notFound "Door not found", by simp [Except.bind, hc]⟩
    · exact ⟨.store error, by simp [Except.bind, hc]⟩

/-- C10, what the code does: for an ACTIVE card whose employee is ACTIVE and
has a role, and a door id that no row of the store carries, `verifyAccess`
with `DoorRepository.findDoorById` as its door resolver returns DENIED with
the message "System error" and writes "System error during verification" to
the log. The resolver throws instead of answering `null`, so the branch that
would return "Door not found" is never taken. -/
theorem verifyAccess_absent_door_is_system_error (R : Repositories) (conn : Connection)
    (clock : Clock) (db : Database) (cardUid doorId : String)
    (card : Card) (employee : Employee) (role : RoleRow)
    (hresolver : R.findDoorById = DoorRepository.findDoorById conn)
    (hcard : R.findByUid db cardUid = .ok (some card))
    (hactive : card.status = "ACTIVE")
    (hemployee : card.employee = some employee)
    (hemployeeActive : employee.status = "ACTIVE")
    (hrole : employee.role = some role)
    (habsent : ∀ d ∈ db.door, d.id ≠ doorId) :
    verifyAccess R clock db cardUid doorId = systemError R clock db cardUid doorId := by
  obtain ⟨e, he⟩ := findDoorById_throws_of_absent conn db doorId habsent
  have hd : R.findDoorById db doorId = .error e := by rw [hresolver, he]
  exact step_doorLookupThrows hcard hactive hemployee hemployeeActive hrole hd clock

/-- C10 at the failing input: the ACTIVE card of Alice at the door id `d9`,
which is in no row of `door`, on a healthy connection. The caller gets
"System error" and the log gets "System error during verification". -/
theorem verifyAccess_absent_door_is_system_error_witness :
    (∀ d ∈ Demo.db.door, d.id ≠ "d9") ∧
    verifyAccess (repositories healthy) (Demo.clockAt "12:00:00") Demo.db "CARD-0001" "d9" =
      (.ok { status := "DENIED", message := "System error",
             timestamp := "2024-03-04T12:00:00.000Z", employee := none },
       { Demo.db with access_log :=
          [{ card_uid := "CARD-0001", door_id := "d9", status := "DENIED",
             denial_reason := some "System error during verification",
             timestamp := "2024-03-04T12:00:00.012Z" }] }) :=
  ⟨by decide,
   (verifyAccess_absent_door_is_system_error (repositories healthy) healthy
      (Demo.clockAt "12:00:00") Demo.db "CARD-0001" "d9" Demo.aliceCard Demo.alice
      Demo.roleEmployee rfl rfl rfl rfl rfl rfl (by decide)).trans rfl⟩

/-! ## Precedence of the denial reasons (C3) -/

namespace DenialCheck

theorem cardOf_some {R : Repositories} {db : Database} {cardUid : String} {card : Card}
    (h : cardOf R db cardUid = some card) : R.findByUid db cardUid = .ok (some card) := by
  unfold cardOf at h
  split at h
  · rename_i c hc
    simp only [Option.some.injEq] at h
    rw [hc, h]
  · simp at h

theorem employeeOf_some {R : Repositories} {db : Database} {cardUid : String}
    {employee : Employee} (h : employeeOf R db cardUid = some employee) :
    ∃ card, R.findByUid db cardUid = .ok (some card) ∧ card.employee = some employee := by
  unfold employeeOf at h
  split at h
  · rename_i card hc
    exact ⟨card, cardOf_some hc, h⟩
  · simp at h

theorem roleOf_some {R : Repositories} {db : Database} {cardUid : String}
    {role : RoleRow} (h : roleOf R db cardUid = some role) :
    ∃ card employee, R.findByUid db cardUid = .ok (some card) ∧
      card.employee = some employee ∧ employee.role = some role := by
  unfold roleOf at h
  split at h
  · rename_i employee he
    obtain ⟨card, hc, hce⟩ := employeeOf_some he
    exact ⟨card, employee, hc, hce, h⟩
  · simp at h

theorem doorOf_some {R : Repositories} {db : Database} {doorId : String} {door : Door}
    (h : doorOf R db doorId = some door) : R.findDoorById db doorId = .ok (some door) := by
  unfold doorOf at h
  split at h
  · rename_i d hd
    simp only [Option.some.injEq] at h
    rw [hd, h]
  · simp at h

theorem grantsOf_some {R : Repositories} {db : Database} {cardUid doorId : String}
    {door : Door} {permissions : List PermissionRow}
    (h : grantsOf R db cardUid doorId = some (door, permissions)) :
    ∃ card employee role ids, R.findByUid db cardUid = .ok (some card) ∧
      card.employee = some employee ∧ employee.role = some role ∧
      R.findDoorById db doorId = .ok (some door) ∧
      doorGroupIds (extractDoorGroups door) = .ok ids ∧
      (R.checkRolePermission db role.id ids = .ok (some permissions) ∨
        (R.checkRolePermission db role.id ids = .ok none ∧ permissions = [])) := by
  unfold grantsOf at h
  split at h
  · rename_i role door1 hr hd
    obtain ⟨card, employee, hc, hce, her⟩ := roleOf_some hr
    have hd1 := doorOf_some hd
    split at h
    · rename_i ids hids
      split at h
      · rename_i ps hps
        simp only [Option.some.injEq, Prod.mk.injEq] at h
        obtain ⟨h1, h2⟩ := h
        subst h1 h2
        exact ⟨card, employee, role, ids, hc, hce, her, hd1, hids, Or.inl hps⟩
      · rename_i hps
        simp only [Option.some.injEq, Prod.mk.injEq] at h
        obtain ⟨h1, h2⟩ := h
        subst h1 h2
        exact ⟨card, employee, role, ids, hc, hce, her, hd1, hids, Or.inr ⟨hps, rfl⟩⟩
      · simp at h
    · simp at h
  · simp at h

/-- A later check that needs the permission lookup holds only when the card
has an employee with a role and the door is found. -/
theorem needs_grants {R : Repositories} {clock : Clock} {db : Database}
    {cardUid doorId : String} {c : DenialCheck} (hc : 7 < c.order)
    (h : c.holds R clock db cardUid doorId = true) :
    ∃ door permissions, grantsOf R db cardUid doorId = some (door, permissions) := by
  cases c <;> simp [order] at hc
  · simp only [holds] at h
    split at h
    · rename_i door permissions hg; exact ⟨door, permissions, hg⟩
    · simp at h
  · simp only [holds] at h
    split at h
    · rename_i door permissions hg; exact ⟨door, permissions, hg⟩
    · simp at h

theorem cardOf_of_found {R : Repositories} {db : Database} {cardUid : String} {card : Card}
    (h : R.findByUid db cardUid = .ok (some card)) : cardOf R db cardUid = some card := by
  simp [cardOf, h]

theorem employeeOf_of_found {R : Repositories} {db : Database} {cardUid : String}
    {card : Card} (h : R.findByUid db cardUid = .ok (some card)) :
    employeeOf R db cardUid = card.employee := by
  simp [employeeOf, cardOf_of_found h]

theorem card_active_of_passed {R : Repositories} {clock : Clock} {db : Database}
    {cardUid doorId : String} {card : Card}
    (hc : R.findByUid db cardUid = .ok (some card))
    (h : cardNotActive.holds R clock db cardUid doorId = false) : card.status = "ACTIVE" := by
  simpa [holds, cardOf_of_found hc] using h

theorem employee_active_of_passed {R : Repositories} {clock : Clock} {db : Database}
    {cardUid doorId : String} {card : Card} {employee : Employee}
    (hc : R.findByUid db cardUid = .ok (some card)) (he : card.employee = some employee)
    (h : employeeNotActive.holds R clock db cardUid doorId = false) :
    employee.status = "ACTIVE" := by
  simpa [holds, employeeOf_of_found hc, he] using h

end DenialCheck

section Precedence

open DenialCheck

/-- C3: precedence of the denial reasons. If several of the nine denial
conditions hold at once (`first` and a later `other`) and no condition earlier
than `first` holds, the returned message is the reason of `first`, and that
reason is the one written to the log. -/
theorem verifyAccess_precedence (R : Repositories) (clock : Clock) (db : Database)
    (cardUid doorId : String) (first other : DenialCheck)
    (hfirst : first.holds R clock db cardUid doorId = true)
    (hother : other.holds R clock db cardUid doorId = true)
    (hlater : first.order < other.order)
    (hearliest : ∀ c : DenialCheck, c.order < first.order →
      c.holds R clock db cardUid doorId = false) :
    verifyAccess R clock db cardUid doorId =
      denied R clock db cardUid doorId (first.message R db cardUid) := by
  cases first with
  | cardNotFound =>
    simp only [holds] at hfirst
    split at hfirst
    · rename_i h; exact step_cardNotFound h clock doorId
    · simp at hfirst
  | cardNotActive =>
    simp only [holds] at hfirst
    split at hfirst
    · rename_i card hc
      have hs : card.status ≠ "ACTIVE" := by simpa using hfirst
      simp only [message, hc]
      exact step_cardNotActive (cardOf_some hc) hs clock doorId
    · simp at hfirst
  | employeeMissing =>
    simp only [holds] at hfirst
    split at hfirst
    · rename_i card hc
      have hfound := cardOf_some hc
      have he : card.employee = none := by simpa using hfirst
      have ha := card_active_of_passed hfound (hearliest cardNotActive (by decide))
      exact step_employeeMissing hfound ha he clock doorId
    · simp at hfirst
  | employeeNotActive =>
    simp only [holds] at hfirst
    split at hfirst
    · rename_i employee he
      obtain ⟨card, hfound, hce⟩ := employeeOf_some he
      have hs : employee.status ≠ "ACTIVE" := by simpa using hfirst
      have ha := card_active_of_passed hfound (hearliest cardNotActive (by decide))
      exact step_employeeNotActive hfound ha hce hs clock doorId
    · simp at hfirst
  | noRole =>
    simp only [holds] at hfirst
    split at hfirst
    · rename_i employee he
      obtain ⟨card, hfound, hce⟩ := employeeOf_some he
      have hr : employee.role = none := by simpa using hfirst
      have ha := card_active_of_passed hfound (hearliest cardNotActive (by decide))
      have hea := employee_active_of_passed hfound hce
        (hearliest employeeNotActive (by decide))
      exact step_noRole hfound ha hce hea hr clock doorId
    · simp at hfirst
  | doorNotFound =>
    exfalso
    have hdoor : ∃ door, R.findDoorById db doorId = .ok (some door) := by
      by_cases h7 : 7 < other.order
      · obtain ⟨door, permissions, hg⟩ := needs_grants h7 hother
        obtain ⟨_, _, _, _, _, _, _, hd, _⟩ := grantsOf_some hg
        exact ⟨door, hd⟩
      · cases other <;> simp [order] at hlater h7
        simp only [holds] at hother
        split at hother
        · rename_i door hd; exact ⟨door, doorOf_some hd⟩
        · simp at hother
    obtain ⟨door, hd⟩ := hdoor
    simp [holds, hd] at hfirst
  | doorWithoutGroups =>
    simp only [holds] at hfirst
    split at hfirst
    · rename_i door hd
      have hdoor := doorOf_some hd
      have hg : extractDoorGroups door = [] := by simpa using hfirst
      have h7 : 7 < other.order := by simpa [order] using hlater
      obtain ⟨door1, permissions, hgr⟩ := needs_grants h7 hother
      obtain ⟨card, employee, role, _, hfound, hce, her, _, _, _⟩ := grantsOf_some hgr
      have ha := card_active_of_passed hfound (hearliest cardNotActive (by decide))
      have hea := employee_active_of_passed hfound hce
        (hearliest employeeNotActive (by decide))
      exact step_doorWithoutGroups hfound ha hce hea her hdoor hg clock
    · simp at hfirst
  | noMatchingPermission =>
    exfalso
    cases other <;> simp [order] at hlater
    simp only [holds] at hfirst hother
    split at hfirst
    · rename_i door permissions hg
      rw [hg] at hother
      simp only [Bool.and_eq_true, Bool.not_eq_true'] at hother
      rw [hfirst] at hother
      simp at hother
    · simp at hfirst
  | outsideTimeWindow =>
    exfalso
    cases other <;> simp [order] at hlater

/-- C3 at work, the example of the claim: the INACTIVE card of Hal presented
at the door id `d9`, which no door carries, yields "Card is INACTIVE". -/
theorem verifyAccess_precedence_witness :
    DenialCheck.cardNotActive.holds (repositories healthy) (Demo.clockAt "12:00:00") Demo.db
      "CARD-0008" "d9" = true ∧
    DenialCheck.doorNotFound.holds (repositories healthy) (Demo.clockAt "12:00:00") Demo.db
      "CARD-0008" "d9" = true ∧
    verifyAccess (repositories healthy) (Demo.clockAt "12:00:00") Demo.db "CARD-0008" "d9" =
      denied (repositories healthy) (Demo.clockAt "12:00:00") Demo.db "CARD-0008" "d9"
        "Card is INACTIVE" :=
  ⟨rfl, rfl,
   (verifyAccess_precedence (repositories healthy) (Demo.clockAt "12:00:00") Demo.db
      "CARD-0008" "d9" .cardNotActive .doorNotFound rfl rfl (by decide)
      (by intro c hc; cases c <;> first | rfl | (simp [DenialCheck.order] at hc))).trans rfl⟩

end Precedence

/-! ## The checks on the door and the permission lookup (C11, C12) -/

/-- C11: for every ACTIVE card with an ACTIVE employee and a role, and every
door that the door lookup finds and whose group list is empty or absent,
`verifyAccess` returns DENIED "Door has no groups assigned" and writes that
reason to the log, whatever the permission lookup would answer for the role. -/
theorem verifyAccess_door_without_groups (R : Repositories) (clock : Clock) (db : Database)
    (cardUid doorId : String) (card : Card) (employee : Employee) (role : RoleRow)
    (door : Door)
    (hcard : R.findByUid db cardUid = .ok (some card))
    (hactive : card.status = "ACTIVE")
    (hemployee : card.employee = some employee)
    (hemployeeActive : employee.status = "ACTIVE")
    (hrole : employee.role = some role)
    (hdoor : R.findDoorById db doorId = .ok (some door))
    (hgroups : door.door_groups = none ∨ door.door_groups = some []) :
    verifyAccess R clock db cardUid doorId =
      denied R clock db cardUid doorId "Door has no groups assigned" := by
  have hx : extractDoorGroups door = [] := by
    rcases hgroups with h | h <;> simp [extractDoorGroups, h]
  exact step_doorWithoutGroups hcard hactive hemployee hemployeeActive hrole hdoor hx clock

/-- C11 at work, scenario E: the card of Alice, whose role holds an ALWAYS
grant on the group `g1`, at the door `d2`, which belongs to no group. -/
theorem verifyAccess_door_without_groups_witness :
    (repositories healthy).findDoorById Demo.db "d2" = .ok (some Demo.storeRoom) ∧
    (∃ p ∈ Demo.db.role_door_group_permission,
      p.role_id = Demo.roleEmployee.id ∧ p.access_type = "ALWAYS") ∧
    verifyAccess (repositories healthy) (Demo.clockAt "12:00:00") Demo.db "CARD-0001" "d2" =
      denied (repositories healthy) (Demo.clockAt "12:00:00") Demo.db "CARD-0001" "d2"
        "Door has no groups assigned" :=
  ⟨rfl, by decide,
   verifyAccess_door_without_groups (repositories healthy) (Demo.clockAt "12:00:00") Demo.db
     "CARD-0001" "d2" Demo.aliceCard Demo.alice Demo.roleEmployee Demo.storeRoom
     rfl rfl rfl rfl rfl rfl (Or.inr rfl)⟩

/-- The permission repository answers the rows of the store whose role is the
given one and whose door group is among the given ids, in store order, when
the store answers the query. -/
theorem checkRolePermission_of_answered (conn : Connection) (db : Database)
    (roleId : String) (ids : List String)
    (hanswered : conn.selectError "role_door_group_permission" = none) :
    PermissionRepository.checkRolePermission conn db roleId ids =
      .ok (some (db.role_door_group_permission.filter fun p =>
        p.role_id == roleId && ids.contains p.door_group_id)) := by
  simp [PermissionRepository.checkRolePermission, select, hanswered]

/-- C12: for every ACTIVE card with an ACTIVE employee and a role, and every
door found with at least one group: if the store holds no permission row whose
role is the employee's role and whose door group is one of the door's groups,
then `verifyAccess`, with `PermissionRepository.checkRolePermission` as its
permission lookup on a store that answers the query, returns DENIED "No
permission for this door", whatever rows the role holds on other groups. -/
theorem verifyAccess_no_matching_permission (R : Repositories) (conn : Connection)
    (clock : Clock) (db : Database) (cardUid doorId : String) (card : Card)
    (employee : Employee) (role : RoleRow) (door : Door) (groups : List DoorGroupRow)
    (hlookup : R.checkRolePermission = PermissionRepository.checkRolePermission conn)
    (hanswered : conn.selectError "role_door_group_permission" = none)
    (hcard : R.findByUid db cardUid = .ok (some card))
    (hactive : card.status = "ACTIVE")
    (hemployee : card.employee = some employee)
    (hemployeeActive : employee.status = "ACTIVE")
    (hrole : employee.role = some role)
    (hdoor : R.findDoorById db doorId = .ok (some door))
    (hgroups : door.door_groups = some (groups.map fun g => { door_group := some g }))
    (hnonempty : groups ≠ [])
    (hnone : ∀ p ∈ db.role_door_group_permission,
      ¬ (p.role_id = role.id ∧ ∃ g ∈ groups, p.door_group_id = g.id)) :
    verifyAccess R clock db cardUid doorId =
      denied R clock db cardUid doorId "No permission for this door" := by
  have hx := extractDoorGroups_of_groups door groups hgroups
  have hxne : extractDoorGroups door ≠ [] := by
    rw [hx]; simpa using hnonempty
  have hids : doorGroupIds (extractDoorGroups door) = .ok (groups.map fun g => g.id) := by
    rw [hx]; exact doorGroupIds_map_some groups
  have hempty : R.checkRolePermission db role.id (groups.map fun g => g.id) =
      .ok (some []) := by
    rw [hlookup, checkRolePermission_of_answered conn db _ _ hanswered]
    congr 2
    rw [List.filter_eq_nil_iff]
    intro p hp hmatch
    apply hnone p hp
    simp only [Bool.and_eq_true, beq_iff_eq, List.contains_eq_any_beq, List.any_eq_true,
      List.mem_map] at hmatch
    obtain ⟨h1, _, ⟨g, hg, rfl⟩, h2⟩ := hmatch
    exact ⟨h1, g, hg, h2⟩
  exact step_noMatchingPermission hcard hactive hemployee hemployeeActive hrole hdoor hxne hids
    (Or.inr hempty) clock

/-- C12 at work, scenario B: the card of Alice, whose role holds a grant on the
group `g1`, at the door `d3`, which belongs to the group `g2` only. -/
theorem verifyAccess_no_matching_permission_witness :
    (∃ p ∈ Demo.campus.role_door_group_permission, p.role_id = Demo.roleEmployee.id) ∧
    verifyAccess (repositories healthy) (Demo.clockAt "12:00:00") Demo.campus
        "CARD-0001" "d3" =
      denied (repositories healthy) (Demo.clockAt "12:00:00") Demo.campus "CARD-0001" "d3"
        "No permission for this door" :=
  ⟨by decide,
   verifyAccess_no_matching_permission (repositories healthy) healthy
     (Demo.clockAt "12:00:00") Demo.campus "CARD-0001" "d3" Demo.aliceCard Demo.alice
     Demo.roleEmployee Demo.suite101
     [{ id := "g2", name := "Private Offices", type := "PRIVATE" }]
     rfl rfl rfl rfl rfl rfl rfl rfl rfl (by decide) (by decide)⟩

/-! ## Internal faults (C13) -/

theorem step_permissionLookupThrows {R : Repositories} {db : Database}
    {cardUid doorId : String} {card : Card} {employee : Employee} {role : RoleRow}
    {door : Door} {groups : List DoorGroupRow} {e : Fault}
    (h : R.findByUid db cardUid = .ok (some card))
    (hs : card.status = "ACTIVE") (he : card.employee = some employee)
    (hes : employee.status = "ACTIVE") (hr : employee.role = some role)
    (hd : R.findDoorById db doorId = .ok (some door))
    (hg : door.door_groups = some (groups.map fun g => { door_group := some g }))
    (hne : groups ≠ [])
    (hp : R.checkRolePermission db role.id (groups.map fun g => g.id) = .error e)
    (clock : Clock) :
    verifyAccess R clock db cardUid doorId = systemError R clock db cardUid doorId := by
  have hx := extractDoorGroups_of_groups door groups hg
  apply verifyAccess_of_try_throws (e := e)
  unfold verifyAccessTry
  simp only [h, hs, he, hes, hr, hd, hx, doorGroupIds_map_some, hp]
  simp [hne]

/-- C13: if a lookup that `verifyAccess` performs fails with an error (the
card lookup; the door lookup, reached for an ACTIVE card whose employee is
ACTIVE and has a role; or the permission lookup, reached when moreover the
door is found with at least one group), the call returns DENIED with the
message "System error" and performs one log write, of a row with status
DENIED and denial reason "System error during verification". -/
theorem verifyAccess_lookup_failure (R : Repositories) (clock : Clock) (db : Database)
    (cardUid doorId : String) :
    (∀ e, R.findByUid db cardUid = .error e →
      verifyAccess R clock db cardUid doorId = systemError R clock db cardUid doorId) ∧
    (∀ card employee role e,
      R.findByUid db cardUid = .ok (some card) → card.status = "ACTIVE" →
      card.employee = some employee → employee.status = "ACTIVE" →
      employee.role = some role →
      R.findDoorById db doorId = .error e →
      verifyAccess R clock db cardUid doorId = systemError R clock db cardUid doorId) ∧
    (∀ card employee role door groups e,
      R.findByUid db cardUid = .ok (some card) → card.status = "ACTIVE" →
      card.employee = some employee → employee.status = "ACTIVE" →
      employee.role = some role →
      R.findDoorById db doorId = .ok (some door) →
      door.door_groups = some (groups.map fun g => { door_group := some g }) →
      groups ≠ [] →
      R.checkRolePermission db role.id (groups.map fun g => g.id) = .error e →
      verifyAccess R clock db cardUid doorId = systemError R clock db cardUid doorId) :=
  ⟨fun _ h => step_cardLookupThrows h clock doorId,
   fun _ _ _ _ h hs he hes hr hd => step_doorLookupThrows h hs he hes hr hd clock,
   fun _ _ _ _ _ _ h hs he hes hr hd hg hne hp =>
     step_permissionLookupThrows h hs he hes hr hd hg hne hp clock⟩

/-- C13 at work: the card of Alice at door `d1` while the reads of the card
table, of the door table or of the permission table fail. Each call returns
"System error" and leaves one row with "System error during verification". -/
theorem verifyAccess_lookup_failure_witness :
    verifyAccess (repositories (Demo.down "access_card")) (Demo.clockAt "12:00:00") Demo.db
        "CARD-0001" "d1" =
      systemError (repositories (Demo.down "access_card")) (Demo.clockAt "12:00:00") Demo.db
        "CARD-0001" "d1" ∧
    verifyAccess (repositories (Demo.down "door")) (Demo.clockAt "12:00:00") Demo.db
        "CARD-0001" "d1" =
      systemError (repositories (Demo.down "door")) (Demo.clockAt "12:00:00") Demo.db
        "CARD-0001" "d1" ∧
    verifyAccess (repositories (Demo.down "role_door_group_permission"))
        (Demo.clockAt "12:00:00") Demo.db "CARD-0001" "d1" =
      systemError (repositories (Demo.down "role_door_group_permission"))
        (Demo.clockAt "12:00:00") Demo.db "CARD-0001" "d1" ∧
    (systemError (repositories (Demo.down "door")) (Demo.clockAt "12:00:00") Demo.db
        "CARD-0001" "d1").2.access_log =
      [{ card_uid := "CARD-0001", door_id := "d1", status := "DENIED",
         denial_reason := some "System error during verification",
         timestamp := "2024-03-04T12:00:00.012Z" }] :=
  ⟨(verifyAccess_lookup_failure (repositories (Demo.down "access_card"))
      (Demo.clockAt "12:00:00") Demo.db "CARD-0001" "d1").1 _ rfl,
   (verifyAccess_lookup_failure (repositories (Demo.down "door"))
      (Demo.clockAt "12:00:00") Demo.db "CARD-0001" "d1").2.1
      Demo.aliceCard Demo.alice Demo.roleEmployee _ rfl rfl rfl rfl rfl rfl,
   (verifyAccess_lookup_failure (repositories (Demo.down "role_door_group_permission"))
      (Demo.clockAt "12:00:00") Demo.db "CARD-0001" "d1").2.2
      Demo.aliceCard Demo.alice Demo.roleEmployee Demo.mainEntrance Demo.groups _
      rfl rfl rfl rfl rfl rfl rfl (by decide) rfl,
   rfl⟩

/-! ## The frame of a verification call (C15) -/

theorem afterLog_eq_append (R : Repositories) (clock : Clock) (db : Database)
    (cardUid doorId status : String) (denialReason : Option String) :
    ∃ appended : List AccessLogRow,
      afterLog R clock db cardUid doorId status denialReason =
        { db with access_log := db.access_log ++ appended } ∧
      appended.length ≤ 1 := by
  cases h : R.insertError db (logRow clock cardUid doorId status denialReason) with
  | none => exact ⟨[_], afterLog_of_accepted h, by simp⟩
  | some e =>
    refine ⟨[], ?_, by simp⟩
    rw [afterLog_of_rejected (by simp [h])]
    simp

theorem verifyAccess_snd_eq_append (R : Repositories) (clock : Clock) (db : Database)
    (cardUid doorId : String) :
    ∃ appended : List AccessLogRow,
      (verifyAccess R clock db cardUid doorId).2 =
        { db with access_log := db.access_log ++ appended } ∧
      appended.length ≤ 1 := by
  rcases verifyAccess_cases R clock db cardUid doorId with
    h | ⟨_, _, _, h⟩ | ⟨_, _, _, _, _, _, _, _, _, h⟩ <;>
  · rw [h]
    exact afterLog_eq_append R clock db cardUid doorId _ _

/-- C15: `verifyAccess` changes nothing but the access log, and the log only by
appending. After any call the store is the store before the call with at most
one row added at the end of `access_log`: the cards, employees, roles,
buildings, floors, office spaces, doors, door groups, door-group assignments
and permissions are unchanged, and the rows that were in the log are still
there, unmodified and in the same order. -/
theorem verifyAccess_frame (R : Repositories) (clock : Clock) (db : Database)
    (cardUid doorId : String) :
    (∃ appended : List AccessLogRow,
      (verifyAccess R clock db cardUid doorId).2 =
        { db with access_log := db.access_log ++ appended } ∧ appended.length ≤ 1) ∧
    (verifyAccess R clock db cardUid doorId).2.access_card = db.access_card ∧
    (verifyAccess R clock db cardUid doorId).2.employee = db.employee ∧
    (verifyAccess R clock db cardUid doorId).2.access_role = db.access_role ∧
    (verifyAccess R clock db cardUid doorId).2.door = db.door ∧
    (verifyAccess R clock db cardUid doorId).2.door_group = db.door_group ∧
    (verifyAccess R clock db cardUid doorId).2.door_door_group = db.door_door_group ∧
    (verifyAccess R clock db cardUid doorId).2.role_door_group_permission =
      db.role_door_group_permission ∧
    db.access_log <+: (verifyAccess R clock db cardUid doorId).2.access_log := by
  obtain ⟨appended, h, hlen⟩ := verifyAccess_snd_eq_append R clock db cardUid doorId
  refine ⟨⟨appended, h, hlen⟩, ?_, ?_, ?_, ?_, ?_, ?_, ?_, ?_⟩ <;> rw [h]
  exact List.prefix_append _ _

/-! ## The decision depends on the reads and the local time only (C14, C16) -/

theorem satisfied_congr {clock1 clock2 : Clock} {timezone : String}
    (h : clock2.currentTime timezone = clock1.currentTime timezone) :
    satisfied clock2 timezone = satisfied clock1 timezone := by
  funext p
  simp [satisfied, TimeHelper.isWithinTimeRange, h]

theorem fails_congr {clock1 clock2 : Clock} {timezone : String}
    (h : clock2.currentTime timezone = clock1.currentTime timezone) :
    fails clock2 timezone = fails clock1 timezone := by
  funext p
  simp [fails, TimeHelper.isWithinTimeRange, h]

/-- The first component of a call: the result of the `try` block when it
returns, the result of the catch block when it throws. -/
theorem verifyAccess_fst (R : Repositories) (clock : Clock) (db : Database)
    (cardUid doorId : String) :
    (verifyAccess R clock db cardUid doorId).1 =
      match (verifyAccessTry R clock db cardUid doorId (TimeHelper.now clock)).1 with
      | .ok result => .ok result
      | .error _ =>
        .ok { status := "DENIED", message := "System error",
              timestamp := TimeHelper.now clock } := by
  rcases h : verifyAccessTry R clock db cardUid doorId (TimeHelper.now clock) with
    ⟨_ | _, db1⟩
  · rw [verifyAccess_of_try_error h]
  · rw [verifyAccess_of_try_ok h]

/-- Two runs of the `try` block whose lookups answer alike and whose clocks
show the same local time in the timezone of the door take the same branch: both throw, or both return
results with the same status, message and employee. -/
theorem verifyAccessTry_decision_congr {R1 R2 : Repositories} {clock1 clock2 : Clock}
    {db1 db2 : Database} {cardUid doorId : String} (ts1 ts2 : String)
    (hcard : R2.findByUid db2 cardUid = R1.findByUid db1 cardUid)
    (hdoor : R2.findDoorById db2 doorId = R1.findDoorById db1 doorId)
    (hperm : ∀ roleId ids,
      R2.checkRolePermission db2 roleId ids = R1.checkRolePermission db1 roleId ids)
    (htime : ∀ door, R1.findDoorById db1 doorId = .ok (some door) →
      clock2.currentTime (buildingTimezone door) =
        clock1.currentTime (buildingTimezone door)) :
    ((verifyAccessTry R2 clock2 db2 cardUid doorId ts2).1.map VerifyResult.decision).toOption =
      ((verifyAccessTry R1 clock1 db1 cardUid doorId ts1).1.map VerifyResult.decision).toOption
      := by
  unfold verifyAccessTry
  simp only [hcard, hdoor, hperm, deny_eq, grant_eq, checkTimeRestrictions_eq]
  repeat' (first | rfl | (rw [satisfied_congr (htime _ (by assumption)),
    fails_congr (htime _ (by assumption))]) | split)

/-- With the same timestamp as well, the two runs of the `try` block return
the same result. -/
theorem verifyAccessTry_fst_congr {R1 R2 : Repositories} {clock1 clock2 : Clock}
    {db1 db2 : Database} {cardUid doorId : String} (timestamp : String)
    (hcard : R2.findByUid db2 cardUid = R1.findByUid db1 cardUid)
    (hdoor : R2.findDoorById db2 doorId = R1.findDoorById db1 doorId)
    (hperm : ∀ roleId ids,
      R2.checkRolePermission db2 roleId ids = R1.checkRolePermission db1 roleId ids)
    (htime : ∀ door, R1.findDoorById db1 doorId = .ok (some door) →
      clock2.currentTime (buildingTimezone door) =
        clock1.currentTime (buildingTimezone door)) :
    (verifyAccessTry R2 clock2 db2 cardUid doorId timestamp).1.toOption =
      (verifyAccessTry R1 clock1 db1 cardUid doorId timestamp).1.toOption := by
  unfold verifyAccessTry
  simp only [hcard, hdoor, hperm, deny_eq, grant_eq, checkTimeRestrictions_eq]
  repeat' (first | rfl | (rw [satisfied_congr (htime _ (by assumption)),
    fails_congr (htime _ (by assumption))]) | split)

/-- Two calls whose lookups answer alike and whose clocks show the same local
time in the timezone of the door return results with the same status, message
and employee. -/
theorem verifyAccess_decision_congr {R1 R2 : Repositories} {clock1 clock2 : Clock}
    {db1 db2 : Database} {cardUid doorId : String}
    (hcard : R2.findByUid db2 cardUid = R1.findByUid db1 cardUid)
    (hdoor : R2.findDoorById db2 doorId = R1.findDoorById db1 doorId)
    (hperm : ∀ roleId ids,
      R2.checkRolePermission db2 roleId ids = R1.checkRolePermission db1 roleId ids)
    (htime : ∀ door, R1.findDoorById db1 doorId = .ok (some door) →
      clock2.currentTime (buildingTimezone door) =
        clock1.currentTime (buildingTimezone door)) :
    ∃ r1 r2, (verifyAccess R1 clock1 db1 cardUid doorId).1 = .ok r1 ∧
      (verifyAccess R2 clock2 db2 cardUid doorId).1 = .ok r2 ∧
      r2.decision = r1.decision := by
  have h := verifyAccessTry_decision_congr (TimeHelper.now clock1) (TimeHelper.now clock2)
    hcard hdoor hperm htime
  rw [verifyAccess_fst, verifyAccess_fst]
  cases h1 : (verifyAccessTry R1 clock1 db1 cardUid doorId (TimeHelper.now clock1)).1 <;>
  cases h2 : (verifyAccessTry R2 clock2 db2 cardUid doorId (TimeHelper.now clock2)).1 <;>
  simp only [h1, h2, Except.map, Except.toOption, Option.some.injEq] at h
  · exact ⟨_, _, rfl, rfl, rfl⟩
  · simp at h
  · simp at h
  · exact ⟨_, _, rfl, rfl, h⟩

/-- Two calls whose lookups answer alike and whose clocks agree return the same
result, whatever the log insert does. -/
theorem verifyAccess_fst_congr {R1 R2 : Repositories} {clock : Clock}
    {db : Database} {cardUid doorId : String}
    (hcard : R2.findByUid db cardUid = R1.findByUid db cardUid)
    (hdoor : R2.findDoorById db doorId = R1.findDoorById db doorId)
    (hperm : ∀ roleId ids,
      R2.checkRolePermission db roleId ids = R1.checkRolePermission db roleId ids) :
    (verifyAccess R2 clock db cardUid doorId).1 =
      (verifyAccess R1 clock db cardUid doorId).1 := by
  have h := @verifyAccessTry_fst_congr R1 R2 clock clock db db cardUid doorId
    (TimeHelper.now clock) hcard hdoor hperm (fun _ _ => rfl)
  rw [verifyAccess_fst, verifyAccess_fst]
  cases h1 : (verifyAccessTry R1 clock db cardUid doorId (TimeHelper.now clock)).1 <;>
  cases h2 : (verifyAccessTry R2 clock db cardUid doorId (TimeHelper.now clock)).1 <;>
  simp only [h1, h2, Except.toOption, Option.some.injEq] at h
  · rfl
  · simp at h
  · simp at h
  · rw [h]

/-- C14: a failing access-log write never changes the verification result.
For every store, clock and input, and any two behaviours `f` and `g` of the
log insert (failing or succeeding, on any row), `verifyAccess` returns the same
result: the same status, message, timestamp and employee attachment. And
`logAccess` itself never raises. -/
theorem verifyAccess_result_independent_of_log (R : Repositories) (clock : Clock)
    (db : Database) (cardUid doorId : String)
    (f g : Database → AccessLogRow → Option PgError) :
    (verifyAccess { R with insertError := f } clock db cardUid doorId).1 =
      (verifyAccess { R with insertError := g } clock db cardUid doorId).1 ∧
    ∀ (status : String) (denialReason : Option String),
      (logAccess R clock db cardUid doorId status denialReason).1 = .ok () :=
  ⟨verifyAccess_fst_congr rfl rfl (fun _ _ => rfl),
   fun status denialReason => logAccess_fst R clock db cardUid doorId status denialReason⟩

/-! ## Two calls in a row (C16) -/

/-- Every call returns a result and leaves the store of one `create` of a row
that carries the inputs, the returned status and the reading of the clock. -/
theorem verifyAccess_summary (R : Repositories) (clock : Clock) (db : Database)
    (cardUid doorId : String) :
    ∃ (result : VerifyResult) (row : AccessLogRow),
      verifyAccess R clock db cardUid doorId =
        (.ok result, (AccessLogRepository.create R db row).2) ∧
      row.card_uid = cardUid ∧ row.door_id = doorId ∧ row.status = result.status ∧
      row.timestamp = TimeHelper.nowAtLog clock := by
  rcases verifyAccess_cases R clock db cardUid doorId with
    h | ⟨_, _, _, h⟩ | ⟨_, _, _, _, _, _, _, _, _, h⟩ <;>
  exact ⟨_, _, h, rfl, rfl, rfl, rfl⟩

theorem create_snd_concrete (conn : Connection) (db : Database) (row : AccessLogRow) :
    (AccessLogRepository.create (repositories conn) db row).2 =
      match conn.insertError "access_log" with
      | none => { db with access_log := db.access_log ++ [row] }
      | some _ => db := by
  unfold AccessLogRepository.create repositories
  cases conn.insertError "access_log" <;> rfl

/-- C16, as stated, fails when the store rejects the inserts: two calls in a
row for the card of Alice at door `d1` return the same GRANTED result, and no
row has been appended to the access log after them. -/
theorem verifyAccess_twice_appends_nothing_when_log_down :
    (verifyAccess (repositories Demo.logDown) (Demo.clockAt "12:00:00")
        (verifyAccess (repositories Demo.logDown) (Demo.clockAt "12:00:00") Demo.db
          "CARD-0001" "d1").2 "CARD-0001" "d1").1 =
      (verifyAccess (repositories Demo.logDown) (Demo.clockAt "12:00:00") Demo.db
        "CARD-0001" "d1").1 ∧
    ¬ ∃ row1 row2 : AccessLogRow,
      (verifyAccess (repositories Demo.logDown) (Demo.clockAt "12:00:00")
        (verifyAccess (repositories Demo.logDown) (Demo.clockAt "12:00:00") Demo.db
          "CARD-0001" "d1").2 "CARD-0001" "d1").2.access_log =
        Demo.db.access_log ++ [row1, row2] := by
  refine ⟨rfl, ?_⟩
  rintro ⟨row1, row2, h⟩
  have h1 : (verifyAccess (repositories Demo.logDown) (Demo.clockAt "12:00:00")
      (verifyAccess (repositories Demo.logDown) (Demo.clockAt "12:00:00") Demo.db
        "CARD-0001" "d1").2 "CARD-0001" "d1").2.access_log = [] := rfl
  rw [h1] at h
  simp at h

/-- C16 (amended): idempotence. Two calls in a row with the same card uid and
door id, the second on the store that the first left, through the
repositories of one connection and with clocks that show the same local time
in the timezone of the building of the door, return the same status, message
and employee. Each call appends one row, stamped with the reading of the
clock inside `logAccess`, when the store accepts the insert: the
log has grown by two rows after both calls when the inserts are accepted, and
by none when they are rejected. -/
theorem verifyAccess_idempotent (conn : Connection) (clock1 clock2 : Clock) (db : Database)
    (cardUid doorId : String)
    (htime : ∀ door, (repositories conn).findDoorById db doorId = .ok (some door) →
      clock2.currentTime (buildingTimezone door) =
        clock1.currentTime (buildingTimezone door)) :
    ∃ (r1 r2 : VerifyResult) (row1 row2 : AccessLogRow),
      (verifyAccess (repositories conn) clock1 db cardUid doorId).1 = .ok r1 ∧
      (verifyAccess (repositories conn) clock2
        (verifyAccess (repositories conn) clock1 db cardUid doorId).2 cardUid doorId).1 =
          .ok r2 ∧
      r2.status = r1.status ∧ r2.message = r1.message ∧ r2.employee = r1.employee ∧
      row1.status = r1.status ∧ row1.timestamp = TimeHelper.nowAtLog clock1 ∧
      row2.status = r2.status ∧ row2.timestamp = TimeHelper.nowAtLog clock2 ∧
      (conn.insertError "access_log" = none →
        (verifyAccess (repositories conn) clock2
          (verifyAccess (repositories conn) clock1 db cardUid doorId).2
            cardUid doorId).2.access_log = db.access_log ++ [row1, row2]) ∧
      (conn.insertError "access_log" ≠ none →
        (verifyAccess (repositories conn) clock2
          (verifyAccess (repositories conn) clock1 db cardUid doorId).2
            cardUid doorId).2.access_log = db.access_log) := by
  obtain ⟨r1, row1, h1, -, -, hs1, ht1⟩ :=
    verifyAccess_summary (repositories conn) clock1 db cardUid doorId
  obtain ⟨appended, hdb, -⟩ :=
    verifyAccess_snd_eq_append (repositories conn) clock1 db cardUid doorId
  obtain ⟨r2, row2, h2, -, -, hs2, ht2⟩ :=
    verifyAccess_summary (repositories conn) clock2
      (verifyAccess (repositories conn) clock1 db cardUid doorId).2 cardUid doorId
  obtain ⟨r1', r2', e1, e2, hdec⟩ :=
    @verifyAccess_decision_congr (repositories conn) (repositories conn) clock1 clock2 db
      (verifyAccess (repositories conn) clock1 db cardUid doorId).2 cardUid doorId
      (by rw [hdb]; rfl) (by rw [hdb]; rfl) (fun _ _ => by rw [hdb]; rfl) htime
  have hr1 : r1' = r1 := by
    rw [h1] at e1; simpa using e1.symm
  have hr2 : r2' = r2 := by
    rw [h2] at e2; simpa using e2.symm
  subst hr1 hr2
  simp only [VerifyResult.decision, Prod.mk.injEq] at hdec
  refine ⟨r1', r2', row1, row2, by rw [h1], by rw [h2], hdec.1, hdec.2.1, hdec.2.2,
    hs1, ht1, hs2, ht2, ?_, ?_⟩
  · intro hacc
    rw [h2, h1]
    simp [create_snd_concrete, hacc]
  · intro hrej
    rw [h2, h1]
    cases hc : conn.insertError "access_log" with
    | none => exact absurd hc hrej
    | some e => simp [create_snd_concrete, hc]

/-- C16 (amended) at work: the card of Fay at door `d1` on two days, at
18:00:00 local time both times, on a healthy connection. -/
theorem verifyAccess_idempotent_witness :
    (∀ door, (repositories healthy).findDoorById Demo.db "d1" = .ok (some door) →
      (Demo.nextDayAt "18:00:00").currentTime (buildingTimezone door) =
        (Demo.clockAt "18:00:00").currentTime (buildingTimezone door)) ∧
    ∃ (r1 r2 : VerifyResult) (row1 row2 : AccessLogRow),
      (verifyAccess (repositories healthy) (Demo.clockAt "18:00:00") Demo.db
        "CARD-0006" "d1").1 = .ok r1 ∧
      (verifyAccess (repositories healthy) (Demo.nextDayAt "18:00:00")
        (verifyAccess (repositories healthy) (Demo.clockAt "18:00:00") Demo.db
          "CARD-0006" "d1").2 "CARD-0006" "d1").1 = .ok r2 ∧
      r2.status = r1.status ∧ r2.message = r1.message ∧ r2.employee = r1.employee ∧
      row1.status = r1.status ∧
      row1.timestamp = TimeHelper.nowAtLog (Demo.clockAt "18:00:00") ∧
      row2.status = r2.status ∧
      row2.timestamp = TimeHelper.nowAtLog (Demo.nextDayAt "18:00:00") ∧
      (healthy.insertError "access_log" = none →
        (verifyAccess (repositories healthy) (Demo.nextDayAt "18:00:00")
          (verifyAccess (repositories healthy) (Demo.clockAt "18:00:00") Demo.db
            "CARD-0006" "d1").2 "CARD-0006" "d1").2.access_log =
          Demo.db.access_log ++ [row1, row2]) ∧
      (healthy.insertError "access_log" ≠ none →
        (verifyAccess (repositories healthy) (Demo.nextDayAt "18:00:00")
          (verifyAccess (repositories healthy) (Demo.clockAt "18:00:00") Demo.db
            "CARD-0006" "d1").2 "CARD-0006" "d1").2.access_log = Demo.db.access_log) :=
  ⟨fun _ _ => rfl,
   verifyAccess_idempotent healthy (Demo.clockAt "18:00:00") (Demo.nextDayAt "18:00:00")
    Demo.db "CARD-0006" "d1" (fun _ _ => rfl)⟩

/-! ## The time window evaluator (C17, C18, C19) -/

namespace TimeHelper

theorem char_toNat_inj {c d : Char} (h : c.toNat = d.toNat) : c = d := by
  apply Char.eq_of_val_eq
  apply UInt32.ext
  exact h

theorem char_valid (c : Char) :
    c.toNat < 0xD800 ∨ (0xDFFF < c.toNat ∧ c.toNat < 0x110000) :=
  c.valid

/-- Two strings with the same UTF-16 code units are the same string. -/
theorem codeUnits_injective_list (l1 l2 : List Char)
    (h : l1.flatMap utf16Units = l2.flatMap utf16Units) : l1 = l2 := by
  induction l1 generalizing l2 with
  | nil =>
    cases l2 with
    | nil => rfl
    | cons c cs =>
      simp only [List.flatMap_nil, List.flatMap_cons, utf16Units] at h
      split at h <;> simp at h
  | cons c1 t1 ih =>
    cases l2 with
    | nil =>
      simp only [List.flatMap_nil, List.flatMap_cons, utf16Units] at h
      split at h <;> simp at h
    | cons c2 t2 =>
      have v1 := char_valid c1
      have v2 := char_valid c2
      simp only [List.flatMap_cons, utf16Units] at h
      split at h <;> split at h
      · simp only [List.singleton_append, List.cons.injEq] at h
        rw [char_toNat_inj h.1, ih t2 h.2]
      · simp only [List.singleton_append, List.cons_append, List.nil_append,
          List.cons.injEq] at h
        omega
      · simp only [List.singleton_append, List.cons_append, List.nil_append,
          List.cons.injEq] at h
        omega
      · simp only [List.cons_append, List.nil_append, List.cons.injEq] at h
        obtain ⟨h1, h2, h3⟩ := h
        have : c1.toNat = c2.toNat := by omega
        rw [char_toNat_inj this, ih t2 h3]

theorem codeUnits_injective {a b : String} (h : codeUnits a = codeUnits b) : a = b := by
  unfold codeUnits at h
  have := codeUnits_injective_list _ _ h
  exact String.ext this

theorem unitsLt_irrefl (a : List Nat) : unitsLt a a = false := by
  induction a with
  | nil => rfl
  | cons x xs ih => simp [unitsLt, ih]

theorem unitsLt_antisymm (a b : List Nat) (h1 : unitsLt a b = false)
    (h2 : unitsLt b a = false) : a = b := by
  induction a generalizing b with
  | nil =>
    cases b with
    | nil => rfl
    | cons y ys => simp [unitsLt] at h1
  | cons x xs ih =>
    cases b with
    | nil => simp [unitsLt] at h2
    | cons y ys =>
      unfold unitsLt at h1 h2
      by_cases hxy : x < y
      · simp [hxy] at h1
      · by_cases hyx : y < x
        · simp [hyx] at h2
        · have hxeq : x = y := by omega
          subst hxeq
          simp only [lt_self_iff_false, if_false] at h1 h2
          rw [ih ys h1 h2]

/-- The order `<=` on strings is antisymmetric. -/
theorem strLe_antisymm {a b : String} (h1 : strLe a b = true) (h2 : strLe b a = true) :
    a = b := by
  apply codeUnits_injective
  apply unitsLt_antisymm
  · simpa [strLe, strLt] using h2
  · simpa [strLe, strLt] using h1

theorem strLe_refl (a : String) : strLe a a = true := by
  simp [strLe, strLt, unitsLt_irrefl]

theorem falsy_some_of_ne_empty {s : String} (h : s ≠ "") : falsy (some s) = false := by
  simpa [falsy] using h

/-- C17: `isWithinTimeRange` returns true whenever either bound is absent, for
every timezone, known to the runtime or not, and every reading of the clock;
in particular when both bounds are undefined. -/
theorem isWithinTimeRange_of_absent_bound (clock : Clock) (buildingTimezone : String)
    (startTime endTime : Option String) (habsent : startTime = none ∨ endTime = none) :
    isWithinTimeRange clock buildingTimezone startTime endTime = .ok true := by
  rcases habsent with h | h <;> subst h <;> simp [isWithinTimeRange, falsy]

/-- C17 at work: no bound at all, at 03:00:00 in Tokyo, and in a timezone that
the runtime does not know. -/
theorem isWithinTimeRange_of_absent_bound_witness :
    isWithinTimeRange (Demo.clockAt "03:00:00") "Asia/Tokyo" none none = .ok true ∧
    isWithinTimeRange (Demo.zonedClockAt "03:00:00") "Mars/Olympus" none none = .ok true :=
  ⟨isWithinTimeRange_of_absent_bound (Demo.clockAt "03:00:00") "Asia/Tokyo" none none
    (Or.inl rfl), rfl⟩

/-- With two present bounds and a current local time, `isWithinTimeRange`
returns the comparison of the source. -/
theorem isWithinTimeRange_eq_of_time {clock : Clock} {buildingTimezone now : String}
    (hnow : clock.currentTime buildingTimezone = some now)
    {start stop : String} (hstart : start ≠ "") (hstop : stop ≠ "") :
    isWithinTimeRange clock buildingTimezone (some start) (some stop) =
      .ok (if strGt start stop then strGe now start || strLe now stop
           else strGe now start && strLe now stop) := by
  simp only [isWithinTimeRange, falsy_some_of_ne_empty hstart, falsy_some_of_ne_empty hstop,
    Bool.or_self, Bool.false_eq_true, if_false, Option.getD_some, hnow]
  split <;> rfl

/-- C18: the normal range. For present bounds with `start <= end` and every
current local time `now`, `isWithinTimeRange` returns, and it is true if and
only if `start <= now` and `now <= end`, both ends included; and when `start`
equals `end` it is true at the single instant `now = start` only. -/
theorem isWithinTimeRange_normal (clock : Clock) (buildingTimezone : String)
    (start stop now : String) (hstart : start ≠ "") (hstop : stop ≠ "")
    (hle : strLe start stop = true)
    (hnow : clock.currentTime buildingTimezone = some now) :
    (isWithinTimeRange clock buildingTimezone (some start) (some stop) =
      .ok (strLe start now && strLe now stop)) ∧
    (isWithinTimeRange clock buildingTimezone (some start) (some stop) = .ok true ↔
      strLe start now = true ∧ strLe now stop = true) ∧
    (start = stop →
      (isWithinTimeRange clock buildingTimezone (some start) (some stop) = .ok true ↔
        now = start)) := by
  have hgt : strGt start stop = false := by
    simpa [strGt, strLe] using hle
  have heq : isWithinTimeRange clock buildingTimezone (some start) (some stop) =
      .ok (strLe start now && strLe now stop) := by
    rw [isWithinTimeRange_eq_of_time hnow hstart hstop, hgt]
    rfl
  have hmain : isWithinTimeRange clock buildingTimezone (some start) (some stop) = .ok true ↔
      strLe start now = true ∧ strLe now stop = true := by
    rw [heq]
    simp
  refine ⟨heq, hmain, ?_⟩
  intro hss
  subst hss
  rw [hmain]
  constructor
  · rintro ⟨h1, h2⟩
    exact strLe_antisymm h2 h1
  · intro h
    rw [h]
    exact ⟨strLe_refl _, strLe_refl _⟩

/-- C18 at work: the range 09:00:00 to 17:00:00 is true at 12:00:00 and false
at 20:00:00, and the range 09:00:00 to 09:00:00 is false at 09:00:01. -/
theorem isWithinTimeRange_normal_witness :
    strLe "09:00:00" "17:00:00" = true ∧
    isWithinTimeRange (Demo.clockAt "12:00:00") "UTC" (some "09:00:00") (some "17:00:00")
      = .ok true ∧
    isWithinTimeRange (Demo.clockAt "20:00:00") "UTC" (some "09:00:00") (some "17:00:00")
      = .ok false ∧
    isWithinTimeRange (Demo.clockAt "09:00:01") "UTC" (some "09:00:00") (some "09:00:00")
      = .ok false :=
  ⟨rfl,
   (isWithinTimeRange_normal (Demo.clockAt "12:00:00") "UTC" "09:00:00" "17:00:00" "12:00:00"
      (by decide) (by decide) rfl rfl).2.1.2 ⟨rfl, rfl⟩,
   (isWithinTimeRange_normal (Demo.clockAt "20:00:00") "UTC" "09:00:00" "17:00:00" "20:00:00"
      (by decide) (by decide) rfl rfl).1,
   (isWithinTimeRange_normal (Demo.clockAt "09:00:01") "UTC" "09:00:00" "09:00:00" "09:00:01"
      (by decide) (by decide) rfl rfl).1⟩

/-- C19: the overnight range. For present bounds with `start > end` and every
current local time `now`, `isWithinTimeRange` returns, and it is true if and
only if `now >= start` or `now <= end`. -/
theorem isWithinTimeRange_overnight (clock : Clock) (buildingTimezone : String)
    (start stop now : String) (hstart : start ≠ "") (hstop : stop ≠ "")
    (hgt : strGt start stop = true)
    (hnow : clock.currentTime buildingTimezone = some now) :
    (isWithinTimeRange clock buildingTimezone (some start) (some stop) =
      .ok (strGe now start || strLe now stop)) ∧
    (isWithinTimeRange clock buildingTimezone (some start) (some stop) = .ok true ↔
      strGe now start = true ∨ strLe now stop = true) := by
  have heq : isWithinTimeRange clock buildingTimezone (some start) (some stop) =
      .ok (strGe now start || strLe now stop) := by
    rw [isWithinTimeRange_eq_of_time hnow hstart hstop, hgt]
    rfl
  refine ⟨heq, ?_⟩
  rw [heq]
  simp

/-- C19 at work: the range 22:00:00 to 06:00:00 is true at 23:30:00 and at
02:00:00, and false at 10:00:00. -/
theorem isWithinTimeRange_overnight_witness :
    strGt "22:00:00" "06:00:00" = true ∧
    isWithinTimeRange (Demo.clockAt "23:30:00") "UTC" (some "22:00:00") (some "06:00:00")
      = .ok true ∧
    isWithinTimeRange (Demo.clockAt "02:00:00") "UTC" (some "22:00:00") (some "06:00:00")
      = .ok true ∧
    isWithinTimeRange (Demo.clockAt "10:00:00") "UTC" (some "22:00:00") (some "06:00:00")
      = .ok false :=
  ⟨rfl,
   (isWithinTimeRange_overnight (Demo.clockAt "23:30:00") "UTC" "22:00:00" "06:00:00"
      "23:30:00" (by decide) (by decide) rfl rfl).2.2 (Or.inl rfl),
   (isWithinTimeRange_overnight (Demo.clockAt "02:00:00") "UTC" "22:00:00" "06:00:00"
      "02:00:00" (by decide) (by decide) rfl rfl).2.2 (Or.inr rfl),
   (isWithinTimeRange_overnight (Demo.clockAt "10:00:00") "UTC" "22:00:00" "06:00:00"
      "10:00:00" (by decide) (by decide) rfl rfl).1⟩

end TimeHelper

/-! ## The format of a time string (C20) -/

namespace TimeHelper

theorem utf16Units_ne_nil (c : Char) : utf16Units c ≠ [] := by
  unfold utf16Units; split <;> simp

/-- A character class of ASCII characters at a character of the input: it
matches the character when its code point is in the class, and never matches
half of a surrogate pair. -/
theorem matchPrefix_range_char (lo hi : Nat) (hhi : hi < 0xD800) (c : Char)
    (tail : List Nat) :
    (Regex.range lo hi).matchPrefix (utf16Units c ++ tail) =
      if lo ≤ c.toNat ∧ c.toNat ≤ hi then [tail] else [] := by
  have hv := char_valid c
  unfold utf16Units
  split
  · simp [Regex.matchPrefix]
  · simp only [List.cons_append, List.nil_append, Regex.matchPrefix]
    rw [if_neg (by omega), if_neg (by omega)]

theorem matchPrefix_unit_char (u : Nat) (hu : u < 0xD800) (c : Char) (tail : List Nat) :
    (Regex.unit u).matchPrefix (utf16Units c ++ tail) =
      if c.toNat = u then [tail] else [] := by
  have hv := char_valid c
  unfold utf16Units
  split
  · simp [Regex.matchPrefix]
  · simp only [List.cons_append, List.nil_append, Regex.matchPrefix]
    rw [if_neg (by omega), if_neg (by omega)]

theorem matchPrefix_range_nil (lo hi : Nat) : (Regex.range lo hi).matchPrefix [] = [] := rfl

theorem matchPrefix_unit_nil (u : Nat) : (Regex.unit u).matchPrefix [] = [] := rfl

theorem matchPrefix_range_last (lo hi : Nat) (hhi : hi < 0xD800) (c : Char) :
    (Regex.range lo hi).matchPrefix (utf16Units c) =
      if lo ≤ c.toNat ∧ c.toNat ≤ hi then [[]] else [] := by
  have := matchPrefix_range_char lo hi hhi c []
  simpa using this

theorem matchPrefix_unit_last (u : Nat) (hu : u < 0xD800) (c : Char) :
    (Regex.unit u).matchPrefix (utf16Units c) = if c.toNat = u then [[]] else [] := by
  have := matchPrefix_unit_char u hu c []
  simpa using this

theorem flatMap_ite_nil {α β : Type} (p : Prop) [Decidable p] (l : List α)
    (f : α → List β) :
    (if p then l else []).flatMap f = if p then l.flatMap f else [] := by
  split <;> simp

theorem any_ite_nil {α : Type} (p : Prop) [Decidable p] (l : List α) (f : α → Bool) :
    (if p then l else []).any f = (decide p && l.any f) := by
  split <;> simp_all

theorem isEmpty_units_append (c : Char) (tail : List Nat) :
    (utf16Units c ++ tail).isEmpty = false := by
  have := utf16Units_ne_nil c
  cases h : utf16Units c with
  | nil => exact absurd h this
  | cons a b => rfl

theorem beq_char (c d : Char) : (c == d) = decide (c.toNat = d.toNat) := by
  by_cases h : c = d
  · subst h; simp
  · have : c.toNat ≠ d.toNat := fun h1 => h (char_toNat_inj h1)
    simp [h, this]

/-- The pattern of the source accepts exactly the strings of the format of the
specification. -/
theorem isValidTimeFormat_eq_isHHmmss (s : String) : isValidTimeFormat s = isHHmmss s := by
  obtain ⟨l⟩ := s
  unfold isValidTimeFormat Regex.test codeUnits isHHmmss
  simp only [String.toList]
  rcases l with _ | ⟨c1, _ | ⟨c2, _ | ⟨c3, _ | ⟨c4, _ | ⟨c5, _ | ⟨c6, _ | ⟨c7, _ |
    ⟨c8, _ | ⟨c9, t⟩⟩⟩⟩⟩⟩⟩⟩⟩
  case cons.cons.cons.cons.cons.cons.cons.cons.nil =>
    simp only [timeRegex, Regex.cls, Regex.lit, Regex.matchPrefix, Char.reduceToNat,
      List.flatMap_cons, List.flatMap_nil]
    rw [Bool.eq_iff_iff]
    simp [matchPrefix_range_char, matchPrefix_unit_char, matchPrefix_range_last,
      matchPrefix_unit_last, flatMap_ite_nil, any_ite_nil, beq_char, isDigit, twoDigits]
    omega
  all_goals
    simp only [timeRegex, Regex.cls, Regex.lit, Regex.matchPrefix, Char.reduceToNat,
      List.flatMap_cons, List.flatMap_nil]
    simp [matchPrefix_range_char, matchPrefix_unit_char, matchPrefix_range_last,
      matchPrefix_unit_last, flatMap_ite_nil, any_ite_nil, matchPrefix_range_nil,
      matchPrefix_unit_nil, isEmpty_units_append]

theorem isHHmmss_length (s : String) (h : isHHmmss s = true) : s.toList.length = 8 := by
  unfold isHHmmss at h
  split at h
  · rename_i heq; rw [heq]; rfl
  · simp at h

/-- C20: `isValidTimeFormat(s)` is true if and only if `s` is exactly eight
characters of the form `HH:mm:ss` with two-digit `HH` in 00..23 and two-digit
`mm` and `ss` in 00..59. It rejects "24:00:00", "23:59:60", "9:00:00" and
"09:00", and it rejects every accepted string to which characters are added
in front or behind. -/
theorem isValidTimeFormat_spec :
    (∀ s : String, isValidTimeFormat s = true ↔ isHHmmss s = true) ∧
    isValidTimeFormat "24:00:00" = false ∧
    isValidTimeFormat "23:59:60" = false ∧
    isValidTimeFormat "9:00:00" = false ∧
    isValidTimeFormat "09:00" = false ∧
    (∀ s pre post : String, isValidTimeFormat s = true → pre ≠ "" ∨ post ≠ "" →
      isValidTimeFormat (pre ++ s ++ post) = false) := by
  refine ⟨fun s => by rw [isValidTimeFormat_eq_isHHmmss], rfl, rfl, rfl, rfl, ?_⟩
  intro s pre post hs hextra
  rw [isValidTimeFormat_eq_isHHmmss] at hs
  have h8 := isHHmmss_length s hs
  rw [Bool.eq_false_iff]
  intro h
  rw [isValidTimeFormat_eq_isHHmmss] at h
  have hlen := isHHmmss_length _ h
  simp only [String.toList, String.data_append, List.length_append] at hlen h8
  have hpos : 0 < pre.data.length ∨ 0 < post.data.length := by
    rcases hextra with h1 | h1
    · left
      apply List.length_pos.2
      intro hnil
      exact h1 (String.ext hnil)
    · right
      apply List.length_pos.2
      intro hnil
      exact h1 (String.ext hnil)
  omega

/-- C20 at work: "23:59:59" is accepted, and with a blank in front or behind
it is rejected. -/
theorem isValidTimeFormat_spec_witness :
    isValidTimeFormat "23:59:59" = true ∧ isHHmmss "23:59:59" = true ∧
    isValidTimeFormat (" " ++ "23:59:59" ++ "") = false ∧
    isValidTimeFormat ("" ++ "23:59:59" ++ " ") = false :=
  ⟨rfl, (isValidTimeFormat_spec.1 "23:59:59").1 rfl,
   isValidTimeFormat_spec.2.2.2.2.2 "23:59:59" " " "" rfl (Or.inl (by decide)),
   isValidTimeFormat_spec.2.2.2.2.2 "23:59:59" "" " " rfl (Or.inr (by decide))⟩

end TimeHelper

end BuildingAccess

namespace BuildingAccess

open AccessVerificationService

/-! ## The grants as a union (C25, C28, C29) -/

theorem ChecksPass.toDoorChecksPass {R : Repositories} {db : Database}
    {cardUid doorId : String} {card : Card} {employee : Employee} {role : RoleRow}
    {door : Door} {groups : List DoorGroupRow} {permissions : List PermissionRow}
    (h : ChecksPass R db cardUid doorId card employee role door groups permissions) :
    DoorChecksPass R db cardUid doorId card employee role door groups :=
  ⟨h.cardFound, h.cardActive, h.employeeFound, h.employeeActive, h.roleAssigned,
    h.doorFound, h.doorGroups, h.groupsNonempty⟩

/-- After checks 1 to 7, the outcome is decided by the list that the permission
lookup answers: the denial of check 8 when it is empty; otherwise the first
grant that is satisfied or whose evaluation fails. -/
theorem verifyAccess_of_doorChecksPass {R : Repositories} {db : Database}
    {cardUid doorId : String} {card : Card} {employee : Employee} {role : RoleRow}
    {door : Door} {groups : List DoorGroupRow} {permissions : List PermissionRow}
    (h : DoorChecksPass R db cardUid doorId card employee role door groups)
    (hlookup :
      R.checkRolePermission db role.id (groups.map fun g => g.id) = .ok (some permissions))
    (clock : Clock) :
    verifyAccess R clock db cardUid doorId =
      if permissions = [] then
        denied R clock db cardUid doorId "No permission for this door"
      else
        match permissions.find? (fun p => satisfied clock (buildingTimezone door) p ||
            fails clock (buildingTimezone door) p) with
        | none => denied R clock db cardUid doorId "Outside permitted time range"
        | some p =>
          if satisfied clock (buildingTimezone door) p then
            granted R clock db cardUid doorId
              (if p.access_type = "ALWAYS" then "Access granted"
               else "Access granted (time-bound)") employee role
          else systemError R clock db cardUid doorId := by
  by_cases hp : permissions = []
  · rw [if_pos hp]
    subst hp
    have hx := extractDoorGroups_of_groups door groups h.doorGroups
    have hxne : extractDoorGroups door ≠ [] := by
      rw [hx]; simpa using h.groupsNonempty
    have hids : doorGroupIds (extractDoorGroups door) = .ok (groups.map fun g => g.id) := by
      rw [hx]; exact doorGroupIds_map_some groups
    exact step_noMatchingPermission h.cardFound h.cardActive h.employeeFound
      h.employeeActive h.roleAssigned h.doorFound hxne hids (Or.inr hlookup) clock
  · rw [if_neg hp]
    exact verifyAccess_of_checksPass_first
      ⟨h.cardFound, h.cardActive, h.employeeFound, h.employeeActive, h.roleAssigned,
        h.doorFound, h.doorGroups, h.groupsNonempty, hlookup, hp⟩ clock

/-- The status of the outcome after checks 1 to 7: GRANTED exactly when the
first grant that is satisfied or whose evaluation fails is a satisfied one. -/
theorem status_of_doorChecksPass_first {R : Repositories} {db : Database}
    {cardUid doorId : String} {card : Card} {employee : Employee} {role : RoleRow}
    {door : Door} {groups : List DoorGroupRow} {permissions : List PermissionRow}
    (h : DoorChecksPass R db cardUid doorId card employee role door groups)
    (hlookup :
      R.checkRolePermission db role.id (groups.map fun g => g.id) = .ok (some permissions))
    (clock : Clock) :
    ∃ result, (verifyAccess R clock db cardUid doorId).1 = .ok result ∧
      (result.status = "GRANTED" ∨ result.status = "DENIED") ∧
      (result.status = "GRANTED" ↔
        ∃ p, permissions.find? (fun p => satisfied clock (buildingTimezone door) p ||
            fails clock (buildingTimezone door) p) = some p ∧
          satisfied clock (buildingTimezone door) p = true) := by
  rw [verifyAccess_of_doorChecksPass h hlookup clock]
  by_cases hp : permissions = []
  · rw [if_pos hp]
    subst hp
    exact ⟨_, rfl, Or.inr rfl, by simp [denied]⟩
  · rw [if_neg hp]
    cases hf : permissions.find? (fun p => satisfied clock (buildingTimezone door) p ||
        fails clock (buildingTimezone door) p) with
    | none =>
      refine ⟨_, rfl, Or.inr rfl, ?_⟩
      constructor
      · intro h1; simp at h1
      · rintro ⟨p, hp1, _⟩
        cases hp1
    | some p =>
      simp only
      by_cases hs : satisfied clock (buildingTimezone door) p = true
      · rw [if_pos hs]
        exact ⟨_, rfl, Or.inl rfl, fun _ => ⟨p, rfl, hs⟩, fun _ => rfl⟩
      · rw [if_neg hs]
        refine ⟨_, rfl, Or.inr rfl, ?_⟩
        constructor
        · intro h1; simp [systemError] at h1
        · rintro ⟨q, hq, hsq⟩
          injection hq with hq
          subst hq
          exact absurd hsq hs

/-- The status of the outcome after checks 1 to 7, when the evaluation of no
grant fails: GRANTED exactly when some grant of the list is satisfied. -/
theorem status_of_doorChecksPass {R : Repositories} {db : Database}
    {cardUid doorId : String} {card : Card} {employee : Employee} {role : RoleRow}
    {door : Door} {groups : List DoorGroupRow} {permissions : List PermissionRow}
    (h : DoorChecksPass R db cardUid doorId card employee role door groups)
    (hlookup :
      R.checkRolePermission db role.id (groups.map fun g => g.id) = .ok (some permissions))
    (clock : Clock)
    (hno : ∀ p ∈ permissions, fails clock (buildingTimezone door) p = false) :
    ∃ result, (verifyAccess R clock db cardUid doorId).1 = .ok result ∧
      (result.status = "GRANTED" ∨ result.status = "DENIED") ∧
      (result.status = "GRANTED" ↔
        ∃ p ∈ permissions, satisfied clock (buildingTimezone door) p = true) := by
  obtain ⟨result, hr, hs, hg⟩ := status_of_doorChecksPass_first h hlookup clock
  refine ⟨result, hr, hs, hg.trans ?_⟩
  rw [find?_decisive_of_no_fail hno]
  constructor
  · rintro ⟨p, hf, hsat⟩
    exact ⟨p, List.mem_of_find?_eq_some hf, hsat⟩
  · rintro ⟨p, hp, hsat⟩
    cases hf : permissions.find? (satisfied clock (buildingTimezone door)) with
    | none =>
      rw [List.find?_eq_none] at hf
      exact absurd hsat (hf p hp)
    | some q =>
      exact ⟨q, rfl, by simpa using List.find?_some hf⟩

end BuildingAccess

namespace BuildingAccess

open AccessVerificationService

/-- C25, as stated, fails when the runtime does not know the timezone stored
for the building. In the store whose building has the timezone "Mars/Olympus",
checks 1 to 8 pass for the card of Gus at door `d1`, and his two grants are a
TIME_BOUND grant from 09:00:00 to 17:00:00 and an ALWAYS grant, which is
satisfied. In store order the TIME_BOUND grant comes first, `isWithinTimeRange`
throws for it, and the call returns DENIED "System error". In the reverse
order the ALWAYS grant comes first and the call returns GRANTED. The status
depends on the order of the list. -/
theorem verifyAccess_order_matters_for_unknown_timezone :
    ChecksPass (repositories healthy) Demo.mars "CARD-0007" "d1" Demo.gusCard Demo.gus
      Demo.roleManager Demo.marsEntrance Demo.groups Demo.gusGrants ∧
    ChecksPass
      { repositories healthy with
        checkRolePermission := fun _ _ _ => .ok (some Demo.gusGrants.reverse) }
      Demo.mars "CARD-0007" "d1" Demo.gusCard Demo.gus Demo.roleManager Demo.marsEntrance
      Demo.groups Demo.gusGrants.reverse ∧
    Demo.gusGrants.reverse.Perm Demo.gusGrants ∧
    (∃ p ∈ Demo.gusGrants,
      satisfied (Demo.zonedClockAt "12:00:00") (buildingTimezone Demo.marsEntrance) p = true) ∧
    (verifyAccess (repositories healthy) (Demo.zonedClockAt "12:00:00") Demo.mars
        "CARD-0007" "d1").1 =
      .ok { status := "DENIED", message := "System error",
            timestamp := "2024-03-04T12:00:00.000Z" } ∧
    (verifyAccess
        { repositories healthy with
          checkRolePermission := fun _ _ _ => .ok (some Demo.gusGrants.reverse) }
        (Demo.zonedClockAt "12:00:00") Demo.mars "CARD-0007" "d1").1 =
      .ok { status := "GRANTED", message := "Access granted",
            timestamp := "2024-03-04T12:00:00.000Z",
            employee := some { name := "Gus", role := "Manager" } } :=
  ⟨Demo.checks_gus_mars, ⟨rfl, rfl, rfl, rfl, rfl, rfl, rfl, by decide, rfl, by decide⟩,
   List.reverse_perm _,
   ⟨_, List.mem_cons_of_mem _ (List.mem_singleton.2 rfl), rfl⟩, rfl, rfl⟩

/-- C25 (amended): the grants are combined as a union, whatever their order,
when the evaluation of no grant fails, as is the case when the runtime knows
the timezone of the building. Then, when checks 1 to 8 pass, the status
returned by `verifyAccess` is GRANTED if and only if at least one returned
grant is satisfied (ALWAYS, or TIME_BOUND with the current time inside its
window); so a lookup that answers the same grants in another order
(`permissions2`, a permutation of `permissions`) yields the same status. -/
theorem verifyAccess_union {R R2 : Repositories} {db db2 : Database}
    {cardUid doorId : String} {card card2 : Card} {employee employee2 : Employee}
    {role role2 : RoleRow} {door : Door} {groups groups2 : List DoorGroupRow}
    {permissions permissions2 : List PermissionRow}
    (hpass : ChecksPass R db cardUid doorId card employee role door groups permissions)
    (hpass2 : ChecksPass R2 db2 cardUid doorId card2 employee2 role2 door groups2
      permissions2)
    (hperm : permissions2.Perm permissions) (clock : Clock)
    (hresolved : clock.currentTime (buildingTimezone door) ≠ none ∨
      ∀ p ∈ permissions, fails clock (buildingTimezone door) p = false) :
    ∃ result result2,
      (verifyAccess R clock db cardUid doorId).1 = .ok result ∧
      (verifyAccess R2 clock db2 cardUid doorId).1 = .ok result2 ∧
      (result.status = "GRANTED" ↔
        ∃ p ∈ permissions, satisfied clock (buildingTimezone door) p = true) ∧
      result2.status = result.status := by
  have hno : ∀ p ∈ permissions, fails clock (buildingTimezone door) p = false := by
    rcases hresolved with h | h
    · exact fun p _ => fails_of_known h p
    · exact h
  have hno2 : ∀ p ∈ permissions2, fails clock (buildingTimezone door) p = false :=
    fun p hp => hno p (hperm.mem_iff.1 hp)
  obtain ⟨r1, h1, hs1, hg1⟩ :=
    status_of_doorChecksPass hpass.toDoorChecksPass hpass.lookup clock hno
  obtain ⟨r2, h2, hs2, hg2⟩ :=
    status_of_doorChecksPass hpass2.toDoorChecksPass hpass2.lookup clock hno2
  refine ⟨r1, r2, h1, h2, hg1, ?_⟩
  have hiff : (∃ p ∈ permissions2, satisfied clock (buildingTimezone door) p = true) ↔
      ∃ p ∈ permissions, satisfied clock (buildingTimezone door) p = true :=
    ⟨fun ⟨p, hp, h⟩ => ⟨p, hperm.mem_iff.1 hp, h⟩,
     fun ⟨p, hp, h⟩ => ⟨p, hperm.mem_iff.2 hp, h⟩⟩
  by_cases hg : r1.status = "GRANTED"
  · rw [hg]
    exact hg2.2 (hiff.2 (hg1.1 hg))
  · have hd1 : r1.status = "DENIED" := hs1.resolve_left hg
    have hn2 : r2.status ≠ "GRANTED" := fun h => hg (hg1.2 (hiff.1 (hg2.1 h)))
    rw [hd1]
    exact hs2.resolve_left hn2

/-- The amended C25 at work: the grants of the role Manager on door `d1` in
store order and in the reverse order, at 12:00:00 in a timezone that the
runtime knows. Both calls are granted; the messages differ, the status does
not. -/
theorem verifyAccess_union_witness :
    (Demo.clockAt "12:00:00").currentTime (buildingTimezone Demo.mainEntrance) ≠ none ∧
    verifyAccess (repositories healthy) (Demo.clockAt "12:00:00") Demo.db "CARD-0007" "d1" =
      granted (repositories healthy) (Demo.clockAt "12:00:00") Demo.db "CARD-0007" "d1"
        "Access granted (time-bound)" Demo.gus Demo.roleManager ∧
    verifyAccess
        { repositories healthy with
          checkRolePermission := fun _ _ _ => .ok (some Demo.gusGrants.reverse) }
        (Demo.clockAt "12:00:00") Demo.db "CARD-0007" "d1" =
      granted (repositories healthy) (Demo.clockAt "12:00:00") Demo.db "CARD-0007" "d1"
        "Access granted" Demo.gus Demo.roleManager ∧
    ∃ result result2,
      (verifyAccess (repositories healthy) (Demo.clockAt "12:00:00") Demo.db
        "CARD-0007" "d1").1 = .ok result ∧
      (verifyAccess
        { repositories healthy with
          checkRolePermission := fun _ _ _ => .ok (some Demo.gusGrants.reverse) }
        (Demo.clockAt "12:00:00") Demo.db "CARD-0007" "d1").1 = .ok result2 ∧
      (result.status = "GRANTED" ↔
        ∃ p ∈ Demo.gusGrants,
          satisfied (Demo.clockAt "12:00:00") (buildingTimezone Demo.mainEntrance) p = true) ∧
      result2.status = result.status :=
  ⟨by decide, rfl, rfl,
   verifyAccess_union Demo.checks_gus
     (⟨rfl, rfl, rfl, rfl, rfl, rfl, rfl, by decide, rfl, by decide⟩ :
       ChecksPass
         { repositories healthy with
           checkRolePermission := fun _ _ _ => .ok (some Demo.gusGrants.reverse) }
         Demo.db "CARD-0007" "d1" Demo.gusCard Demo.gus Demo.roleManager Demo.mainEntrance
         Demo.groups Demo.gusGrants.reverse)
     (List.reverse_perm _) (Demo.clockAt "12:00:00") (Or.inl (by decide))⟩

/-- C28: a TIME_BOUND grant whose start_time or end_time is missing (null,
undefined or the empty string) acts as an unrestricted grant. When checks 1 to
8 pass and the loop reaches such a grant (no grant before it in the list is
satisfied, and the evaluation of none of them throws), `verifyAccess` returns
GRANTED "Access granted (time-bound)", whatever the clock shows and whatever
the timezone of the door, known to the runtime or not. -/
theorem verifyAccess_time_bound_without_bounds {R : Repositories} {db : Database}
    {cardUid doorId : String} {card : Card} {employee : Employee} {role : RoleRow}
    {door : Door} {groups : List DoorGroupRow} {permissions : List PermissionRow}
    (hpass : ChecksPass R db cardUid doorId card employee role door groups permissions)
    (clock : Clock) (before after : List PermissionRow) (p : PermissionRow)
    (hsplit : permissions = before ++ p :: after)
    (hreached : ∀ q ∈ before, satisfied clock (buildingTimezone door) q = false)
    (hnothrow : ∀ q ∈ before, fails clock (buildingTimezone door) q = false)
    (htype : p.access_type = "TIME_BOUND")
    (hmissing : TimeHelper.falsy p.start_time = true ∨ TimeHelper.falsy p.end_time = true) :
    verifyAccess R clock db cardUid doorId =
      granted R clock db cardUid doorId "Access granted (time-bound)" employee role := by
  have hsat : satisfied clock (buildingTimezone door) p = true := by
    rcases hmissing with h | h <;>
      simp [satisfied, htype, TimeHelper.isWithinTimeRange, h]
  have hfind : permissions.find? (fun p => satisfied clock (buildingTimezone door) p ||
      fails clock (buildingTimezone door) p) = some p := by
    rw [hsplit, List.find?_append]
    have : before.find? (fun p => satisfied clock (buildingTimezone door) p ||
        fails clock (buildingTimezone door) p) = none := by
      rw [List.find?_eq_none]
      intro q hq
      simp [hreached q hq, hnothrow q hq]
    simp [this, List.find?, hsat]
  rw [verifyAccess_of_checksPass_first hpass clock, hfind]
  simp [htype, hsat]

end BuildingAccess

namespace BuildingAccess

open AccessVerificationService

/-- C28 at work: the lookup answers one TIME_BOUND grant with a start time and
no end time; the card of Fay is granted at 03:00:00. -/
theorem verifyAccess_time_bound_without_bounds_witness :
    verifyAccess
        { repositories healthy with
          checkRolePermission := fun _ _ _ =>
            .ok (some [{ role_id := "r2", door_group_id := "g1", access_type := "TIME_BOUND",
                         start_time := some "09:00:00", end_time := none }]) }
        (Demo.clockAt "03:00:00") Demo.db "CARD-0006" "d1" =
      granted
        { repositories healthy with
          checkRolePermission := fun _ _ _ =>
            .ok (some [{ role_id := "r2", door_group_id := "g1", access_type := "TIME_BOUND",
                         start_time := some "09:00:00", end_time := none }]) }
        (Demo.clockAt "03:00:00") Demo.db "CARD-0006" "d1"
        "Access granted (time-bound)" Demo.fay Demo.roleCleaner :=
  verifyAccess_time_bound_without_bounds
    (⟨rfl, rfl, rfl, rfl, rfl, rfl, rfl, by decide, rfl, by decide⟩ :
      ChecksPass
        { repositories healthy with
          checkRolePermission := fun _ _ _ =>
            .ok (some [{ role_id := "r2", door_group_id := "g1", access_type := "TIME_BOUND",
                         start_time := some "09:00:00", end_time := none }]) }
        Demo.db "CARD-0006" "d1" Demo.fayCard Demo.fay Demo.roleCleaner Demo.mainEntrance
        Demo.groups _)
    (Demo.clockAt "03:00:00") [] [] _ rfl (by simp) (by simp) rfl (Or.inr rfl)

theorem satisfied_of_other_type {clock : Clock} {timezone : String} {p : PermissionRow}
    (h1 : p.access_type ≠ "ALWAYS") (h2 : p.access_type ≠ "TIME_BOUND") :
    satisfied clock timezone p = false := by
  simp [satisfied, h1, h2]

theorem fails_of_other_type {clock : Clock} {timezone : String} {p : PermissionRow}
    (h2 : p.access_type ≠ "TIME_BOUND") : fails clock timezone p = false := by
  simp [fails, h2]

/-- Grants that the loop passes over do not change which grant decides. -/
theorem find?_append_skipped {α : Type} (f : α → Bool) (front extra back : List α)
    (h : ∀ a ∈ extra, f a = false) :
    (front ++ extra ++ back).find? f = (front ++ back).find? f := by
  have hextra : extra.find? f = none := by
    rw [List.find?_eq_none]
    intro a ha
    simp [h a ha]
  simp [List.find?_append, hextra]

/-- C29: a grant whose access_type is neither ALWAYS nor TIME_BOUND never
grants access. When checks 1 to 8 pass and every returned grant has such an
access_type, `verifyAccess` returns DENIED "Outside permitted time range"; and
when checks 1 to 7 pass, a lookup that answers the list `front ++ back` and a
lookup that answers the same list with such grants added (`front ++ extra ++
back`) yield the same status. -/
theorem verifyAccess_other_access_type :
    (∀ (R : Repositories) (clock : Clock) (db : Database) (cardUid doorId : String)
        (card : Card) (employee : Employee) (role : RoleRow) (door : Door)
        (groups : List DoorGroupRow) (permissions : List PermissionRow),
      ChecksPass R db cardUid doorId card employee role door groups permissions →
      (∀ p ∈ permissions, p.access_type ≠ "ALWAYS" ∧ p.access_type ≠ "TIME_BOUND") →
      verifyAccess R clock db cardUid doorId =
        denied R clock db cardUid doorId "Outside permitted time range") ∧
    (∀ (R R2 : Repositories) (clock : Clock) (db db2 : Database) (cardUid doorId : String)
        (card card2 : Card) (employee employee2 : Employee) (role role2 : RoleRow)
        (door : Door) (groups groups2 : List DoorGroupRow)
        (front extra back : List PermissionRow),
      DoorChecksPass R db cardUid doorId card employee role door groups →
      DoorChecksPass R2 db2 cardUid doorId card2 employee2 role2 door groups2 →
      R.checkRolePermission db role.id (groups.map fun g => g.id) =
        .ok (some (front ++ back)) →
      R2.checkRolePermission db2 role2.id (groups2.map fun g => g.id) =
        .ok (some (front ++ extra ++ back)) →
      (∀ p ∈ extra, p.access_type ≠ "ALWAYS" ∧ p.access_type ≠ "TIME_BOUND") →
      ∃ result result2,
        (verifyAccess R clock db cardUid doorId).1 = .ok result ∧
        (verifyAccess R2 clock db2 cardUid doorId).1 = .ok result2 ∧
        result2.status = result.status) := by
  constructor
  · intro R clock db cardUid doorId card employee role door groups permissions hpass hother
    have hfind : permissions.find? (satisfied clock (buildingTimezone door)) = none := by
      rw [List.find?_eq_none]
      intro p hp
      simp [satisfied_of_other_type (hother p hp).1 (hother p hp).2]
    rw [verifyAccess_of_checksPass hpass clock
      (fun p hp => fails_of_other_type (hother p hp).2), hfind]
  · intro R R2 clock db db2 cardUid doorId card card2 employee employee2 role role2 door
      groups groups2 front extra back h1 h2 hl1 hl2 hother
    obtain ⟨r1, e1, hs1, hg1⟩ := status_of_doorChecksPass_first h1 hl1 clock
    obtain ⟨r2, e2, hs2, hg2⟩ := status_of_doorChecksPass_first h2 hl2 clock
    refine ⟨r1, r2, e1, e2, ?_⟩
    have hskip := find?_append_skipped
      (fun p => satisfied clock (buildingTimezone door) p ||
        fails clock (buildingTimezone door) p) front extra back
      (fun p hp => by
        simp [satisfied_of_other_type (hother p hp).1 (hother p hp).2,
          fails_of_other_type (hother p hp).2])
    rw [hskip] at hg2
    have hiff := hg2.trans hg1.symm
    by_cases hg : r1.status = "GRANTED"
    · rw [hg]
      exact hiff.2 hg
    · have hd1 : r1.status = "DENIED" := hs1.resolve_left hg
      have hn2 : r2.status ≠ "GRANTED" := fun h => hg (hiff.1 h)
      rw [hd1]
      exact hs2.resolve_left hn2

/-- C29 at work: the lookup answers one grant of access_type "WEEKENDS" for the
card of Fay at door `d1`; the call is denied. -/
theorem verifyAccess_other_access_type_witness :
    verifyAccess
        { repositories healthy with
          checkRolePermission := fun _ _ _ =>
            .ok (some [{ role_id := "r2", door_group_id := "g1",
                         access_type := "WEEKENDS" }]) }
        (Demo.clockAt "12:00:00") Demo.db "CARD-0006" "d1" =
      denied
        { repositories healthy with
          checkRolePermission := fun _ _ _ =>
            .ok (some [{ role_id := "r2", door_group_id := "g1",
                         access_type := "WEEKENDS" }]) }
        (Demo.clockAt "12:00:00") Demo.db "CARD-0006" "d1"
        "Outside permitted time range" :=
  verifyAccess_other_access_type.1
    { repositories healthy with
      checkRolePermission := fun _ _ _ =>
        .ok (some [{ role_id := "r2", door_group_id := "g1", access_type := "WEEKENDS" }]) }
    (Demo.clockAt "12:00:00") Demo.db "CARD-0006" "d1" Demo.fayCard Demo.fay Demo.roleCleaner
    Demo.mainEntrance Demo.groups _
    ⟨rfl, rfl, rfl, rfl, rfl, rfl, rfl, by decide, rfl, by decide⟩
    (by decide)

end BuildingAccess

namespace BuildingAccess

/-! ## The string order and the order of time (C24) -/

namespace TimeHelper

/-- The shape of a string that the pattern accepts. -/
theorem shape_of_valid (s : String) (h : isValidTimeFormat s = true) :
    ∃ h1 h2 c1 m1 m2 c2 s1 s2 : Char, s.toList = [h1, h2, c1, m1, m2, c2, s1, s2] ∧
      c1.toNat = 58 ∧ c2.toNat = 58 ∧
      48 ≤ h1.toNat ∧ h1.toNat ≤ 57 ∧ 48 ≤ h2.toNat ∧ h2.toNat ≤ 57 ∧
      48 ≤ m1.toNat ∧ m1.toNat ≤ 57 ∧ 48 ≤ m2.toNat ∧ m2.toNat ≤ 57 ∧
      48 ≤ s1.toNat ∧ s1.toNat ≤ 57 ∧ 48 ≤ s2.toNat ∧ s2.toNat ≤ 57 ∧
      10 * (h1.toNat - 48) + (h2.toNat - 48) ≤ 23 ∧
      10 * (m1.toNat - 48) + (m2.toNat - 48) ≤ 59 ∧
      10 * (s1.toNat - 48) + (s2.toNat - 48) ≤ 59 := by
  rw [isValidTimeFormat_eq_isHHmmss] at h
  unfold isHHmmss at h
  split at h
  · rename_i h1 h2 c1 m1 m2 c2 s1 s2 heq
    refine ⟨h1, h2, c1, m1, m2, c2, s1, s2, heq, ?_⟩
    simp [beq_char, isDigit, twoDigits] at h
    omega
  · simp at h

theorem utf16Units_of_bmp (c : Char) (h : c.toNat < 0x10000) :
    utf16Units c = [c.toNat] := by
  simp [utf16Units, h]

theorem unitsLt_cons_false (x y : Nat) (xs ys : List Nat) :
    unitsLt (y :: ys) (x :: xs) = false ↔ x < y ∨ (x = y ∧ unitsLt ys xs = false) := by
  rw [unitsLt]
  split_ifs with h1 h2
  · simp; omega
  · simp; omega
  · have : x = y := by omega
    simp [this]

/-- On the code units of two time strings, with digits `x` and `y`, the
lexicographic order is the order of the seconds since midnight. -/
theorem units_order (x1 x2 x4 x5 x7 x8 y1 y2 y4 y5 y7 y8 : Nat)
    (hx : x1 ≤ 9 ∧ x2 ≤ 9 ∧ x4 ≤ 9 ∧ x5 ≤ 9 ∧ x7 ≤ 9 ∧ x8 ≤ 9 ∧
      10 * x4 + x5 ≤ 59 ∧ 10 * x7 + x8 ≤ 59)
    (hy : y1 ≤ 9 ∧ y2 ≤ 9 ∧ y4 ≤ 9 ∧ y5 ≤ 9 ∧ y7 ≤ 9 ∧ y8 ≤ 9 ∧
      10 * y4 + y5 ≤ 59 ∧ 10 * y7 + y8 ≤ 59) :
    unitsLt [y1 + 48, y2 + 48, 58, y4 + 48, y5 + 48, 58, y7 + 48, y8 + 48]
        [x1 + 48, x2 + 48, 58, x4 + 48, x5 + 48, 58, x7 + 48, x8 + 48] = false ↔
      3600 * (10 * x1 + x2) + 60 * (10 * x4 + x5) + (10 * x7 + x8) ≤
        3600 * (10 * y1 + y2) + 60 * (10 * y4 + y5) + (10 * y7 + y8) := by
  simp only [unitsLt_cons_false]
  have : unitsLt [] [] = false := rfl
  simp only [this, and_true]
  constructor
  · intro h
    omega
  · intro h
    rcases Nat.lt_trichotomy x1 y1 with h1 | h1 | h1
    · exact Or.inl (by omega)
    · refine Or.inr ⟨by omega, ?_⟩
      rcases Nat.lt_trichotomy x2 y2 with h2 | h2 | h2
      · exact Or.inl (by omega)
      · refine Or.inr ⟨by omega, Or.inr ⟨trivial, ?_⟩⟩
        rcases Nat.lt_trichotomy x4 y4 with h4 | h4 | h4
        · exact Or.inl (by omega)
        · refine Or.inr ⟨by omega, ?_⟩
          rcases Nat.lt_trichotomy x5 y5 with h5 | h5 | h5
          · exact Or.inl (by omega)
          · refine Or.inr ⟨by omega, Or.inr ⟨trivial, ?_⟩⟩
            rcases Nat.lt_trichotomy x7 y7 with h7 | h7 | h7
            · exact Or.inl (by omega)
            · refine Or.inr ⟨by omega, ?_⟩
              rcases Nat.lt_trichotomy x8 y8 with h8 | h8 | h8
              · exact Or.inl (by omega)
              · exact Or.inr (by omega)
              · omega
            · omega
          · omega
        · omega
      · omega
    · omega

/-- The order `<=` on two strings that the pattern accepts is the order of the
seconds since midnight that they denote. -/
theorem strLe_iff_seconds (s t : String) (hs : isValidTimeFormat s = true)
    (ht : isValidTimeFormat t = true) :
    strLe s t = true ↔ secondsOfDay s ≤ secondsOfDay t := by
  obtain ⟨a1, a2, a3, a4, a5, a6, a7, a8, ha, hs1⟩ := shape_of_valid s hs
  obtain ⟨b1, b2, b3, b4, b5, b6, b7, b8, hb, ht1⟩ := shape_of_valid t ht
  simp only [strLe, strLt, codeUnits, secondsOfDay, ha, hb, List.flatMap_cons,
    List.flatMap_nil, twoDigits, Char.reduceToNat]
  rw [utf16Units_of_bmp a1 (by omega), utf16Units_of_bmp a2 (by omega),
    utf16Units_of_bmp a3 (by omega), utf16Units_of_bmp a4 (by omega),
    utf16Units_of_bmp a5 (by omega), utf16Units_of_bmp a6 (by omega),
    utf16Units_of_bmp a7 (by omega), utf16Units_of_bmp a8 (by omega),
    utf16Units_of_bmp b1 (by omega), utf16Units_of_bmp b2 (by omega),
    utf16Units_of_bmp b3 (by omega), utf16Units_of_bmp b4 (by omega),
    utf16Units_of_bmp b5 (by omega), utf16Units_of_bmp b6 (by omega),
    utf16Units_of_bmp b7 (by omega), utf16Units_of_bmp b8 (by omega)]
  simp only [List.singleton_append, List.append_nil, Bool.not_eq_true']
  obtain ⟨x1, hx1⟩ : ∃ x, a1.toNat = x + 48 := ⟨a1.toNat - 48, by omega⟩
  obtain ⟨x2, hx2⟩ : ∃ x, a2.toNat = x + 48 := ⟨a2.toNat - 48, by omega⟩
  obtain ⟨x4, hx4⟩ : ∃ x, a4.toNat = x + 48 := ⟨a4.toNat - 48, by omega⟩
  obtain ⟨x5, hx5⟩ : ∃ x, a5.toNat = x + 48 := ⟨a5.toNat - 48, by omega⟩
  obtain ⟨x7, hx7⟩ : ∃ x, a7.toNat = x + 48 := ⟨a7.toNat - 48, by omega⟩
  obtain ⟨x8, hx8⟩ : ∃ x, a8.toNat = x + 48 := ⟨a8.toNat - 48, by omega⟩
  obtain ⟨y1, hy1⟩ : ∃ x, b1.toNat = x + 48 := ⟨b1.toNat - 48, by omega⟩
  obtain ⟨y2, hy2⟩ : ∃ x, b2.toNat = x + 48 := ⟨b2.toNat - 48, by omega⟩
  obtain ⟨y4, hy4⟩ : ∃ x, b4.toNat = x + 48 := ⟨b4.toNat - 48, by omega⟩
  obtain ⟨y5, hy5⟩ : ∃ x, b5.toNat = x + 48 := ⟨b5.toNat - 48, by omega⟩
  obtain ⟨y7, hy7⟩ : ∃ x, b7.toNat = x + 48 := ⟨b7.toNat - 48, by omega⟩
  obtain ⟨y8, hy8⟩ : ∃ x, b8.toNat = x + 48 := ⟨b8.toNat - 48, by omega⟩
  rw [hs1.1, hs1.2.1, ht1.1, ht1.2.1, hx1, hx2, hx4, hx5, hx7, hx8, hy1, hy2, hy4, hy5,
    hy7, hy8]
  simp only [Nat.add_sub_cancel]
  apply units_order
  · rw [hx1, hx2, hx4, hx5, hx7, hx8] at hs1
    simp only [Nat.add_sub_cancel] at hs1
    omega
  · rw [hy1, hy2, hy4, hy5, hy7, hy8] at ht1
    simp only [Nat.add_sub_cancel] at ht1
    omega

end TimeHelper

end BuildingAccess

namespace BuildingAccess

namespace TimeHelper

theorem ne_empty_of_valid (s : String) (h : isValidTimeFormat s = true) : s ≠ "" := by
  obtain ⟨_, _, _, _, _, _, _, _, hs, _⟩ := shape_of_valid s h
  intro he
  rw [he] at hs
  simp at hs

/-- C24: the string comparison of `isWithinTimeRange` agrees with the order of
time. For all strings `s` and `t` that `isValidTimeFormat` accepts, `s <= t` in
code-unit order if and only if the seconds since midnight of `s` are at most
those of `t`; so for valid bounds and a valid current time, `isWithinTimeRange`
is the membership of the current second of the day in the closed interval of
seconds from the start to the end, which wraps around midnight when the start
is after the end. -/
theorem isWithinTimeRange_eq_seconds_interval :
    (∀ s t : String, isValidTimeFormat s = true → isValidTimeFormat t = true →
      (strLe s t = true ↔ secondsOfDay s ≤ secondsOfDay t)) ∧
    (∀ (clock : Clock) (buildingTimezone start stop now : String),
      isValidTimeFormat start = true → isValidTimeFormat stop = true →
      clock.currentTime buildingTimezone = some now → isValidTimeFormat now = true →
      isWithinTimeRange clock buildingTimezone (some start) (some stop) =
        .ok (inSecondsInterval (secondsOfDay start) (secondsOfDay stop)
          (secondsOfDay now))) := by
  refine ⟨strLe_iff_seconds, ?_⟩
  intro clock tz start stop now hstart hstop hcur hnow
  have h1 := strLe_iff_seconds start stop hstart hstop
  have h2 := strLe_iff_seconds start now hstart hnow
  have h3 := strLe_iff_seconds now stop hnow hstop
  rw [isWithinTimeRange_eq_of_time hcur (ne_empty_of_valid start hstart)
    (ne_empty_of_valid stop hstop)]
  congr 1
  simp only [inSecondsInterval]
  have hgt : strGt start stop = !strLe start stop := by simp [strGt, strLe]
  have hge : strGe now start = strLe start now := rfl
  rw [hgt, hge]
  by_cases hle : secondsOfDay start ≤ secondsOfDay stop
  · have : strLe start stop = true := h1.2 hle
    simp only [this, Bool.not_true, Bool.false_eq_true, if_false, if_pos hle]
    rw [Bool.eq_iff_iff]
    simp [h2, h3]
  · have : strLe start stop = false := by
      rw [Bool.eq_false_iff]; exact fun h => hle (h1.1 h)
    simp only [this, Bool.not_false, if_true, if_neg hle]
    rw [Bool.eq_iff_iff]
    simp [h2, h3]

/-- C24 at work: "09:00:00" is second 32400 and "17:00:00" second 61200, and at
12:00:00, second 43200, the window from 09:00:00 to 17:00:00 is open. -/
theorem isWithinTimeRange_eq_seconds_interval_witness :
    secondsOfDay "09:00:00" = 32400 ∧ secondsOfDay "17:00:00" = 61200 ∧
    (strLe "09:00:00" "17:00:00" = true ↔
      secondsOfDay "09:00:00" ≤ secondsOfDay "17:00:00") ∧
    (Demo.clockAt "12:00:00").currentTime "UTC" = some "12:00:00" ∧
    isWithinTimeRange (Demo.clockAt "12:00:00") "UTC" (some "09:00:00") (some "17:00:00") =
      .ok (inSecondsInterval (secondsOfDay "09:00:00") (secondsOfDay "17:00:00")
        (secondsOfDay "12:00:00")) :=
  ⟨rfl, rfl,
   isWithinTimeRange_eq_seconds_interval.1 "09:00:00" "17:00:00" rfl rfl,
   rfl,
   isWithinTimeRange_eq_seconds_interval.2 (Demo.clockAt "12:00:00") "UTC" "09:00:00"
     "17:00:00" "12:00:00" rfl rfl rfl rfl⟩

end TimeHelper

end BuildingAccess

namespace BuildingAccess

open AccessVerificationService

/-! ## The timezone of the door (C21) -/

/-- What the door repository returns for a found door comes from one row of
`door`, and its `floor` member is the embed of the floor of that row. -/
theorem findDoorById_found (conn : Connection) (db : Database) (id : String) (door : Door)
    (h : DoorRepository.findDoorById conn db id = .ok (some door)) :
    ∃ d ∈ db.door, d.id = id ∧ door.floor = DoorRepository.embedFloor db d.floor_id ∧
      door.floor_id = d.floor_id ∧ door.office_space_id = d.office_space_id := by
  unfold DoorRepository.findDoorById select at h
  cases hs : conn.selectError "door" with
  | some e =>
    simp only [hs, Except.bind] at h
    split at h <;> simp at h
  | none =>
    simp only [hs, Except.bind] at h
    cases hf : db.door.filter (fun d => d.id == id) with
    | nil => simp [hf, single] at h
    | cons d rest =>
      cases rest with
      | cons d2 rest2 => simp [hf, single] at h
      | nil =>
        simp only [hf, List.map_cons, List.map_nil, single] at h
        simp only [Except.ok.injEq, Option.some.injEq] at h
        have hmem : d ∈ db.door.filter (fun d => d.id == id) := by simp [hf]
        rw [List.mem_filter] at hmem
        refine ⟨d, hmem.1, by simpa using hmem.2, ?_, ?_, ?_⟩ <;> rw [← h]

theorem buildingTimezone_eq_of_floor (db : Database) (door : Door) (fid : String)
    (h : door.floor = DoorRepository.embedFloor db (some fid)) :
    buildingTimezone door =
      match db.buildingOfFloor fid with
      | none => "UTC"
      | some building =>
        match building.timezone with
        | none => "UTC"
        | some tz => if tz == "" then "UTC" else tz := by
  unfold buildingTimezone Database.buildingOfFloor
  rw [h]
  unfold DoorRepository.embedFloor
  cases hfl : db.floor.find? (fun f => f.id == fid) with
  | none => simp [hfl]
  | some f =>
    cases hb : f.building_id with
    | none => simp [hfl, hb]
    | some bid => simp [hfl, hb]

/-- For a door that references a floor, the timezone that `verifyAccess` uses
is the timezone of the building that contains the door, "UTC" when unset. -/
theorem buildingTimezone_of_floor_door (conn : Connection) (db : Database) (id : String)
    (door : Door) (h : DoorRepository.findDoorById conn db id = .ok (some door))
    (hfloor : door.floor_id ≠ none) :
    ∃ d ∈ db.door, d.id = id ∧ buildingTimezone door = db.timezoneOfDoor d := by
  obtain ⟨d, hd, hid, hf, hfid, -⟩ := findDoorById_found conn db id door h
  refine ⟨d, hd, hid, ?_⟩
  cases hx : d.floor_id with
  | none => rw [hfid, hx] at hfloor; exact absurd rfl hfloor
  | some fid =>
    rw [hx] at hf
    rw [buildingTimezone_eq_of_floor db door fid hf]
    simp [Database.timezoneOfDoor, Database.buildingOfDoor, hx]

/-- For a door that references no floor, `verifyAccess` uses "UTC", whatever
office space the door references. -/
theorem buildingTimezone_of_office_door (conn : Connection) (db : Database) (id : String)
    (door : Door) (h : DoorRepository.findDoorById conn db id = .ok (some door))
    (hfloor : door.floor_id = none) :
    buildingTimezone door = "UTC" := by
  obtain ⟨d, -, -, hf, hfid, -⟩ := findDoorById_found conn db id door h
  rw [hfloor] at hfid
  rw [← hfid] at hf
  simp [buildingTimezone, hf, DoorRepository.embedFloor]

/-- C21, what the code does for a door that references an office space: the
door `d3` is in the office space `o1`, on the floor `f1` of the building
`b1`, whose timezone is America/New_York. At 13:00:00 in New York (18:00:00
UTC) the window 09:00:00 to 17:00:00 of the grant contains the local time of
the building, but `verifyAccess` evaluates it in "UTC" and denies. -/
theorem verifyAccess_office_door_uses_utc :
    (∃ d ∈ Demo.offices.door, d.id = "d3" ∧
      Demo.offices.timezoneOfDoor d = "America/New_York") ∧
    TimeHelper.isWithinTimeRange Demo.newYorkAfternoon "America/New_York"
      (some "09:00:00") (some "17:00:00") = .ok true ∧
    (repositories healthy).findDoorById Demo.offices "d3" = .ok (some Demo.suite101) ∧
    buildingTimezone Demo.suite101 = "UTC" ∧
    verifyAccess (repositories healthy) Demo.newYorkAfternoon Demo.offices "CARD-0006" "d3" =
      denied (repositories healthy) Demo.newYorkAfternoon Demo.offices "CARD-0006" "d3"
        "Outside permitted time range" := by
  refine ⟨⟨{ id := "d3", name := "Suite 101 Door", office_space_id := some "o1" }, ?_, rfl,
    rfl⟩, rfl, rfl, rfl, rfl⟩
  simp [Demo.offices, Demo.campus, Demo.db]

end BuildingAccess

namespace BuildingAccess

/-! ## Facts about the write statements -/

theorem insertSingle_snd_valid {α : Type} (error : Option PgError) (valid : List α → Bool)
    (rows : List α) (row : α) (h : valid rows = true) :
    valid (insertSingle error valid rows row).2 = true := by
  unfold insertSingle
  split
  · exact h
  · split
    · assumption
    · exact h

theorem updateSingle_snd_valid {α : Type} (error : Option PgError) (valid : List α → Bool)
    (rows : List α) (target : α → Bool) (change : α → α) (h : valid rows = true) :
    valid (updateSingle error valid rows target change).2 = true := by
  unfold updateSingle
  split
  · exact h
  · simp only
    split
    · split
      · assumption
      · exact h
    · exact h

theorem updateSingle_snd_cases {α : Type} (error : Option PgError) (valid : List α → Bool)
    (rows : List α) (target : α → Bool) (change : α → α) :
    (updateSingle error valid rows target change).2 = rows ∨
      (updateSingle error valid rows target change).2 =
        rows.map fun r => if target r then change r else r := by
  unfold updateSingle
  split
  · exact Or.inl rfl
  · simp only
    split
    · split
      · exact Or.inr rfl
      · exact Or.inl rfl
    · exact Or.inl rfl

/-- The two outcomes of an update that returns a single row: an error and the
table as it was, or the one targeted row changed. -/
theorem updateSingle_cases {α : Type} (error : Option PgError) (valid : List α → Bool)
    (rows : List α) (target : α → Bool) (change : α → α) :
    (∃ e, updateSingle error valid rows target change = (.error e, rows)) ∨
      ∃ x, rows.filter target = [x] ∧
        updateSingle error valid rows target change =
          (.ok (change x), rows.map fun r => if target r then change r else r) := by
  unfold updateSingle
  cases error with
  | some e => exact Or.inl ⟨e, rfl⟩
  | none =>
    simp only
    split
    · match h : rows.filter target with
      | [] => exact Or.inl ⟨_, rfl⟩
      | [x] => exact Or.inr ⟨x, rfl, rfl⟩
      | _ :: _ :: _ => exact Or.inl ⟨_, rfl⟩
    · exact Or.inl ⟨_, rfl⟩

/-- A filter on a key that no two rows share selects the one row with the key. -/
theorem filter_key_eq_singleton {α β : Type} [DecidableEq β] (key : α → β) :
    ∀ (rows : List α) (row : α), (rows.map key).Nodup → row ∈ rows →
      rows.filter (fun r => decide (key r = key row)) = [row]
  | [], _, _, h => by cases h
  | r :: rows, row, hnd, hmem => by
    rw [List.map_cons, List.nodup_cons] at hnd
    rcases List.mem_cons.1 hmem with rfl | hin
    · have : rows.filter (fun r => decide (key r = key row)) = [] := by
        rw [List.filter_eq_nil_iff]
        intro a ha hk
        exact hnd.1 (List.mem_map.2 ⟨a, ha, of_decide_eq_true hk⟩)
      simp [List.filter_cons, this]
    · have hne : key r ≠ key row := fun hk =>
        hnd.1 (List.mem_map.2 ⟨row, hin, hk.symm⟩)
      simp [List.filter_cons, hne, filter_key_eq_singleton key rows row hnd.2 hin]

namespace PermissionRepository

theorem target_eq_pair (roleId doorGroupId : String) :
    (fun p : PermissionRow => p.role_id == roleId && p.door_group_id == doorGroupId) =
      fun p => decide (pair p = (roleId, doorGroupId)) := by
  funext p
  by_cases h1 : p.role_id = roleId <;> by_cases h2 : p.door_group_id = doorGroupId <;>
    simp [pair, h1, h2]

theorem pair_applyUpdates (data : PermissionData) (p : PermissionRow) :
    pair (applyUpdates data p) = (data.role_id, data.door_group_id) := rfl

theorem update_snd_eq (conn : Connection) (db : Database) (roleId doorGroupId : String)
    (updates : PermissionData) :
    (update conn db roleId doorGroupId updates).2 =
      { db with role_door_group_permission :=
          (updateSingle (conn.updateError "role_door_group_permission") unique
            db.role_door_group_permission
            (fun p => p.role_id == roleId && p.door_group_id == doorGroupId)
            (applyUpdates updates)).2 } := by
  unfold update
  rcases h : updateSingle (conn.updateError "role_door_group_permission") unique
      db.role_door_group_permission
      (fun p => p.role_id == roleId && p.door_group_id == doorGroupId)
      (applyUpdates updates) with ⟨_ | _, rows⟩
  · have hrows : rows = db.role_door_group_permission := by
      have := congrArg Prod.snd h
      simp only at this
      rw [← this]
      unfold updateSingle at h ⊢
      revert h
      split
      · intro _; rfl
      · simp only
        split
        · split
          · intro h; cases h
          · intro _; rfl
        · intro _; rfl
    subst hrows
    simp only
    split <;> rfl
  · rfl

theorem update_snd_unique (conn : Connection) (db : Database) (roleId doorGroupId : String)
    (updates : PermissionData) (h : unique db.role_door_group_permission = true) :
    unique (update conn db roleId doorGroupId updates).2.role_door_group_permission = true := by
  rw [update_snd_eq]
  exact updateSingle_snd_valid _ _ _ _ _ h

theorem create_snd_unique (conn : Connection) (db : Database) (newId : String)
    (data : PermissionData) (h : unique db.role_door_group_permission = true) :
    unique (create conn db newId data).2.role_door_group_permission = true := by
  unfold create
  rcases hi : insertSingle (conn.insertError "role_door_group_permission") unique
      db.role_door_group_permission (newRow newId data) with ⟨e | row, rows⟩
  · simp only
    split
    · exact update_snd_unique conn db _ _ _ h
    · exact h
  · simp only
    have := insertSingle_snd_valid (conn.insertError "role_door_group_permission") unique
      db.role_door_group_permission (newRow newId data) h
    rw [hi] at this
    exact this

theorem map_pair_changed (data : PermissionData) (rows : List PermissionRow) :
    (rows.map fun p =>
        if decide (pair p = (data.role_id, data.door_group_id)) then applyUpdates data p
        else p).map pair = rows.map pair := by
  rw [List.map_map]
  apply List.map_congr_left
  intro p _
  by_cases h : pair p = (data.role_id, data.door_group_id)
  · simp [h, pair_applyUpdates]
  · simp [h]

theorem unique_append_iff (rows : List PermissionRow) (row : PermissionRow) :
    unique (rows ++ [row]) = true ↔
      unique rows = true ∧ pair row ∉ rows.map pair := by
  simp only [unique, decide_eq_true_eq, List.map_append, List.map_cons, List.map_nil]
  rw [List.nodup_append]
  simp only [List.nodup_cons, List.not_mem_nil, not_false_eq_true, List.nodup_nil, and_self,
    and_true]
  constructor
  · rintro ⟨h1, _, h2⟩
    exact ⟨h1, fun hm => h2 hm (List.mem_singleton.2 rfl)⟩
  · rintro ⟨h1, h2⟩
    refine ⟨h1, trivial, fun a ha hb => ?_⟩
    rw [List.mem_singleton.1 hb] at ha
    exact h2 ha

/-- A grant for a pair that has a row: the insert is refused and the row is
updated. -/
theorem create_of_existing_pair (conn : Connection) (db : Database) (newId : String)
    (data : PermissionData) (old : PermissionRow)
    (hinv : unique db.role_door_group_permission = true)
    (hold : old ∈ db.role_door_group_permission)
    (hpair : pair old = (data.role_id, data.door_group_id))
    (hinsert : conn.insertError "role_door_group_permission" = none)
    (hupdate : conn.updateError "role_door_group_permission" = none) :
    create conn db newId data =
      (.ok (applyUpdates data old),
        { db with role_door_group_permission :=
            db.role_door_group_permission.map fun p =>
              if decide (pair p = (data.role_id, data.door_group_id)) then applyUpdates data p
              else p }) := by
  have hnot : unique (db.role_door_group_permission ++ [newRow newId data]) = false := by
    rw [Bool.eq_false_iff]
    intro h
    exact ((unique_append_iff _ _).1 h).2 (List.mem_map.2 ⟨old, hold, hpair⟩)
  have hchanged : unique (db.role_door_group_permission.map fun p =>
      if decide (pair p = (data.role_id, data.door_group_id)) then applyUpdates data p
      else p) = true := by
    unfold unique at hinv ⊢
    rw [map_pair_changed]
    exact hinv
  have hfilter : db.role_door_group_permission.filter
      (fun p => decide (pair p = (data.role_id, data.door_group_id))) = [old] := by
    rw [← hpair]
    exact filter_key_eq_singleton pair _ old (of_decide_eq_true hinv) hold
  unfold create insertSingle
  rw [hinsert]
  simp only [hnot, Bool.false_eq_true, if_false]
  have hcode : (uniqueViolation.code == "23505") = true := by decide
  rw [if_pos hcode]
  unfold update updateSingle
  rw [hupdate, target_eq_pair]
  simp only [hchanged, if_true, hfilter, List.map_cons, List.map_nil, single]

/-- A grant for a pair that has no row: the insert is accepted. -/
theorem create_of_new_pair (conn : Connection) (db : Database) (newId : String)
    (data : PermissionData)
    (hinv : unique db.role_door_group_permission = true)
    (hnew : (data.role_id, data.door_group_id) ∉ db.role_door_group_permission.map pair)
    (hinsert : conn.insertError "role_door_group_permission" = none) :
    create conn db newId data =
      (.ok (newRow newId data),
        { db with role_door_group_permission :=
            db.role_door_group_permission ++ [newRow newId data] }) := by
  have hvalid : unique (db.role_door_group_permission ++ [newRow newId data]) = true :=
    (unique_append_iff _ _).2 ⟨hinv, hnew⟩
  unfold create insertSingle
  rw [hinsert]
  simp only [hvalid, if_true]

/-- C22: permission uniqueness is an invariant of `PermissionRepository.create`.
From a store with at most one permission row per pair (role, door group), the
store after `create` has at most one row per pair, whatever the connection
answers. When the pair of the request has a row `old` and the store answers the
insert and the update, the call returns that row changed to the new data, the
table is the old table with that one row changed in place, the number of rows
is unchanged and the other tables are untouched. When the pair has no row and
the store answers the insert, the call returns the new row and the table is the
old table with that one row added. -/
theorem create_keeps_pairs_unique (conn : Connection) (db : Database) (newId : String)
    (data : PermissionData) (hinv : unique db.role_door_group_permission = true) :
    unique (create conn db newId data).2.role_door_group_permission = true ∧
    (∀ old ∈ db.role_door_group_permission,
      pair old = (data.role_id, data.door_group_id) →
      conn.insertError "role_door_group_permission" = none →
      conn.updateError "role_door_group_permission" = none →
        (create conn db newId data).1 = .ok (applyUpdates data old) ∧
        (create conn db newId data).2 =
          { db with role_door_group_permission :=
              db.role_door_group_permission.map fun p =>
                if p = old then applyUpdates data old else p } ∧
        (create conn db newId data).2.role_door_group_permission.length =
          db.role_door_group_permission.length) ∧
    ((data.role_id, data.door_group_id) ∉ db.role_door_group_permission.map pair →
      conn.insertError "role_door_group_permission" = none →
        (create conn db newId data).1 = .ok (newRow newId data) ∧
        (create conn db newId data).2 =
          { db with role_door_group_permission :=
              db.role_door_group_permission ++ [newRow newId data] } ∧
        (create conn db newId data).2.role_door_group_permission.length =
          db.role_door_group_permission.length + 1) := by
  refine ⟨create_snd_unique conn db newId data hinv, ?_, ?_⟩
  · intro old hold hpair hinsert hupdate
    rw [create_of_existing_pair conn db newId data old hinv hold hpair hinsert hupdate]
    have hmap : (db.role_door_group_permission.map fun p =>
        if decide (pair p = (data.role_id, data.door_group_id)) then applyUpdates data p
        else p) =
        db.role_door_group_permission.map fun p =>
          if p = old then applyUpdates data old else p := by
      apply List.map_congr_left
      intro p hp
      by_cases h : p = old
      · subst h
        simp [hpair]
      · have hne : pair p ≠ (data.role_id, data.door_group_id) := by
          intro hp2
          exact h (List.inj_on_of_nodup_map (of_decide_eq_true hinv) hp hold
            (hp2.trans hpair.symm))
        simp [h, hne]
    refine ⟨rfl, ?_, ?_⟩
    · simp only [hmap]
    · simp only [List.length_map]
  · intro hnew hinsert
    rw [create_of_new_pair conn db newId data hinv hnew hinsert]
    exact ⟨rfl, rfl, by simp⟩

/-- C22 at work on the example store, whose four grants have four pairs: a
grant for the pair (`r1`, `g1`) changes the row `p1` in place and keeps four
rows, a grant for the new pair (`r1`, `g2`) adds a fifth row. -/
theorem create_keeps_pairs_unique_witness :
    unique Demo.db.role_door_group_permission = true ∧
    create healthy Demo.db "p9" Demo.regrant =
      (.ok { id := "p1", role_id := "r1", door_group_id := "g1", access_type := "TIME_BOUND",
             start_time := some "09:00:00", end_time := some "17:00:00" },
       { Demo.db with role_door_group_permission :=
           { id := "p1", role_id := "r1", door_group_id := "g1", access_type := "TIME_BOUND",
             start_time := some "09:00:00", end_time := some "17:00:00" } ::
             Demo.db.role_door_group_permission.tail }) ∧
    (create healthy Demo.db "p9" Demo.newGrant).2.role_door_group_permission =
      Demo.db.role_door_group_permission ++
        [{ id := "p9", role_id := "r1", door_group_id := "g2", access_type := "ALWAYS" }] ∧
    unique (create healthy Demo.db "p9" Demo.regrant).2.role_door_group_permission = true ∧
    unique (create healthy Demo.db "p9" Demo.newGrant).2.role_door_group_permission = true :=
  ⟨by decide, rfl, rfl,
   (create_keeps_pairs_unique healthy Demo.db "p9" Demo.regrant (by decide)).1,
   (create_keeps_pairs_unique healthy Demo.db "p9" Demo.newGrant (by decide)).1⟩

end PermissionRepository

end BuildingAccess

namespace BuildingAccess

theorem insertSingle_snd_cases {α : Type} (error : Option PgError) (valid : List α → Bool)
    (rows : List α) (row : α) :
    (insertSingle error valid rows row).2 = rows ∨
      (insertSingle error valid rows row).2 = rows ++ [row] := by
  unfold insertSingle
  split
  · exact Or.inl rfl
  · split
    · exact Or.inr rfl
    · exact Or.inl rfl

namespace PermissionRepository

theorem create_snd (conn : Connection) (db : Database) (newId : String)
    (data : PermissionData) :
    ∃ rows, (create conn db newId data).2 = { db with role_door_group_permission := rows } ∧
      ∀ p ∈ rows, p ∈ db.role_door_group_permission ∨ p = newRow newId data ∨
        ∃ old, p = applyUpdates data old := by
  unfold create
  rcases hi : insertSingle (conn.insertError "role_door_group_permission") unique
      db.role_door_group_permission (newRow newId data) with ⟨e | row, rows⟩
  · simp only
    split
    · rw [update_snd_eq]
      refine ⟨_, rfl, fun p hp => ?_⟩
      rcases updateSingle_snd_cases (conn.updateError "role_door_group_permission") unique
        db.role_door_group_permission
        (fun p => p.role_id == data.role_id && p.door_group_id == data.door_group_id)
        (applyUpdates data) with h | h
      · rw [h] at hp
        exact Or.inl hp
      · rw [h] at hp
        obtain ⟨q, hq, rfl⟩ := List.mem_map.1 hp
        split
        · exact Or.inr (Or.inr ⟨q, rfl⟩)
        · exact Or.inl hq
    · exact ⟨db.role_door_group_permission, rfl, fun p hp => Or.inl hp⟩
  · refine ⟨rows, rfl, fun p hp => ?_⟩
    have hrows := congrArg Prod.snd hi
    simp only at hrows
    rcases insertSingle_snd_cases (conn.insertError "role_door_group_permission") unique
      db.role_door_group_permission (newRow newId data) with h | h
    · rw [h] at hrows
      rw [← hrows] at hp
      exact Or.inl hp
    · rw [h] at hrows
      rw [← hrows] at hp
      rcases List.mem_append.1 hp with hp | hp
      · exact Or.inl hp
      · exact Or.inr (Or.inl (List.mem_singleton.1 hp))

theorem update_fst_ne_validation (conn : Connection) (db : Database)
    (roleId doorGroupId : String) (updates : PermissionData) (message : String) :
    (update conn db roleId doorGroupId updates).1 ≠ .error (.validation message) := by
  unfold update
  split
  · split <;> simp
  · simp

theorem create_fst_ne_validation (conn : Connection) (db : Database) (newId : String)
    (data : PermissionData) (message : String) :
    (create conn db newId data).1 ≠ .error (.validation message) := by
  unfold create
  split
  · split
    · exact update_fst_ne_validation conn db _ _ _ message
    · simp
  · simp

end PermissionRepository

namespace DoorService

theorem isValidTime_iff (member : Field String) :
    isValidTime member = true ↔
      ∃ s, member = .value s ∧ TimeHelper.isValidTimeFormat s = true := by
  cases member <;> simp [isValidTime]

theorem truthy_of_isValidTime {member : Field String} (h : isValidTime member = true) :
    member.truthy = true := by
  obtain ⟨s, rfl, hs⟩ := (isValidTime_iff member).1 h
  simp only [Field.truthy, bne_iff_ne, ne_eq]
  intro he
  subst he
  revert hs
  decide

/-- With the role and the door group found, a TIME_BOUND request with two valid
bounds goes to the repository. -/
theorem assignRolePermission_of_valid {conn : Connection} {db : Database} {newId : String}
    {data : PermissionData} {role : RoleRow} {group : DoorGroupRow}
    (hrole : RoleRepository.findById conn db data.role_id = .ok role)
    (hgroup : DoorRepository.findDoorGroupById conn db data.door_group_id = .ok group)
    (hstart : isValidTime data.start_time = true) (hend : isValidTime data.end_time = true) :
    assignRolePermission conn db newId data = PermissionRepository.create conn db newId data := by
  unfold assignRolePermission
  rw [hrole, hgroup]
  simp only [hstart, hend, truthy_of_isValidTime hstart, truthy_of_isValidTime hend]
  simp

/-- With the role and the door group found, a TIME_BOUND request with a missing
or malformed bound is refused and nothing is stored. -/
theorem assignRolePermission_of_invalid {conn : Connection} {db : Database} {newId : String}
    {data : PermissionData} {role : RoleRow} {group : DoorGroupRow}
    (hrole : RoleRepository.findById conn db data.role_id = .ok role)
    (hgroup : DoorRepository.findDoorGroupById conn db data.door_group_id = .ok group)
    (htype : data.access_type = "TIME_BOUND")
    (hbad : ¬ (isValidTime data.start_time = true ∧ isValidTime data.end_time = true)) :
    ∃ message, assignRolePermission conn db newId data = (.error (.validation message), db) := by
  unfold assignRolePermission
  rw [hrole, hgroup]
  simp only [htype, beq_self_eq_true, if_true]
  split
  · exact ⟨_, rfl⟩
  · split
    · exact ⟨_, rfl⟩
    · rename_i h
      simp only [Bool.or_eq_true, Bool.not_eq_true', not_or, Bool.not_eq_false] at h
      exact absurd h hbad

/-- The rows made from a request with two valid bounds carry these bounds. -/
theorem bounds_of_made {data : PermissionData} {newId : String} {p : PermissionRow}
    (htype : data.access_type = "TIME_BOUND")
    (hstart : isValidTime data.start_time = true) (hend : isValidTime data.end_time = true)
    (hp : p = PermissionRepository.newRow newId data ∨
      ∃ old, p = PermissionRepository.applyUpdates data old) :
    p.access_type = "TIME_BOUND" ∧
      ∃ s e, p.start_time = some s ∧ p.end_time = some e ∧
        TimeHelper.isValidTimeFormat s = true ∧ TimeHelper.isValidTimeFormat e = true := by
  obtain ⟨s, hs, hvs⟩ := (isValidTime_iff _).1 hstart
  obtain ⟨e, he, hve⟩ := (isValidTime_iff _).1 hend
  rcases hp with rfl | ⟨old, rfl⟩
  · refine ⟨htype, s, e, ?_, ?_, hvs, hve⟩
    · simp [PermissionRepository.newRow, hs, Field.toColumn]
    · simp [PermissionRepository.newRow, he, Field.toColumn]
  · refine ⟨htype, s, e, ?_, ?_, hvs, hve⟩
    · simp [PermissionRepository.applyUpdates, hs, Field.updateColumn]
    · simp [PermissionRepository.applyUpdates, he, Field.updateColumn]

/-- C23: `DoorService.assignRolePermission`, for a role and a door group that
the lookups find and the access type TIME_BOUND, fails with a ValidationError
if and only if `start_time` or `end_time` is missing (undefined, null or the
empty string) or does not satisfy `isValidTimeFormat`, and then the store is
unchanged. Hence every row of the permission table after the call is a row
that was there before or a TIME_BOUND row with two bounds that satisfy
`isValidTimeFormat`. -/
theorem assignRolePermission_time_bound {conn : Connection} {db : Database} {newId : String}
    {data : PermissionData} {role : RoleRow} {group : DoorGroupRow}
    (hrole : RoleRepository.findById conn db data.role_id = .ok role)
    (hgroup : DoorRepository.findDoorGroupById conn db data.door_group_id = .ok group)
    (htype : data.access_type = "TIME_BOUND") :
    ((∃ message, (assignRolePermission conn db newId data).1 = .error (.validation message)) ↔
      (data.start_time.truthy = false ∨ data.end_time.truthy = false ∨
        isValidTime data.start_time = false ∨ isValidTime data.end_time = false)) ∧
    ((∃ message, (assignRolePermission conn db newId data).1 = .error (.validation message)) →
      (assignRolePermission conn db newId data).2 = db) ∧
    (∀ p ∈ (assignRolePermission conn db newId data).2.role_door_group_permission,
      p ∈ db.role_door_group_permission ∨
        (p.access_type = "TIME_BOUND" ∧
          ∃ s e, p.start_time = some s ∧ p.end_time = some e ∧
            TimeHelper.isValidTimeFormat s = true ∧ TimeHelper.isValidTimeFormat e = true)) := by
  by_cases hvalid : isValidTime data.start_time = true ∧ isValidTime data.end_time = true
  · have hcreate := @assignRolePermission_of_valid conn db newId data role group hrole hgroup
      hvalid.1 hvalid.2
    have hnone : ¬ ∃ message,
        (assignRolePermission conn db newId data).1 = .error (.validation message) := by
      rintro ⟨message, h⟩
      rw [hcreate] at h
      exact PermissionRepository.create_fst_ne_validation conn db newId data message h
    refine ⟨⟨fun h => absurd h hnone, ?_⟩, fun h => absurd h hnone, ?_⟩
    · have h1 := truthy_of_isValidTime hvalid.1
      have h2 := truthy_of_isValidTime hvalid.2
      rw [h1, h2, hvalid.1, hvalid.2]
      simp
    · intro p hp
      rw [hcreate] at hp
      obtain ⟨rows, hrows, hmem⟩ := PermissionRepository.create_snd conn db newId data
      rw [hrows] at hp
      rcases hmem p hp with h | h
      · exact Or.inl h
      · exact Or.inr (bounds_of_made htype hvalid.1 hvalid.2 h)
  · obtain ⟨message, h⟩ := @assignRolePermission_of_invalid conn db newId data role group hrole hgroup htype hvalid
    refine ⟨⟨fun _ => ?_, fun _ => ⟨message, by rw [h]⟩⟩, fun _ => by rw [h], ?_⟩
    · by_cases h1 : isValidTime data.start_time = true
      · by_cases h2 : isValidTime data.end_time = true
        · exact absurd ⟨h1, h2⟩ hvalid
        · exact Or.inr (Or.inr (Or.inr (Bool.not_eq_true _ ▸ h2)))
      · exact Or.inr (Or.inr (Or.inl (Bool.not_eq_true _ ▸ h1)))
    · intro p hp
      rw [h] at hp
      exact Or.inl hp

/-- C23 at work on the example store: a request whose start time is `9:00:00`
and a request without end time are refused and store nothing; the request
with the bounds `09:00:00` and `17:00:00` stores its row. -/
theorem assignRolePermission_time_bound_witness :
    assignRolePermission healthy Demo.db "p9" Demo.malformedGrant =
      (.error (.validation "Time must be in HH:mm:ss format"), Demo.db) ∧
    assignRolePermission healthy Demo.db "p9" Demo.openEndedGrant =
      (.error (.validation "TIME_BOUND access requires start_time and end_time"), Demo.db) ∧
    (assignRolePermission healthy Demo.db "p9" Demo.regrant).1 =
      .ok { id := "p1", role_id := "r1", door_group_id := "g1", access_type := "TIME_BOUND",
            start_time := some "09:00:00", end_time := some "17:00:00" } ∧
    ((∃ message, (assignRolePermission healthy Demo.db "p9" Demo.malformedGrant).1 =
        .error (.validation message)) ↔
      (Demo.malformedGrant.start_time.truthy = false ∨
        Demo.malformedGrant.end_time.truthy = false ∨
        isValidTime Demo.malformedGrant.start_time = false ∨
        isValidTime Demo.malformedGrant.end_time = false)) :=
  ⟨rfl, rfl, rfl,
   (@assignRolePermission_time_bound healthy Demo.db "p9" Demo.malformedGrant
      Demo.roleEmployee { id := "g2", name := "Private Offices", type := "PRIVATE" }
      rfl rfl rfl).1⟩

end DoorService

end BuildingAccess

namespace BuildingAccess

namespace RoleService

/-- The row that `RoleRepository.create` returns is the row made from the
request, and it is in the table afterwards. -/
theorem create_ok {conn : Connection} {db : Database} {newId : String} {data : RoleData}
    {row : RoleRow} (h : (RoleRepository.create conn db newId data).1 = .ok row) :
    row = RoleRepository.newRow newId data ∧
      (RoleRepository.create conn db newId data).2 =
        { db with access_role := db.access_role ++ [row] } := by
  unfold RoleRepository.create insertSingle at h ⊢
  cases hc : conn.insertError "access_role" with
  | some e => rw [hc] at h; simp at h
  | none =>
    rw [hc] at h
    simp only [if_true] at h ⊢
    injection h with h
    subst h
    exact ⟨rfl, rfl⟩

/-- The organization scope of every role that `createRole` stores is in order,
for a request whose `organization_id` is not the empty string (which the checks
of `createRole` take for no organization): a system role is stored without
organization, another role with one. The three refusals come in the order of the source: a caller who is not an admin and asks
for a system role gets the ForbiddenError whatever else the request holds; a
system role with an organization and a role without both get the
ValidationError; nothing is stored then. -/
theorem createRole_scope (conn : Connection) (db : Database) (newId : String)
    (data : RoleData) (isAdmin : Bool) :
    (∀ row, data.organization_id ≠ .value "" →
      (createRole conn db newId data isAdmin).1 = .ok row →
      roleScopeOk row = true ∧
        (createRole conn db newId data isAdmin).2 =
          { db with access_role := db.access_role ++ [row] }) ∧
    (data.is_system_role.isTrue = true → isAdmin = false →
      createRole conn db newId data isAdmin =
        (.error (.forbidden "Only admins can create system roles"), db)) ∧
    (data.is_system_role.isTrue = true → isAdmin = true →
      data.organization_id.truthy = true →
      createRole conn db newId data isAdmin =
        (.error (.validation "System roles cannot belong to an organization"), db)) ∧
    (data.is_system_role.isTrue = false → data.organization_id.truthy = false →
      createRole conn db newId data isAdmin =
        (.error (.validation "Organization-specific roles must have organization_id"), db)) := by
  refine ⟨?_, ?_, ?_, ?_⟩
  · intro row hempty h
    unfold createRole at h ⊢
    split at h
    · simp at h
    · split at h
      · simp at h
      · split at h
        · simp at h
        · rename_i h1 h2 h3
          rw [if_neg h1, if_neg h2, if_neg h3]
          revert h
          cases hf : RoleRepository.findByName conn db data.name data.organization_id with
          | error e => intro h; simp at h
          | ok found =>
            cases found with
            | some r => intro h; simp at h
            | none =>
              intro h
              simp only at h ⊢
              obtain ⟨hrow, hdb⟩ := create_ok h
              refine ⟨?_, hdb⟩
              subst hrow
              cases hs : data.is_system_role.isTrue
              · have ho : data.organization_id.truthy = true := by
                  simpa [hs] using h3
                cases horg : data.organization_id <;>
                  simp_all [roleScopeOk, RoleRepository.newRow, Field.toColumn, Field.truthy]
              · have ho : data.organization_id.truthy = false := by
                  simpa [hs] using h2
                cases horg : data.organization_id <;>
                  simp_all [roleScopeOk, RoleRepository.newRow, Field.toColumn, Field.truthy]
  · intro hs ha
    unfold createRole
    simp [hs, ha]
  · intro hs ha ho
    unfold createRole
    simp [hs, ha, ho]
  · intro hs ho
    unfold createRole
    simp [hs, ho]

/-- C27: `RoleService.updateRole` does not keep the organization scope of roles
in order, although `RoleService.createRole` does. In the example store every
role is in order: three system roles without organization and the role `r4` of
the organization `org-1`. An admin who updates the system role `r1` with the
body `organization_id: "org-1"` gets back, and stores, a system role that
belongs to an organization; a caller who updates the role `r4` with the body
`organization_id: null` gets back, and stores, a role that is neither a system
role nor of an organization. Both calls succeed. -/
theorem updateRole_breaks_role_scope :
    (∀ r ∈ Demo.tenants.access_role, roleScopeOk r = true) ∧
    updateRole healthy Demo.tenants "r1" Demo.rescope true =
      (.ok { id := "r1", name := "Employee", is_system_role := true,
             organization_id := some "org-1" },
       { Demo.tenants with access_role :=
           { id := "r1", name := "Employee", is_system_role := true,
             organization_id := some "org-1" } :: Demo.tenants.access_role.tail }) ∧
    roleScopeOk { id := "r1", name := "Employee", is_system_role := true,
                  organization_id := some "org-1" } = false ∧
    (updateRole healthy Demo.tenants "r4" Demo.unscope false).1 =
      .ok { id := "r4", name := "Tenant", is_system_role := false, organization_id := none } ∧
    { id := "r4", name := "Tenant", is_system_role := false, organization_id := none } ∈
      (updateRole healthy Demo.tenants "r4" Demo.unscope false).2.access_role ∧
    roleScopeOk { id := "r4", name := "Tenant", is_system_role := false,
                  organization_id := none } = false :=
  ⟨by decide, rfl, rfl, rfl, by decide, rfl⟩

end RoleService

end BuildingAccess

namespace BuildingAccess

/-! ## Facts about the card life cycle -/

namespace CardRepository

/-- Where no two cards share an employee, the filter of `findByEmployee` selects
the card of the employee. -/
theorem filter_employee_eq_singleton :
    ∀ (rows : List AccessCardRow) (card : AccessCardRow) (employeeId : String),
      (rows.filterMap fun c => c.employee_id).Nodup → card ∈ rows →
      card.employee_id = some employeeId →
      rows.filter (fun c => c.employee_id == some employeeId) = [card]
  | [], _, _, _, h, _ => by cases h
  | r :: rows, card, employeeId, hnd, hmem, hcard => by
    have hrest : ∀ c ∈ rows, c.employee_id = some employeeId →
        employeeId ∈ rows.filterMap fun c => c.employee_id := fun c hc he =>
      List.mem_filterMap.2 ⟨c, hc, he⟩
    rcases List.mem_cons.1 hmem with rfl | hin
    · rw [List.filterMap_cons, hcard] at hnd
      simp only [List.nodup_cons] at hnd
      have : rows.filter (fun c => c.employee_id == some employeeId) = [] := by
        rw [List.filter_eq_nil_iff]
        intro c hc he
        exact hnd.1 (hrest c hc (by simpa using he))
      simp [List.filter_cons, hcard, this]
    · cases hr : r.employee_id with
      | none =>
        rw [List.filterMap_cons, hr] at hnd
        simp only at hnd
        simp [List.filter_cons, hr,
          filter_employee_eq_singleton rows card employeeId hnd hin hcard]
      | some e =>
        rw [List.filterMap_cons, hr] at hnd
        simp only [List.nodup_cons] at hnd
        have hne : e ≠ employeeId := fun he => hnd.1 (he ▸ hrest card hin hcard)
        simp [List.filter_cons, hr, hne,
          filter_employee_eq_singleton rows card employeeId hnd.2 hin hcard]

/-- The lookup of the card of an employee who has one, when the store answers
the read. -/
theorem findByEmployee_of_holder {conn : Connection} {db : Database} {card : AccessCardRow}
    {employeeId : String} (hinv : OneCardPerEmployee db) (hmem : card ∈ db.access_card)
    (hcard : card.employee_id = some employeeId)
    (hselect : conn.selectError "access_card" = none) :
    findByEmployee conn db employeeId = .ok (some card) := by
  unfold findByEmployee select
  rw [filter_employee_eq_singleton db.access_card card employeeId hinv hmem hcard, hselect]
  rfl

/-- The two outcomes of `CardRepository.create`: an error and the store as it
was, or the new row appended to a table that keeps the constraints. -/
theorem create_cases (conn : Connection) (db : Database) (newId : String) (data : CardData) :
    (∃ e, create conn db newId data = (.error e, db)) ∨
      (create conn db newId data =
          (.ok (newRow newId data),
            { db with access_card := db.access_card ++ [newRow newId data] }) ∧
        unique (db.access_card ++ [newRow newId data]) = true) := by
  unfold create insertSingle
  cases conn.insertError "access_card" with
  | some e =>
    simp only
    split
    · exact Or.inl ⟨_, rfl⟩
    · exact Or.inl ⟨_, rfl⟩
  | none =>
    simp only
    by_cases hv : unique (db.access_card ++ [newRow newId data]) = true
    · rw [if_pos hv]
      exact Or.inr ⟨rfl, hv⟩
    · rw [if_neg hv]
      simp only
      split
      · exact Or.inl ⟨_, rfl⟩
      · exact Or.inl ⟨_, rfl⟩

theorem oneCard_of_unique {db : Database} (h : unique db.access_card = true) :
    OneCardPerEmployee db := by
  unfold unique at h
  simp only [Bool.and_eq_true, decide_eq_true_eq] at h
  exact h.2

/-- The cards with a second card for an employee who has one break the
constraint. -/
theorem not_unique_of_holder {rows : List AccessCardRow} {card : AccessCardRow}
    (newId : String) {data : CardData} (hmem : card ∈ rows)
    (hcard : card.employee_id = some data.employee_id) :
    ¬ unique (rows ++ [newRow newId data]) = true := by
  intro hv
  have hnd := @oneCard_of_unique { access_card := rows ++ [newRow newId data] } hv
  unfold OneCardPerEmployee at hnd
  simp only [List.filterMap_append, List.filterMap_cons, newRow, List.filterMap_nil] at hnd
  rw [List.nodup_append] at hnd
  exact hnd.2.2 (List.mem_filterMap.2 ⟨card, hmem, hcard⟩) (List.mem_singleton.2 rfl)

/-- The insert of a card for an employee who has one is refused by the store. -/
theorem create_of_holder {conn : Connection} {db : Database} {card : AccessCardRow}
    (newId : String) {data : CardData} (hmem : card ∈ db.access_card)
    (hcard : card.employee_id = some data.employee_id) :
    ∃ e, create conn db newId data = (.error e, db) := by
  rcases create_cases conn db newId data with h | ⟨_, hv⟩
  · exact h
  · exact absurd hv (not_unique_of_holder newId hmem hcard)

theorem create_keeps_one_card (conn : Connection) (db : Database) (newId : String)
    (data : CardData) (hinv : OneCardPerEmployee db) :
    OneCardPerEmployee (create conn db newId data).2 := by
  rcases create_cases conn db newId data with ⟨e, h⟩ | ⟨h, hv⟩
  · rw [h]
    exact hinv
  · rw [h]
    exact oneCard_of_unique hv

theorem findByEmployee_some {conn : Connection} {db : Database} {employeeId : String}
    {card : AccessCardRow} (h : findByEmployee conn db employeeId = .ok (some card)) :
    db.access_card.filter (fun c => c.employee_id == some employeeId) = [card] := by
  unfold findByEmployee select at h
  cases hs : conn.selectError "access_card" with
  | some e =>
    rw [hs] at h
    simp only [Except.bind] at h
    split at h <;> simp at h
  | none =>
    rw [hs] at h
    simp only [Except.bind] at h
    generalize db.access_card.filter (fun c => c.employee_id == some employeeId) = l at h ⊢
    match l, h with
    | [], h => simp [single] at h
    | [x], h =>
      simp only [single] at h
      injection h with h
      injection h with h
      rw [h]
    | _ :: _ :: _, h => simp [single] at h

/-- The two outcomes of `CardRepository.update`: an error and the store as it
was, or the one row of the given id with its status changed. -/
theorem card_update_cases (conn : Connection) (db : Database) (id status : String) :
    (∃ e, update conn db id status = (.error e, db)) ∨
      ∃ x, db.access_card.filter (fun c => c.id == id) = [x] ∧
        update conn db id status =
          (.ok (x.withStatus status),
            { db with access_card :=
                db.access_card.map fun c => if c.id == id then c.withStatus status else c }) := by
  unfold update
  rcases updateSingle_cases (conn.updateError "access_card") unique db.access_card
    (fun c => c.id == id) (fun c => c.withStatus status) with ⟨e, h⟩ | ⟨x, hx, h⟩
  · rw [h]
    simp only
    split
    · exact Or.inl ⟨_, rfl⟩
    · exact Or.inl ⟨_, rfl⟩
  · rw [h]
    exact Or.inr ⟨x, hx, rfl⟩

theorem card_update_snd (conn : Connection) (db : Database) (id status : String) :
    (update conn db id status).2 = db ∨
      (update conn db id status).2 =
        { db with access_card :=
            db.access_card.map fun c => if c.id == id then c.withStatus status else c } := by
  rcases card_update_cases conn db id status with ⟨e, h⟩ | ⟨x, _, h⟩
  · exact Or.inl (by rw [h])
  · exact Or.inr (by rw [h])

theorem filterMap_employee_map_status (rows : List AccessCardRow) (id status : String) :
    (rows.map fun c => if c.id == id then c.withStatus status else c).filterMap
        (fun c => c.employee_id) =
      rows.filterMap fun c => c.employee_id := by
  rw [List.filterMap_map]
  apply List.filterMap_congr
  intro c _
  simp only [Function.comp]
  split <;> rfl

theorem update_keeps_one_card (conn : Connection) (db : Database) (id status : String)
    (hinv : OneCardPerEmployee db) : OneCardPerEmployee (update conn db id status).2 := by
  rcases card_update_snd conn db id status with h | h
  · rw [h]
    exact hinv
  · rw [h]
    unfold OneCardPerEmployee at hinv ⊢
    simp only
    rw [filterMap_employee_map_status]
    exact hinv

theorem delete_snd (conn : Connection) (db : Database) (id : String) :
    (delete conn db id).2 = db ∨
      (delete conn db id).2 =
        { db with access_card := db.access_card.filter fun c => !(c.id == id) } := by
  unfold delete
  split
  · exact Or.inl rfl
  · exact Or.inr rfl

theorem delete_keeps_one_card (conn : Connection) (db : Database) (id : String)
    (hinv : OneCardPerEmployee db) : OneCardPerEmployee (delete conn db id).2 := by
  rcases delete_snd conn db id with h | h
  · rw [h]
    exact hinv
  · rw [h]
    unfold OneCardPerEmployee at hinv ⊢
    exact hinv.sublist (List.Sublist.filterMap _ (List.filter_sublist _))

/-- Deleting the rows of an id after changing their status leaves the other
rows as they were. -/
theorem filter_map_status (rows : List AccessCardRow) (id status : String) :
    (rows.map fun c => if c.id == id then c.withStatus status else c).filter
        (fun c => !(c.id == id)) =
      rows.filter fun c => !(c.id == id) := by
  induction rows with
  | nil => rfl
  | cons r rows ih =>
    cases h : (r.id == id)
    · simp only [List.map_cons, h, Bool.false_eq_true, if_false, List.filter_cons, Bool.not_false,
        if_true]
      rw [ih]
    · have h2 : ((r.withStatus status).id == id) = true := h
      simp only [List.map_cons, h, h2, if_true, List.filter_cons, Bool.not_true,
        Bool.false_eq_true, if_false]
      exact ih

end CardRepository

end BuildingAccess

namespace BuildingAccess

namespace EmployeeService

/-- The two outcomes of `issueCard`: an error and the store as it was, or a new
ACTIVE card of the employee appended to the cards, after a lookup that found no
card of the employee. -/
theorem issueCard_cases (conn : Connection) (db : Database)
    (newId uuid now employeeId : String) (cardUid : Option String) :
    (∃ e, issueCard conn db newId uuid now employeeId cardUid = (.error e, db)) ∨
      ∃ data : CardData, data.employee_id = employeeId ∧ data.status = "ACTIVE" ∧
        CardRepository.findByEmployee conn db employeeId = .ok none ∧
        issueCard conn db newId uuid now employeeId cardUid =
          (.ok (CardRepository.newRow newId data),
            { db with access_card := db.access_card ++ [CardRepository.newRow newId data] }) ∧
        CardRepository.unique (db.access_card ++ [CardRepository.newRow newId data]) = true := by
  unfold issueCard
  cases EmployeeRepository.findById conn db employeeId with
  | error e => exact Or.inl ⟨e, rfl⟩
  | ok employee =>
    simp only
    split
    · exact Or.inl ⟨_, rfl⟩
    · cases hf : CardRepository.findByEmployee conn db employeeId with
      | error e => exact Or.inl ⟨e, rfl⟩
      | ok found =>
        cases found with
        | some c => exact Or.inl ⟨_, rfl⟩
        | none =>
          simp only
          rcases CardRepository.create_cases conn db newId
            { card_uid :=
                match cardUid with
                | some uid => if uid == "" then "CARD-" ++ uuid else uid
                | none => "CARD-" ++ uuid,
              employee_id := employeeId, status := "ACTIVE", issued_at := some now }
            with ⟨e, h⟩ | ⟨h, hv⟩
          · exact Or.inl ⟨e, h⟩
          · refine Or.inr ⟨_, ?_, ?_, ?_, h, hv⟩ <;> first | rfl | trivial

/-- For an employee who has a card, `issueCard` fails and stores nothing. -/
theorem issueCard_of_holder {conn : Connection} {db : Database} {card : AccessCardRow}
    (newId uuid now : String) {employeeId : String} (cardUid : Option String)
    (hmem : card ∈ db.access_card) (hcard : card.employee_id = some employeeId) :
    ∃ e, issueCard conn db newId uuid now employeeId cardUid = (.error e, db) := by
  rcases issueCard_cases conn db newId uuid now employeeId cardUid with
    h | ⟨data, hd, _, _, h, hv⟩
  · exact h
  · exact absurd hv (CardRepository.not_unique_of_holder newId hmem (by rw [hd]; exact hcard))

/-- For an ACTIVE employee who has a card, when the store answers the read of
the cards, `issueCard` fails with the ConflictError of the service. -/
theorem issueCard_conflict {conn : Connection} {db : Database} {card : AccessCardRow}
    {employee : EmployeeRow} (newId uuid now : String) {employeeId : String}
    (cardUid : Option String) (hinv : OneCardPerEmployee db)
    (hmem : card ∈ db.access_card) (hcard : card.employee_id = some employeeId)
    (hfound : EmployeeRepository.findById conn db employeeId = .ok employee)
    (hactive : employee.status = "ACTIVE")
    (hselect : conn.selectError "access_card" = none) :
    issueCard conn db newId uuid now employeeId cardUid =
      (.error (.conflict "Employee already has an access card"), db) := by
  unfold issueCard
  rw [hfound]
  simp only [hactive, bne_self_eq_false, Bool.false_eq_true, if_false]
  rw [CardRepository.findByEmployee_of_holder hinv hmem hcard hselect]

theorem issueCard_keeps_one_card (conn : Connection) (db : Database)
    (newId uuid now employeeId : String) (cardUid : Option String)
    (hinv : OneCardPerEmployee db) :
    OneCardPerEmployee (issueCard conn db newId uuid now employeeId cardUid).2 := by
  rcases issueCard_cases conn db newId uuid now employeeId cardUid with
    ⟨e, h⟩ | ⟨data, _, _, _, h, hv⟩
  · rw [h]
    exact hinv
  · rw [h]
    exact CardRepository.oneCard_of_unique hv

theorem replaceCard_keeps_one_card (conn : Connection) (db : Database)
    (newId uuid now employeeId : String) (newCardUid : Option String)
    (hinv : OneCardPerEmployee db) :
    OneCardPerEmployee (replaceCard conn db newId uuid now employeeId newCardUid).2 := by
  unfold replaceCard
  cases CardRepository.findByEmployee conn db employeeId with
  | error e => exact hinv
  | ok found =>
    cases found with
    | none => exact issueCard_keeps_one_card conn db newId uuid now employeeId newCardUid hinv
    | some oldCard =>
      simp only
      have h1 := CardRepository.update_keeps_one_card conn db oldCard.id "LOST" hinv
      rcases hu : CardRepository.update conn db oldCard.id "LOST" with ⟨_ | _, db1⟩
      · rw [hu] at h1
        exact h1
      · rw [hu] at h1
        simp only at h1 ⊢
        have h2 := CardRepository.delete_keeps_one_card conn db1 oldCard.id h1
        rcases hd : CardRepository.delete conn db1 oldCard.id with ⟨_ | _, db2⟩
        · rw [hd] at h2
          exact h2
        · rw [hd] at h2
          exact issueCard_keeps_one_card conn db2 newId uuid now employeeId newCardUid h2

/-- A successful `replaceCard` for an employee who has a card removes that card
and appends the new one. -/
theorem replaceCard_ok {conn : Connection} {db : Database}
    {newId uuid now employeeId : String} {newCardUid : Option String}
    {old row : AccessCardRow} (hinv : OneCardPerEmployee db)
    (hmem : old ∈ db.access_card) (hold : old.employee_id = some employeeId)
    (h : (replaceCard conn db newId uuid now employeeId newCardUid).1 = .ok row) :
    row.employee_id = some employeeId ∧ row.status = "ACTIVE" ∧
      (replaceCard conn db newId uuid now employeeId newCardUid).2 =
        { db with access_card :=
            (db.access_card.filter fun c => !(c.id == old.id)) ++ [row] } := by
  unfold replaceCard at h ⊢
  cases hf : CardRepository.findByEmployee conn db employeeId with
  | error e => rw [hf] at h; cases h
  | ok found =>
    rw [hf] at h
    cases found with
    | none =>
      simp only at h
      obtain ⟨e, he⟩ := @issueCard_of_holder conn db old newId uuid now employeeId newCardUid
        hmem hold
      rw [he] at h
      cases h
    | some oldCard =>
      have hsame : oldCard = old := by
        have h1 := CardRepository.findByEmployee_some hf
        rw [CardRepository.filter_employee_eq_singleton db.access_card old employeeId hinv
          hmem hold] at h1
        injection h1 with h1
        exact h1.symm
      subst hsame
      simp only at h ⊢
      rcases CardRepository.card_update_cases conn db oldCard.id "LOST" with ⟨e, hu⟩ | ⟨x, _, hu⟩
      · rw [hu] at h
        cases h
      · rw [hu] at h ⊢
        simp only at h ⊢
        unfold CardRepository.delete at h ⊢
        cases hd : conn.deleteError "access_card" with
        | some e => rw [hd] at h; cases h
        | none =>
          rw [hd] at h
          simp only [CardRepository.filter_map_status] at h ⊢
          rcases issueCard_cases conn
            { db with access_card := db.access_card.filter fun c => !(c.id == oldCard.id) }
            newId uuid now employeeId newCardUid with ⟨e, hi⟩ | ⟨data, hd1, hd2, _, hi, _⟩
          · rw [hi] at h
            cases h
          · rw [hi] at h ⊢
            simp only at h ⊢
            injection h with h
            subst h
            exact ⟨by rw [← hd1]; rfl, hd2, rfl⟩

end EmployeeService

namespace CardService

/-- The two outcomes of `createCard`: an error and the store as it was, or the
new card appended to cards that keep the constraints. -/
theorem createCard_cases (conn : Connection) (db : Database) (newId : String)
    (data : CardData) :
    (∃ e, createCard conn db newId data = (.error e, db)) ∨
      (createCard conn db newId data =
          (.ok (CardRepository.newRow newId data),
            { db with access_card := db.access_card ++ [CardRepository.newRow newId data] }) ∧
        CardRepository.unique (db.access_card ++ [CardRepository.newRow newId data]) = true) := by
  unfold createCard
  cases EmployeeRepository.findById conn db data.employee_id with
  | error e => exact Or.inl ⟨e, rfl⟩
  | ok employee =>
    cases CardRepository.findByEmployee conn db data.employee_id with
    | error e => exact Or.inl ⟨e, rfl⟩
    | ok found =>
      cases found with
      | some c => exact Or.inl ⟨_, rfl⟩
      | none =>
        cases CardRepository.findByUid conn db data.card_uid with
        | error e => exact Or.inl ⟨e, rfl⟩
        | ok byUid =>
          cases byUid with
          | some c => exact Or.inl ⟨_, rfl⟩
          | none => exact CardRepository.create_cases conn db newId data

/-- For an employee who has a card, `createCard` fails and stores nothing. -/
theorem createCard_of_holder {conn : Connection} {db : Database} {card : AccessCardRow}
    (newId : String) {data : CardData}
    (hmem : card ∈ db.access_card) (hcard : card.employee_id = some data.employee_id) :
    ∃ e, createCard conn db newId data = (.error e, db) := by
  rcases createCard_cases conn db newId data with h | ⟨_, hv⟩
  · exact h
  · exact absurd hv (CardRepository.not_unique_of_holder newId hmem hcard)

/-- For an employee who is found and has a card, when the store answers the
read of the cards, `createCard` fails with the ConflictError of the service. -/
theorem createCard_conflict {conn : Connection} {db : Database} {card : AccessCardRow}
    {employee : EmployeeRow} (newId : String) {data : CardData}
    (hinv : OneCardPerEmployee db)
    (hmem : card ∈ db.access_card) (hcard : card.employee_id = some data.employee_id)
    (hfound : EmployeeRepository.findById conn db data.employee_id = .ok employee)
    (hselect : conn.selectError "access_card" = none) :
    createCard conn db newId data =
      (.error (.conflict "Employee already has an access card"), db) := by
  unfold createCard
  rw [hfound]
  simp only
  rw [CardRepository.findByEmployee_of_holder hinv hmem hcard hselect]

theorem createCard_keeps_one_card (conn : Connection) (db : Database) (newId : String)
    (data : CardData) (hinv : OneCardPerEmployee db) :
    OneCardPerEmployee (createCard conn db newId data).2 := by
  rcases createCard_cases conn db newId data with ⟨e, h⟩ | ⟨h, hv⟩
  · rw [h]
    exact hinv
  · rw [h]
    exact CardRepository.oneCard_of_unique hv

end CardService

end BuildingAccess

namespace BuildingAccess

open EmployeeService CardService

/-- C26, the sentence as it stands fails: "issueCard fails with a ConflictError
when the employee already has a card". In the example store, where no two cards
share an employee, Dan (`e4`) has the card `c4` and is INACTIVE: `issueCard`
for him fails with the ValidationError of the status check, which comes before
the check of the card, and not with a ConflictError. -/
theorem issueCard_inactive_holder_is_validation_error :
    OneCardPerEmployee Demo.db ∧
    (∃ card ∈ Demo.db.access_card, card.employee_id = some "e4") ∧
    issueCard healthy Demo.db "c9" "0b5e" "2024-03-04T13:00:00.000Z" "e4" none =
      (.error (.validation "Cannot issue card to inactive employee"), Demo.db) ∧
    ∀ message, (issueCard healthy Demo.db "c9" "0b5e" "2024-03-04T13:00:00.000Z" "e4" none).1 ≠
      .error (.conflict message) :=
  ⟨by unfold OneCardPerEmployee; decide,
   ⟨{ id := "c4", card_uid := "CARD-0004", employee_id := some "e4", status := "ACTIVE" },
     by decide, rfl⟩,
   rfl, fun _ h => by cases h⟩

/-- C26, amended: at most one card per employee is an invariant of card
issuance. From a store with at most one card per employee: for an employee who
has a card, `EmployeeService.issueCard` and `CardService.createCard` fail and
leave the store unchanged, whatever the store answers, and the failure is the
ConflictError "Employee already has an access card" when the checks before it
pass (the employee is found and, for `issueCard`, ACTIVE) and the store answers
the read of the cards; a successful `EmployeeService.replaceCard` for an
employee who has the card `old` returns an ACTIVE card of that employee and
leaves the cards without `old` plus the new card; and the store after each of
the three operations has at most one card per employee. -/
theorem card_issuance_keeps_one_card_per_employee (conn : Connection) (db : Database)
    (newId uuid now employeeId : String) (cardUid : Option String) (cardData : CardData)
    (hinv : OneCardPerEmployee db) :
    (∀ card ∈ db.access_card, card.employee_id = some employeeId →
      (∃ e, issueCard conn db newId uuid now employeeId cardUid = (.error e, db)) ∧
      (∀ employee, EmployeeRepository.findById conn db employeeId = .ok employee →
        employee.status = "ACTIVE" → conn.selectError "access_card" = none →
        issueCard conn db newId uuid now employeeId cardUid =
          (.error (.conflict "Employee already has an access card"), db))) ∧
    (∀ card ∈ db.access_card, card.employee_id = some cardData.employee_id →
      (∃ e, createCard conn db newId cardData = (.error e, db)) ∧
      (∀ employee, EmployeeRepository.findById conn db cardData.employee_id = .ok employee →
        conn.selectError "access_card" = none →
        createCard conn db newId cardData =
          (.error (.conflict "Employee already has an access card"), db))) ∧
    (∀ old ∈ db.access_card, old.employee_id = some employeeId →
      ∀ row, (replaceCard conn db newId uuid now employeeId cardUid).1 = .ok row →
        row.employee_id = some employeeId ∧ row.status = "ACTIVE" ∧
        (replaceCard conn db newId uuid now employeeId cardUid).2 =
          { db with access_card :=
              (db.access_card.filter fun c => !(c.id == old.id)) ++ [row] }) ∧
    OneCardPerEmployee (issueCard conn db newId uuid now employeeId cardUid).2 ∧
    OneCardPerEmployee (createCard conn db newId cardData).2 ∧
    OneCardPerEmployee (replaceCard conn db newId uuid now employeeId cardUid).2 :=
  ⟨fun _ hmem hcard =>
     ⟨issueCard_of_holder newId uuid now cardUid hmem hcard,
      fun _ hfound hactive hselect =>
        issueCard_conflict newId uuid now cardUid hinv hmem hcard hfound hactive hselect⟩,
   fun _ hmem hcard =>
     ⟨createCard_of_holder newId hmem hcard,
      fun _ hfound hselect => createCard_conflict newId hinv hmem hcard hfound hselect⟩,
   fun _ hmem hold _ h => replaceCard_ok hinv hmem hold h,
   issueCard_keeps_one_card conn db newId uuid now employeeId cardUid hinv,
   createCard_keeps_one_card conn db newId cardData hinv,
   replaceCard_keeps_one_card conn db newId uuid now employeeId cardUid hinv⟩

/-- C26 at work on the example store, for Alice (`e1`), who is ACTIVE and has
the card `c1`: `issueCard` and `createCard` fail with the ConflictError and
store nothing; `replaceCard` removes the card `c1` and appends the new card;
after each call no two cards share an employee. -/
theorem card_issuance_keeps_one_card_per_employee_witness :
    OneCardPerEmployee Demo.db ∧
    issueCard healthy Demo.db "c9" "0b5e" "2024-03-04T13:00:00.000Z" "e1" (some "CARD-0009") =
      (.error (.conflict "Employee already has an access card"), Demo.db) ∧
    createCard healthy Demo.db "c9" Demo.secondCard =
      (.error (.conflict "Employee already has an access card"), Demo.db) ∧
    replaceCard healthy Demo.db "c9" "0b5e" "2024-03-04T13:00:00.000Z" "e1" (some "CARD-0009") =
      (.ok Demo.replacement,
       { Demo.db with access_card := Demo.db.access_card.tail ++ [Demo.replacement] }) ∧
    OneCardPerEmployee
      (issueCard healthy Demo.db "c9" "0b5e" "2024-03-04T13:00:00.000Z" "e1"
        (some "CARD-0009")).2 ∧
    OneCardPerEmployee (createCard healthy Demo.db "c9" Demo.secondCard).2 ∧
    OneCardPerEmployee
      (replaceCard healthy Demo.db "c9" "0b5e" "2024-03-04T13:00:00.000Z" "e1"
        (some "CARD-0009")).2 :=
  ⟨by unfold OneCardPerEmployee; decide, rfl, rfl, rfl,
   (card_issuance_keeps_one_card_per_employee healthy Demo.db "c9" "0b5e"
     "2024-03-04T13:00:00.000Z" "e1" (some "CARD-0009") Demo.secondCard
     (by unfold OneCardPerEmployee; decide)).2.2.2⟩

end BuildingAccess

namespace BuildingAccess

/-! ## Facts about the activation of an employee -/

theorem single_ok {α : Type} {rows : List α} {row : α} (h : single rows = .ok row) :
    rows = [row] := by
  match rows, h with
  | [x], h =>
    simp only [single] at h
    injection h with h
    rw [h]

theorem filter_map_of_invariant {α : Type} (p : α → Bool) (f : α → α)
    (h : ∀ a, p (f a) = p a) (rows : List α) :
    (rows.map f).filter p = (rows.filter p).map f := by
  induction rows with
  | nil => rfl
  | cons r rows ih =>
    simp only [List.map_cons, List.filter_cons, h r]
    split
    · rw [List.map_cons, ih]
    · exact ih

namespace EmployeeRepository

theorem employee_update_cases (conn : Connection) (db : Database) (id status : String) :
    (∃ e, update conn db id status = (.error e, db)) ∨
      ∃ x, db.employee.filter (fun e => e.id == id) = [x] ∧
        update conn db id status =
          (.ok (x.withStatus status),
            { db with employee :=
                db.employee.map fun e => if e.id == id then e.withStatus status else e }) := by
  unfold update
  rcases updateSingle_cases (conn.updateError "employee") (fun _ => true) db.employee
    (fun e => e.id == id) (fun e => e.withStatus status) with ⟨e, h⟩ | ⟨x, hx, h⟩
  · rw [h]
    simp only
    split
    · exact Or.inl ⟨_, rfl⟩
    · exact Or.inl ⟨_, rfl⟩
  · rw [h]
    exact Or.inr ⟨x, hx, rfl⟩

theorem findById_ok {conn : Connection} {db : Database} {id : String} {employee : EmployeeRow}
    (h : findById conn db id = .ok employee) :
    db.employee.filter (fun e => e.id == id) = [employee] := by
  unfold findById select at h
  cases hs : conn.selectError "employee" with
  | some e =>
    rw [hs] at h
    simp only [Except.bind] at h
    split at h <;> cases h
  | none =>
    rw [hs] at h
    simp only [Except.bind] at h
    cases hr : single (db.employee.filter fun e => e.id == id) with
    | error e =>
      rw [hr] at h
      simp only at h
      split at h <;> cases h
    | ok row =>
      rw [hr] at h
      simp only at h
      injection h with h
      subst h
      exact single_ok hr

end EmployeeRepository

namespace CardRepository

theorem findByUid_ok {conn : Connection} {db : Database} {cardUid : String} {card : Card}
    (h : findByUid conn db cardUid = .ok (some card)) :
    conn.selectError "access_card" = none ∧
      ∃ c, db.access_card.filter (fun c => c.card_uid == cardUid) = [c] ∧
        c.status = card.status := by
  unfold findByUid select at h
  cases hs : conn.selectError "access_card" with
  | some e =>
    rw [hs] at h
    simp only [Except.bind] at h
    split at h <;> cases h
  | none =>
    refine ⟨rfl, ?_⟩
    rw [hs] at h
    simp only [Except.bind] at h
    match hl : db.access_card.filter (fun c => c.card_uid == cardUid) with
    | [] => rw [hl] at h; simp [single] at h
    | [c] =>
      rw [hl] at h
      simp only [List.map_cons, List.map_nil, single] at h
      injection h with h
      injection h with h
      exact ⟨c, hl, by rw [← h]⟩
    | _ :: _ :: _ => rw [hl] at h; simp [single] at h

theorem findByUid_of_filter {conn : Connection} {db : Database} {cardUid : String}
    {c : AccessCardRow} (hs : conn.selectError "access_card" = none)
    (hl : db.access_card.filter (fun c => c.card_uid == cardUid) = [c]) :
    ∃ card, findByUid conn db cardUid = .ok (some card) ∧ card.status = c.status := by
  unfold findByUid select
  rw [hs, hl]
  exact ⟨_, rfl, rfl⟩

theorem findByEmployee_of_filter {conn : Connection} {db : Database} {employeeId : String}
    {c : AccessCardRow} (hs : conn.selectError "access_card" = none)
    (hl : db.access_card.filter (fun c => c.employee_id == some employeeId) = [c]) :
    findByEmployee conn db employeeId = .ok (some c) := by
  unfold findByEmployee select
  rw [hs, hl]
  rfl

theorem findByEmployee_select {conn : Connection} {db : Database} {employeeId : String}
    {card : AccessCardRow} (h : findByEmployee conn db employeeId = .ok (some card)) :
    conn.selectError "access_card" = none := by
  unfold findByEmployee select at h
  cases hs : conn.selectError "access_card" with
  | some e =>
    rw [hs] at h
    simp only [Except.bind] at h
    split at h <;> simp at h
  | none => rfl

end CardRepository

namespace EmployeeService

/-- What a successful `activateEmployee` did: the rows of the employee got the
status ACTIVE, the cards were mapped by a function that keeps the id, the UID
and the employee of a card, that fixes every card whose status is not INACTIVE,
and that makes the INACTIVE card of the employee ACTIVE; and the returned
employee is the row that the lookup finds at the end. -/
theorem activateEmployee_ok {conn : Connection} {db db2 : Database} {id : String}
    {employee : EmployeeRow} (h : activateEmployee conn db id = (.ok employee, db2)) :
    EmployeeRepository.findById conn db2 id = .ok employee ∧
    db2.employee = (db.employee.map fun e => if e.id == id then e.withStatus "ACTIVE" else e) ∧
    ∃ f : AccessCardRow → AccessCardRow,
      db2.access_card = db.access_card.map f ∧
      (∀ c, (f c).id = c.id ∧ (f c).card_uid = c.card_uid ∧
        (f c).employee_id = c.employee_id) ∧
      (∀ c ∈ db.access_card, c.status ≠ "INACTIVE" → f c = c) ∧
      (∀ card, CardRepository.findByEmployee conn db id = .ok (some card) →
        card.status = "INACTIVE" → f card = card.withStatus "ACTIVE") := by
  unfold activateEmployee at h
  cases hf : EmployeeRepository.findById conn db id with
  | error e => rw [hf] at h; cases h
  | ok found =>
    rw [hf] at h
    simp only at h
    rcases EmployeeRepository.employee_update_cases conn db id "ACTIVE" with ⟨e, hu⟩ | ⟨x, _, hu⟩
    · rw [hu] at h
      cases h
    · rw [hu] at h
      simp only at h
      have hlook : CardRepository.findByEmployee conn
          { db with employee :=
              db.employee.map fun e => if e.id == id then e.withStatus "ACTIVE" else e } id =
          CardRepository.findByEmployee conn db id := rfl
      rw [hlook] at h
      cases hc : CardRepository.findByEmployee conn db id with
      | error e => rw [hc] at h; cases h
      | ok card =>
        rw [hc] at h
        simp only at h
        -- the card is left alone
        have hkeep : ∀ {db3 : Database},
            (match EmployeeRepository.findById conn db3 id with
              | .error e => ((.error e, db3) : Except Fault EmployeeRow × Database)
              | .ok employee => (.ok employee, db3)) = (.ok employee, db2) →
            db3 = db2 ∧ EmployeeRepository.findById conn db2 id = .ok employee := by
          intro db3 h3
          cases h4 : EmployeeRepository.findById conn db3 id with
          | error e => rw [h4] at h3; cases h3
          | ok e3 =>
            rw [h4] at h3
            simp only at h3
            injection h3 with h5 h6
            injection h5 with h5
            subst h5
            subst h6
            exact ⟨rfl, h4⟩
        cases card with
        | none =>
          simp only at h
          obtain ⟨hdb, hfind⟩ := hkeep h
          subst hdb
          refine ⟨hfind, rfl, fun c => c, (List.map_id _).symm, fun _ => ⟨rfl, rfl, rfl⟩,
            fun _ _ _ => rfl, fun _ h1 _ => by cases h1⟩
        | some card =>
          simp only at h
          by_cases hst : card.status = "INACTIVE"
          · simp only [hst, beq_self_eq_true, if_true] at h
            rcases CardRepository.card_update_cases conn
              { db with employee :=
                  db.employee.map fun e => if e.id == id then e.withStatus "ACTIVE" else e }
              card.id "ACTIVE" with ⟨e, hcu⟩ | ⟨y, hy, hcu⟩
            · rw [hcu] at h
              cases h
            · rw [hcu] at h
              simp only at h hy
              obtain ⟨hdb, hfind⟩ := hkeep h
              subst hdb
              have hcard : card ∈ db.access_card :=
                (List.mem_filter.1 (by
                  rw [CardRepository.findByEmployee_some hc]
                  exact List.mem_singleton.2 rfl)).1
              have hycard : y = card := by
                have : card ∈ db.access_card.filter (fun c => c.id == card.id) :=
                  List.mem_filter.2 ⟨hcard, by simp⟩
                rw [hy] at this
                exact (List.mem_singleton.1 this).symm
              refine ⟨hfind, rfl,
                fun c => if c.id == card.id then c.withStatus "ACTIVE" else c, rfl,
                fun c => ?_, fun c hcmem hcst => ?_, fun card2 h2 _ => ?_⟩
              · by_cases hid : (c.id == card.id) = true
                · simp only [hid, if_true]
                  exact ⟨rfl, rfl, rfl⟩
                · simp only [hid, if_false]
                  exact ⟨rfl, rfl, rfl⟩
              · by_cases hid : (c.id == card.id) = true
                · have : c ∈ db.access_card.filter (fun c => c.id == card.id) :=
                    List.mem_filter.2 ⟨hcmem, hid⟩
                  rw [hy, hycard] at this
                  rw [List.mem_singleton.1 this] at hcst
                  exact absurd hst hcst
                · simp only [hid, if_false]
                  rfl
              · injection h2 with h2
                injection h2 with h2
                subst h2
                simp
          · have hne : (card.status == "INACTIVE") = false := by
              simpa using hst
            simp only [hne, Bool.false_eq_true, if_false] at h
            obtain ⟨hdb, hfind⟩ := hkeep h
            subst hdb
            refine ⟨hfind, rfl, fun c => c, (List.map_id _).symm, fun _ => ⟨rfl, rfl, rfl⟩,
              fun _ _ _ => rfl, fun card2 h2 h3 => ?_⟩
            injection h2 with h2
            injection h2 with h2
            subst h2
            exact absurd h3 hst

end EmployeeService

end BuildingAccess

namespace BuildingAccess

open AccessVerificationService EmployeeService

/-- C30: `EmployeeService.activateEmployee` never re-enables a revoked card.
After a successful call for the employee `id`, which returns `employee` and
leaves the store `db2`: the employee returned is the employee `id`, a row of
the store, and ACTIVE; the card of the employee, if the lookup found it
INACTIVE, is found ACTIVE; every card that was BLOCKED or LOST is in the store
as it was; and for a card that the lookup of the reader found BLOCKED or LOST
before the call, `verifyAccess` after the call still returns DENIED with
"Card is BLOCKED" or "Card is LOST", at every door and time. -/
theorem activateEmployee_keeps_revoked_cards {conn : Connection} {db db2 : Database}
    {id : String} {employee : EmployeeRow}
    (h : activateEmployee conn db id = (.ok employee, db2)) :
    (employee.id = id ∧ employee.status = "ACTIVE" ∧ employee ∈ db2.employee) ∧
    (∀ card, CardRepository.findByEmployee conn db id = .ok (some card) →
      card.status = "INACTIVE" →
      CardRepository.findByEmployee conn db2 id = .ok (some (card.withStatus "ACTIVE"))) ∧
    (∀ card ∈ db.access_card, card.status = "BLOCKED" ∨ card.status = "LOST" →
      card ∈ db2.access_card) ∧
    (∀ (conn2 : Connection) (clock : Clock) (cardUid doorId : String) (card : Card),
      CardRepository.findByUid conn2 db cardUid = .ok (some card) →
      card.status = "BLOCKED" ∨ card.status = "LOST" →
      verifyAccess (repositories conn2) clock db2 cardUid doorId =
        denied (repositories conn2) clock db2 cardUid doorId ("Card is " ++ card.status)) := by
  obtain ⟨hfind, hemp, f, hcards, hfix, hkeep, hact⟩ := activateEmployee_ok h
  have hrevoked : ∀ status : String, status = "BLOCKED" ∨ status = "LOST" →
      status ≠ "INACTIVE" ∧ status ≠ "ACTIVE" := by
    rintro status (hs | hs) <;> rw [hs] <;> decide
  refine ⟨?_, ?_, ?_, ?_⟩
  · have hl := EmployeeRepository.findById_ok hfind
    have hmem : employee ∈ db2.employee.filter (fun e => e.id == id) := by
      rw [hl]
      exact List.mem_singleton.2 rfl
    obtain ⟨hin, hid⟩ := List.mem_filter.1 hmem
    have hid2 : employee.id = id := by simpa using hid
    refine ⟨hid2, ?_, hin⟩
    rw [hemp] at hin
    obtain ⟨e0, _, he0⟩ := List.mem_map.1 hin
    by_cases h0 : (e0.id == id) = true
    · simp only [h0, if_true] at he0
      rw [← he0]
      rfl
    · simp only [h0, Bool.false_eq_true, if_false] at he0
      rw [he0] at h0
      exact absurd hid h0
  · intro card hc hst
    apply CardRepository.findByEmployee_of_filter (CardRepository.findByEmployee_select hc)
    rw [hcards, filter_map_of_invariant (fun c => c.employee_id == some id) f
      (fun c => by simp only [(hfix c).2.2]), CardRepository.findByEmployee_some hc,
      List.map_cons, List.map_nil, hact card hc hst]
  · intro card hmem hst
    rw [hcards]
    exact List.mem_map.2 ⟨card, hmem, hkeep card hmem (hrevoked _ hst).1⟩
  · intro conn2 clock cardUid doorId card hlook hst
    obtain ⟨hs, c, hl, hstatus⟩ := CardRepository.findByUid_ok hlook
    have hmem : c ∈ db.access_card :=
      (List.mem_filter.1 (by rw [hl]; exact List.mem_singleton.2 rfl)).1
    have hl2 : db2.access_card.filter (fun c => c.card_uid == cardUid) = [c] := by
      rw [hcards, filter_map_of_invariant (fun c => c.card_uid == cardUid) f
        (fun c => by simp only [(hfix c).2.1]), hl, List.map_cons, List.map_nil,
        hkeep c hmem (by rw [hstatus]; exact (hrevoked _ hst).1)]
    obtain ⟨card2, hfind2, hst2⟩ := CardRepository.findByUid_of_filter hs hl2
    have hstep := @step_cardNotActive (repositories conn2) db2 cardUid card2 hfind2
      (by rw [hst2, hstatus]; exact (hrevoked _ hst).2) clock doorId
    rw [hst2, hstatus] at hstep
    exact hstep

/-- C30 at work on the store of the three deactivated employees. Activating
Hal makes his INACTIVE card ACTIVE. Activating Bob succeeds and leaves his card
BLOCKED: the card is still denied with "Card is BLOCKED". Activating Ivy
succeeds and leaves her card LOST: the card is still denied with "Card is
LOST". -/
theorem activateEmployee_keeps_revoked_cards_witness :
    (activateEmployee healthy Demo.leavers "e8").1 =
      .ok { id := "e8", name := "Hal", status := "ACTIVE", role_id := some "r1" } ∧
    CardRepository.findByEmployee healthy (activateEmployee healthy Demo.leavers "e8").2 "e8" =
      .ok (some { id := "c8", card_uid := "CARD-0008", employee_id := some "e8",
                  status := "ACTIVE" }) ∧
    (activateEmployee healthy Demo.leavers "e2").1 =
      .ok { id := "e2", name := "Bob", status := "ACTIVE", role_id := some "r1" } ∧
    verifyAccess (repositories healthy) (Demo.clockAt "12:00:00")
        (activateEmployee healthy Demo.leavers "e2").2 "CARD-0002" "d1" =
      denied (repositories healthy) (Demo.clockAt "12:00:00")
        (activateEmployee healthy Demo.leavers "e2").2 "CARD-0002" "d1" "Card is BLOCKED" ∧
    verifyAccess (repositories healthy) (Demo.clockAt "12:00:00")
        (activateEmployee healthy Demo.leavers "e9").2 "CARD-0009" "d1" =
      denied (repositories healthy) (Demo.clockAt "12:00:00")
        (activateEmployee healthy Demo.leavers "e9").2 "CARD-0009" "d1" "Card is LOST" :=
  ⟨rfl, rfl, rfl,
   (@activateEmployee_keeps_revoked_cards healthy Demo.leavers
      (activateEmployee healthy Demo.leavers "e2").2 "e2"
      { id := "e2", name := "Bob", status := "ACTIVE", role_id := some "r1" } rfl).2.2.2
     healthy (Demo.clockAt "12:00:00") "CARD-0002" "d1"
     { id := "c2", card_uid := "CARD-0002", employee_id := some "e2", status := "BLOCKED",
       employee := some { id := "e2", name := "Bob", status := "INACTIVE",
                          role := some Demo.roleEmployee } }
     rfl (Or.inl rfl),
   (@activateEmployee_keeps_revoked_cards healthy Demo.leavers
      (activateEmployee healthy Demo.leavers "e9").2 "e9"
      { id := "e9", name := "Ivy", status := "ACTIVE", role_id := some "r1" } rfl).2.2.2
     healthy (Demo.clockAt "12:00:00") "CARD-0009" "d1"
     { id := "c9", card_uid := "CARD-0009", employee_id := some "e9", status := "LOST",
       employee := some { id := "e9", name := "Ivy", status := "INACTIVE",
                          role := some Demo.roleEmployee } }
     rfl (Or.inr rfl)⟩

end BuildingAccess
